import Mathlib

/-!
# libtunefs.c (tunefs.ocfs2): session lifecycle, lock coordinator, progress flags

A shallow embedding of `tunefs.ocfs2/libtunefs.c`.

* C integers are natural numbers holding the bit pattern of the C value; a
  store into a 16-bit or 32-bit field is followed by `% 2 ^ 16` or `% 2 ^ 32`.
* `errcode_t` is `Int`; `0` is success.
* The process globals (`fs`, `cluster_locked`, `journal_clusters`, the
  environment variable `_TUNEFS_OCFS2_LOCK`) are the fields of `World`.
* Every call into libocfs2, o2cb, o2dlm or libc is appended to `World.trace`;
  what such a call returns is read from `World.oc`, indexed by the number of
  calls made so far, so every sequence of outcomes is covered.
* Constants that live in headers (ocfs2_fs.h, libtunefs.h, the com_err
  tables) are the fields of `Consts`.
* The `verbosef` progress messages are left out: they go to stdout and touch
  none of the state above.
-/

namespace Tunefs

/-- The C type `errcode_t` (a `long`); zero means success. -/
abbrev errcode_t := Int

/-- Constants used by libtunefs.c whose definitions are in headers
(ocfs2_fs.h, libtunefs.h, and the com_err tables), taken as parameters. Bit
masks are natural numbers, error codes are integers. -/
structure Consts where
  OCFS2_FEATURE_INCOMPAT_HEARTBEAT_DEV : Nat
  OCFS2_FEATURE_INCOMPAT_RESIZE_INPROG : Nat
  OCFS2_FEATURE_INCOMPAT_TUNEFS_INPROG : Nat
  OCFS2_JOURNAL_DIRTY_FL : Nat
  TUNEFS_FLAG_RW : Nat
  TUNEFS_FLAG_ONLINE : Nat
  TUNEFS_FLAG_NOCLUSTER : Nat
  TUNEFS_ET_INVALID_STACK_NAME : errcode_t
  TUNEFS_ET_PERFORM_ONLINE : errcode_t
  TUNEFS_ET_INTERNAL_FAILURE : errcode_t
  TUNEFS_ET_HEARTBEAT_DEV : errcode_t
  TUNEFS_ET_RESIZE_IN_PROGRESS : errcode_t
  TUNEFS_ET_TUNEFS_IN_PROGRESS : errcode_t
  TUNEFS_ET_JOURNAL_DIRTY : errcode_t
  O2CB_ET_INVALID_STACK_NAME : errcode_t
  O2DLM_ET_TRYLOCK_FAILED : errcode_t

/-- What the code relies on about the header constants: the two in-progress
feature masks are nonzero 32-bit masks without a common bit, and the tunefs
error codes are nonzero and pairwise different. -/
def Consts.wf (c : Consts) : Prop :=
  c.OCFS2_FEATURE_INCOMPAT_RESIZE_INPROG ≠ 0 ∧
  c.OCFS2_FEATURE_INCOMPAT_TUNEFS_INPROG ≠ 0 ∧
  c.OCFS2_FEATURE_INCOMPAT_RESIZE_INPROG < 2 ^ 32 ∧
  c.OCFS2_FEATURE_INCOMPAT_TUNEFS_INPROG < 2 ^ 32 ∧
  c.OCFS2_FEATURE_INCOMPAT_RESIZE_INPROG &&& c.OCFS2_FEATURE_INCOMPAT_TUNEFS_INPROG = 0 ∧
  [0, c.TUNEFS_ET_INVALID_STACK_NAME, c.TUNEFS_ET_PERFORM_ONLINE,
    c.TUNEFS_ET_INTERNAL_FAILURE, c.TUNEFS_ET_HEARTBEAT_DEV,
    c.TUNEFS_ET_RESIZE_IN_PROGRESS, c.TUNEFS_ET_TUNEFS_IN_PROGRESS,
    c.TUNEFS_ET_JOURNAL_DIRTY].Nodup

instance (c : Consts) : Decidable c.wf :=
  inferInstanceAs (Decidable (_ ∧ _))

/-- The header values of ocfs2-tools for the masks (ocfs2_fs.h, libtunefs.h);
the com_err codes are generated at build time, so representative distinct
values stand for them. Used for concrete evaluations only. -/
def ocfs2_consts : Consts where
  OCFS2_FEATURE_INCOMPAT_HEARTBEAT_DEV := 0x0002
  OCFS2_FEATURE_INCOMPAT_RESIZE_INPROG := 0x0004
  OCFS2_FEATURE_INCOMPAT_TUNEFS_INPROG := 0x0020
  OCFS2_JOURNAL_DIRTY_FL := 0x00000001
  TUNEFS_FLAG_RW := 0x01
  TUNEFS_FLAG_ONLINE := 0x02
  TUNEFS_FLAG_NOCLUSTER := 0x04
  TUNEFS_ET_INVALID_STACK_NAME := 1001
  TUNEFS_ET_PERFORM_ONLINE := 1002
  TUNEFS_ET_INTERNAL_FAILURE := 1003
  TUNEFS_ET_HEARTBEAT_DEV := 1004
  TUNEFS_ET_RESIZE_IN_PROGRESS := 1005
  TUNEFS_ET_TUNEFS_IN_PROGRESS := 1006
  TUNEFS_ET_JOURNAL_DIRTY := 1007
  O2CB_ET_INVALID_STACK_NAME := 2001
  O2DLM_ET_TRYLOCK_FAILED := 3001

/-- The fields of `struct ocfs2_super_block` (reached through `OCFS2_RAW_SB`)
that libtunefs.c reads or writes: a 32-bit, a 16-bit and a 16-bit field. -/
structure ocfs2_super_block where
  s_feature_incompat : Nat
  s_tunefs_flag : Nat
  s_max_slots : Nat

/-- The fields of a journal's `struct ocfs2_dinode` that libtunefs.c reads. -/
structure ocfs2_dinode where
  i_clusters : Nat
  ij_flags : Nat

/-- The handle `ocfs2_filesys`, together with what the library answers about
the volume behind it: `mount_local` is the value of `ocfs2_mount_local(fs)`,
`lookup_journal i` is the result and block number of looking up the journal
inode of slot `i`, `read_inode blkno` the result and content of reading an
inode. `fs_dlm_ctxt` tells whether the pointer of that name is non-NULL. -/
structure ocfs2_filesys where
  fs_super : ocfs2_super_block
  fs_dlm_ctxt : Bool
  mount_local : Bool
  lookup_journal : Nat → errcode_t × Nat
  read_inode : Nat → errcode_t × ocfs2_dinode

/-- The C expression `~x` for a 32-bit `int`, as a bit pattern. -/
def lnot32 (x : Nat) : Nat := (2 ^ 32 - 1) ^^^ (x % 2 ^ 32)

/-- The function `tunefs_set_in_progress`: `wr` is what
`ocfs2_write_primary_super` returns for the handle it is given; `flag` is the
bit pattern of the `int` argument. -/
def tunefs_set_in_progress (c : Consts) (wr : ocfs2_filesys → errcode_t)
    (fs : ocfs2_filesys) (flag : Nat) : errcode_t × ocfs2_filesys :=
  let fs1 : ocfs2_filesys :=
    if flag = c.OCFS2_FEATURE_INCOMPAT_RESIZE_INPROG then
      { fs with fs_super := { fs.fs_super with
          s_feature_incompat :=
            (fs.fs_super.s_feature_incompat |||
              c.OCFS2_FEATURE_INCOMPAT_RESIZE_INPROG) % 2 ^ 32 } }
    else
      { fs with fs_super := { fs.fs_super with
          s_feature_incompat :=
            (fs.fs_super.s_feature_incompat |||
              c.OCFS2_FEATURE_INCOMPAT_TUNEFS_INPROG) % 2 ^ 32
          s_tunefs_flag := (fs.fs_super.s_tunefs_flag ||| flag) % 2 ^ 16 } }
  (wr fs1, fs1)

/-- The function `tunefs_clear_in_progress`. -/
def tunefs_clear_in_progress (c : Consts) (wr : ocfs2_filesys → errcode_t)
    (fs : ocfs2_filesys) (flag : Nat) : errcode_t × ocfs2_filesys :=
  let fs1 : ocfs2_filesys :=
    if flag = c.OCFS2_FEATURE_INCOMPAT_RESIZE_INPROG then
      { fs with fs_super := { fs.fs_super with
          s_feature_incompat :=
            (fs.fs_super.s_feature_incompat &&&
              lnot32 c.OCFS2_FEATURE_INCOMPAT_RESIZE_INPROG) % 2 ^ 32 } }
    else
      let tf := (fs.fs_super.s_tunefs_flag &&& lnot32 flag) % 2 ^ 16
      if tf = 0 then
        { fs with fs_super := { fs.fs_super with
            s_tunefs_flag := tf
            s_feature_incompat :=
              (fs.fs_super.s_feature_incompat &&&
                lnot32 c.OCFS2_FEATURE_INCOMPAT_TUNEFS_INPROG) % 2 ^ 32 } }
      else
        { fs with fs_super := { fs.fs_super with s_tunefs_flag := tf } }
  (wr fs1, fs1)

/-- The umbrella bit `OCFS2_FEATURE_INCOMPAT_TUNEFS_INPROG` is set, tested the
way `tunefs_open` tests it. -/
def umbrella_set (c : Consts) (sb : ocfs2_super_block) : Prop :=
  sb.s_feature_incompat &&& c.OCFS2_FEATURE_INCOMPAT_TUNEFS_INPROG ≠ 0

instance (c : Consts) (sb : ocfs2_super_block) : Decidable (umbrella_set c sb) :=
  inferInstanceAs (Decidable (_ ≠ _))

/-- The ledger invariant: the umbrella bit is set exactly when `s_tunefs_flag`
is nonzero. -/
def ledger_inv (c : Consts) (sb : ocfs2_super_block) : Prop :=
  umbrella_set c sb ↔ sb.s_tunefs_flag ≠ 0

instance (c : Consts) (sb : ocfs2_super_block) : Decidable (ledger_inv c sb) :=
  inferInstanceAs (Decidable (_ ↔ _))

/-- One call on the in-progress flag ledger. -/
inductive LedgerOp where
  | set (flag : Nat)
  | clear (flag : Nat)

/-- Run one ledger call on the handle. -/
def LedgerOp.run (c : Consts) (wr : ocfs2_filesys → errcode_t)
    (fs : ocfs2_filesys) : LedgerOp → ocfs2_filesys
  | .set flag => (tunefs_set_in_progress c wr fs flag).2
  | .clear flag => (tunefs_clear_in_progress c wr fs flag).2

/-- Run a sequence of ledger calls, first call first. -/
def run_ledger (c : Consts) (wr : ocfs2_filesys → errcode_t)
    (fs : ocfs2_filesys) (ops : List LedgerOp) : ocfs2_filesys :=
  ops.foldl (LedgerOp.run c wr) fs

/-- A flag argument that `tunefs_set_in_progress` records somewhere: the legacy
resize flag, or a flag with at least one of its low 16 bits set. -/
def recordable (c : Consts) (flag : Nat) : Prop :=
  flag = c.OCFS2_FEATURE_INCOMPAT_RESIZE_INPROG ∨ flag % 2 ^ 16 ≠ 0

instance (c : Consts) (flag : Nat) : Decidable (recordable c flag) :=
  inferInstanceAs (Decidable (_ ∨ _))

/-- Every `set` call of the sequence has a recordable flag. -/
def LedgerOp.ok (c : Consts) : LedgerOp → Prop
  | .set flag => recordable c flag
  | .clear _ => True

/-- The values `tunefs_open` tests and the ledger maintains: whether the
RESIZE_INPROG bit is set, whether the TUNEFS_INPROG bit is set, and
`s_tunefs_flag`. -/
def progress_bits (c : Consts) (sb : ocfs2_super_block) : Bool × Bool × Nat :=
  (decide (sb.s_feature_incompat &&& c.OCFS2_FEATURE_INCOMPAT_RESIZE_INPROG ≠ 0),
   decide (sb.s_feature_incompat &&& c.OCFS2_FEATURE_INCOMPAT_TUNEFS_INPROG ≠ 0),
   sb.s_tunefs_flag)

/-- A handle on a volume with the given superblock, no journals, for concrete
evaluations of the ledger. -/
def fs_of_super (sb : ocfs2_super_block) : ocfs2_filesys where
  fs_super := sb
  fs_dlm_ctxt := false
  mount_local := false
  lookup_journal := fun _ => (0, 0)
  read_inode := fun _ => (0, { i_clusters := 0, ij_flags := 0 })

/-! ## The session: process globals and the calls made to other libraries -/

/-- A call that leaves libtunefs.c. -/
inductive Event where
  | ocfs2_open (device : String) (rw : Bool)
  | ocfs2_close
  | o2cb_init
  | ocfs2_initialize_dlm
  | ocfs2_lock_down_cluster
  | ocfs2_release_cluster
  | ocfs2_shutdown_dlm
  | setenv (value : String)
  | unsetenv
  | sigprocmask_block
  | sigprocmask_unblock
  | io_init_cache
  | ocfs2_malloc_block
  | ocfs2_free
  | ocfs2_lookup_system_inode (slot : Nat)
  | ocfs2_read_inode (blkno : Nat)
  | ocfs2_lookup (slot : Nat)
  | ocfs2_make_journal (slot : Nat) (blkno : Nat) (clusters : Nat)
  deriving DecidableEq, Repr

/-- What the external calls return. The argument is the number of external
calls made before this one, so that a function called twice may answer
differently. `ocfs2_shutdown_dlm` also tells whether `fs_dlm_ctxt` is still
non-NULL afterwards; `setenv` and `unsetenv` return the C `int`;
`ocfs2_make_journal` also tells which `i_clusters` a failed call leaves in the
journal inode. -/
structure Outcomes where
  ocfs2_open : Nat → errcode_t
  ocfs2_close : Nat → errcode_t
  o2cb_init : Nat → errcode_t
  ocfs2_initialize_dlm : Nat → errcode_t
  ocfs2_lock_down_cluster : Nat → errcode_t
  ocfs2_release_cluster : Nat → errcode_t
  ocfs2_shutdown_dlm : Nat → errcode_t × Bool
  setenv : Nat → Int
  unsetenv : Nat → Int
  ocfs2_malloc_block : Nat → errcode_t
  ocfs2_make_journal : Nat → errcode_t × Nat

/-- The process state libtunefs.c works on: the globals `fs` (`none` is NULL),
`cluster_locked` (only 0 and 1 are ever stored) and `journal_clusters`, the
value of the environment variable `_TUNEFS_OCFS2_LOCK` (`none` when unset),
the volume found on each device, the outcomes of external calls, and the
external calls made so far. -/
structure World where
  fs : Option ocfs2_filesys
  cluster_locked : Bool
  journal_clusters : Nat
  lockenv : Option String
  volume : String → ocfs2_filesys
  oc : Outcomes
  trace : List Event

/-- Record an external call. -/
def World.log (w : World) (e : Event) : World :=
  { w with trace := w.trace ++ [e] }

/-- The external calls made between the state `w` and the later state `w1`. -/
def calls_since (w w1 : World) : List Event :=
  w1.trace.drop w.trace.length

/-- Apply `f` to the handle behind the global `fs`, when there is one. -/
def World.update_fs (w : World) (f : ocfs2_filesys → ocfs2_filesys) : World :=
  { w with fs := w.fs.map f }

/-- Modelled from the spec: `open(path, flags) → handle | error` of the
filesystem library libocfs2, which libtunefs.c only calls. On success the handle of
the volume on `device`, without a lock context, is stored in `fs`; on failure
`fs` is left as it was. -/
def ocfs2_open (device : String) (rw : Bool) (w : World) : errcode_t × World :=
  let r := w.oc.ocfs2_open w.trace.length
  (r, { w.log (.ocfs2_open device rw) with
        fs := if r = 0 then some { w.volume device with fs_dlm_ctxt := false } else w.fs })

/-- Modelled from the spec: `close(handle) → error` of the filesystem library.
The caller sets `fs` to NULL itself. -/
def ocfs2_close (w : World) : errcode_t × World :=
  (w.oc.ocfs2_close w.trace.length, w.log .ocfs2_close)

/-- Modelled from the spec: `init-membership-client() → error`. -/
def o2cb_init (w : World) : errcode_t × World :=
  (w.oc.o2cb_init w.trace.length, w.log .o2cb_init)

/-- Modelled from the spec: `init-lock-context(handle, identity) → error |
"no stack configured"`. A successful call leaves a lock context in
`fs_dlm_ctxt`; a failed call leaves the handle as it was. -/
def ocfs2_initialize_dlm (w : World) : errcode_t × World :=
  let r := w.oc.ocfs2_initialize_dlm w.trace.length
  (r, (w.log .ocfs2_initialize_dlm).update_fs
        (fun h => { h with fs_dlm_ctxt := if r = 0 then true else h.fs_dlm_ctxt }))

/-- Modelled from the spec: `try-acquire(handle) → success | would-block |
error`. -/
def ocfs2_lock_down_cluster (w : World) : errcode_t × World :=
  (w.oc.ocfs2_lock_down_cluster w.trace.length, w.log .ocfs2_lock_down_cluster)

/-- Modelled from the spec: `release(handle) → error`. -/
def ocfs2_release_cluster (w : World) : errcode_t × World :=
  (w.oc.ocfs2_release_cluster w.trace.length, w.log .ocfs2_release_cluster)

/-- Modelled from the spec: `shutdown-context(handle, identity) → error`.
Whether `fs_dlm_ctxt` is NULL afterwards is part of the outcome. -/
def ocfs2_shutdown_dlm (w : World) : errcode_t × World :=
  let r := w.oc.ocfs2_shutdown_dlm w.trace.length
  (r.1, (w.log .ocfs2_shutdown_dlm).update_fs (fun h => { h with fs_dlm_ctxt := r.2 }))

/-- The libc call `setenv("_TUNEFS_OCFS2_LOCK", value, 1)`: on success (return
value 0) the variable holds `value`, otherwise it is unchanged. -/
def setenv (value : String) (w : World) : Int × World :=
  let r := w.oc.setenv w.trace.length
  (r, { w.log (.setenv value) with lockenv := if r = 0 then some value else w.lockenv })

/-- The libc call `unsetenv("_TUNEFS_OCFS2_LOCK")`. -/
def unsetenv (w : World) : Int × World :=
  let r := w.oc.unsetenv w.trace.length
  (r, { w.log .unsetenv with lockenv := if r = 0 then none else w.lockenv })

/-- The value `TUNEFS_OCFS2_LOCK_ENV_LOCKED`. -/
def TUNEFS_OCFS2_LOCK_ENV_LOCKED : String := "locked"

/-- The value `TUNEFS_OCFS2_LOCK_ENV_ONLINE`. -/
def TUNEFS_OCFS2_LOCK_ENV_ONLINE : String := "online"

/-- The function `tunefs_block_signals`. -/
def tunefs_block_signals (w : World) : World := w.log .sigprocmask_block

/-- The function `tunefs_unblock_signals`. -/
def tunefs_unblock_signals (w : World) : World := w.log .sigprocmask_unblock

/-- The function `tunefs_set_lock_env`; `status = none` is the NULL argument. -/
def tunefs_set_lock_env (c : Consts) (status : Option String) (w : World) :
    errcode_t × World :=
  match status with
  | none =>
    let r := unsetenv w
    (if r.1 ≠ 0 then c.TUNEFS_ET_INTERNAL_FAILURE else 0, r.2)
  | some s =>
    let r := setenv s w
    (if r.1 ≠ 0 then c.TUNEFS_ET_INTERNAL_FAILURE else 0, r.2)

/-- The function `tunefs_get_lock_env`. -/
def tunefs_get_lock_env (c : Consts) (w : World) : errcode_t :=
  match w.lockenv with
  | none => c.TUNEFS_ET_INVALID_STACK_NAME
  | some lockenv =>
    if lockenv = TUNEFS_OCFS2_LOCK_ENV_ONLINE then c.TUNEFS_ET_PERFORM_ONLINE
    else if lockenv = TUNEFS_OCFS2_LOCK_ENV_LOCKED then 0
    else c.TUNEFS_ET_INVALID_STACK_NAME

/-- The first `if` of `tunefs_unlock_cluster`: release the cluster lock when
`cluster_locked && fs->fs_dlm_ctxt`. Returns the new `err`. -/
def unlock_release (h : ocfs2_filesys) (w : World) : errcode_t × World :=
  if w.cluster_locked ∧ h.fs_dlm_ctxt then
    let r := ocfs2_release_cluster (tunefs_block_signals w)
    (r.1, { tunefs_unblock_signals r.2 with cluster_locked := false })
  else (0, w)

/-- The second `if` of `tunefs_unlock_cluster`: shut the lock context down when
`fs->fs_dlm_ctxt` is set, keeping an earlier error. The release before it
does not touch the handle, so `h` is still what `fs` points to. -/
def unlock_shutdown (h : ocfs2_filesys) (err : errcode_t) (w : World) :
    errcode_t × World :=
  if h.fs_dlm_ctxt then
    let r := ocfs2_shutdown_dlm w
    (if err = 0 then r.1 else err, r.2)
  else (err, w)

/-- The function `tunefs_unlock_cluster`. -/
def tunefs_unlock_cluster (c : Consts) (w : World) : errcode_t × World :=
  match w.fs with
  | none => (c.TUNEFS_ET_INTERNAL_FAILURE, w)
  | some h =>
    let r1 := unlock_release h w
    let r2 := unlock_shutdown h r1.1 r1.2
    let r3 := tunefs_set_lock_env c none r2.2
    (if r2.1 = 0 then r3.1 else r2.1, r3.2)

/-- The part of `tunefs_lock_cluster` from the label `out_set` on, entered with
the current `err`. -/
def lock_out_set (c : Consts) (err : errcode_t) (w : World) : errcode_t × World :=
  let r :=
    if err = 0 ∧ w.cluster_locked then
      tunefs_set_lock_env c (some TUNEFS_OCFS2_LOCK_ENV_LOCKED) w
    else if err = c.TUNEFS_ET_PERFORM_ONLINE then
      tunefs_set_lock_env c (some TUNEFS_OCFS2_LOCK_ENV_ONLINE) w
    else
      tunefs_set_lock_env c none w
  if r.1 ≠ 0 then (r.1, (tunefs_unlock_cluster c r.2).2) else (err, r.2)

/-- The part of `tunefs_lock_cluster` after a successful
`ocfs2_initialize_dlm` on the locking path: take the cluster lock. -/
def lock_acquire (c : Consts) (flags : Nat) (w : World) : errcode_t × World :=
  let r := ocfs2_lock_down_cluster (tunefs_block_signals w)
  let w1 := tunefs_unblock_signals r.2
  if r.1 = 0 then lock_out_set c r.1 { w1 with cluster_locked := true }
  else if r.1 = c.O2DLM_ET_TRYLOCK_FAILED ∧ flags &&& c.TUNEFS_FLAG_ONLINE ≠ 0 then
    lock_out_set c c.TUNEFS_ET_PERFORM_ONLINE w1
  else (r.1, (ocfs2_shutdown_dlm w1).2)

/-- The part of `tunefs_lock_cluster` for a volume that is not local, from the
call of `o2cb_init` on. -/
def lock_start (c : Consts) (flags : Nat) (w : World) : errcode_t × World :=
  let r0 := o2cb_init w
  if r0.1 ≠ 0 then r0
  else
    let r := ocfs2_initialize_dlm r0.2
    if flags &&& c.TUNEFS_FLAG_NOCLUSTER ≠ 0 ∧ r.1 = 0 then
      lock_out_set c r.1 r.2
    else if flags &&& c.TUNEFS_FLAG_NOCLUSTER ≠ 0 ∧ r.1 = c.O2CB_ET_INVALID_STACK_NAME then
      lock_out_set c c.TUNEFS_ET_INVALID_STACK_NAME r.2
    else if r.1 ≠ 0 then r
    else lock_acquire c flags r.2

/-- The function `tunefs_lock_cluster`; `flags` is the bit pattern of the `int`
argument. The result is `none` when `fs` is NULL, where the C code
dereferences a null pointer. -/
def tunefs_lock_cluster (c : Consts) (flags : Nat) (w : World) :
    Option (errcode_t × World) :=
  match w.fs with
  | none => none
  | some h =>
    if ¬ h.mount_local then
      let err := tunefs_get_lock_env c w
      if err = 0 ∨ (flags &&& c.TUNEFS_FLAG_ONLINE ≠ 0 ∧ err = c.TUNEFS_ET_PERFORM_ONLINE) then
        some (err, w)
      else some (lock_start c flags w)
    else some (lock_out_set c 0 w)

/-- The statement `if (di->i_clusters > journal_clusters) journal_clusters =
di->i_clusters;` of `tunefs_journal_check`. -/
def note_clusters (i_clusters : Nat) (w : World) : World :=
  if i_clusters > w.journal_clusters then { w with journal_clusters := i_clusters } else w

/-- The `for` loop of `tunefs_journal_check`: `n` slots remain, `i` is the
current slot, `ret` the current value of the variable `ret`. -/
def journal_check_loop (c : Consts) (h : ocfs2_filesys) :
    Nat → Nat → errcode_t → World → errcode_t × World
  | 0, _, ret, w => (ret, w)
  | n + 1, i, _, w =>
    let lk := h.lookup_journal i
    let w1 := w.log (.ocfs2_lookup_system_inode i)
    if lk.1 ≠ 0 then (lk.1, w1)
    else
      let rd := h.read_inode lk.2
      let w2 := w1.log (.ocfs2_read_inode lk.2)
      if rd.1 ≠ 0 then (rd.1, w2)
      else
        let w3 := note_clusters rd.2.i_clusters w2
        if rd.2.ij_flags &&& c.OCFS2_JOURNAL_DIRTY_FL ≠ 0 then
          (c.TUNEFS_ET_JOURNAL_DIRTY, w3)
        else journal_check_loop c h n (i + 1) rd.1 w3

/-- The function `tunefs_journal_check`, called on the handle `h`. -/
def tunefs_journal_check (c : Consts) (h : ocfs2_filesys) (w : World) :
    errcode_t × World :=
  let ret := w.oc.ocfs2_malloc_block w.trace.length
  let w1 := w.log .ocfs2_malloc_block
  if ret ≠ 0 then (ret, w1)
  else
    let r := journal_check_loop c h h.fs_super.s_max_slots 0 ret w1
    (r.1, r.2.log .ocfs2_free)

/-- An error that makes `tunefs_open` give up: nonzero and neither
`TUNEFS_ET_INVALID_STACK_NAME` nor `TUNEFS_ET_PERFORM_ONLINE`. -/
def fatal (c : Consts) (err : errcode_t) : Prop :=
  err ≠ 0 ∧ err ≠ c.TUNEFS_ET_INVALID_STACK_NAME ∧ err ≠ c.TUNEFS_ET_PERFORM_ONLINE

instance (c : Consts) (err : errcode_t) : Decidable (fatal c err) :=
  inferInstanceAs (Decidable (_ ∧ _))

/-- The part of `tunefs_open` from the label `out` on. -/
def open_out (c : Consts) (err : errcode_t) (w : World) : errcode_t × World :=
  if fatal c err then
    match w.fs with
    | some _ => (err, { (ocfs2_close w).2 with fs := none })
    | none => (err, w)
  else (err, w)

/-- The part of `tunefs_open` after the three feature checks: lock the
cluster, set up the cache, check the journals. -/
def open_locked (c : Consts) (flags : Nat) (w : World) : Option (errcode_t × World) :=
  match tunefs_lock_cluster c flags w with
  | none => none
  | some r =>
    if fatal c r.1 then some (open_out c r.1 r.2)
    else
      match r.2.fs with
      | none => none
      | some h =>
        let w1 := r.2.log .io_init_cache
        if r.1 ≠ c.TUNEFS_ET_PERFORM_ONLINE then
          let j := tunefs_journal_check c h w1
          if j.1 ≠ 0 then some (open_out c j.1 (tunefs_unlock_cluster c j.2).2)
          else some (open_out c r.1 j.2)
        else some (open_out c r.1 w1)

/-- The function `tunefs_open`; `flags` is the bit pattern of the `int`
argument. The result is `none` where the C code would dereference a NULL
`fs`. -/
def tunefs_open (c : Consts) (device : String) (flags : Nat) (w : World) :
    Option (errcode_t × World) :=
  let rw := flags &&& c.TUNEFS_FLAG_RW
  let r := ocfs2_open device (rw ≠ 0) w
  if r.1 ≠ 0 then some (open_out c r.1 r.2)
  else if rw = 0 then some (open_out c r.1 r.2)
  else
    match r.2.fs with
    | none => none
    | some h =>
      if h.fs_super.s_feature_incompat &&& c.OCFS2_FEATURE_INCOMPAT_HEARTBEAT_DEV ≠ 0 then
        some (open_out c c.TUNEFS_ET_HEARTBEAT_DEV r.2)
      else if h.fs_super.s_feature_incompat &&& c.OCFS2_FEATURE_INCOMPAT_RESIZE_INPROG ≠ 0 then
        some (open_out c c.TUNEFS_ET_RESIZE_IN_PROGRESS r.2)
      else if h.fs_super.s_feature_incompat &&& c.OCFS2_FEATURE_INCOMPAT_TUNEFS_INPROG ≠ 0 then
        some (open_out c c.TUNEFS_ET_TUNEFS_IN_PROGRESS r.2)
      else open_locked c flags r.2

/-- The function `tunefs_close`. -/
def tunefs_close (c : Consts) (w : World) : errcode_t × World :=
  match w.fs with
  | some _ =>
    let r := tunefs_unlock_cluster c w
    let k := ocfs2_close r.2
    (if r.1 = 0 then k.1 else r.1, { k.2 with fs := none })
  | none => (0, w)

/-- The flag is not yet recorded in the superblock: for the legacy resize flag
the RESIZE_INPROG bit is clear; for any other flag none of its bits is set in
`s_tunefs_flag` and the umbrella bit agrees with `s_tunefs_flag`. -/
def flag_unrecorded (c : Consts) (sb : ocfs2_super_block) (flag : Nat) : Prop :=
  if flag = c.OCFS2_FEATURE_INCOMPAT_RESIZE_INPROG then
    sb.s_feature_incompat &&& c.OCFS2_FEATURE_INCOMPAT_RESIZE_INPROG = 0
  else
    (sb.s_tunefs_flag &&& flag) % 2 ^ 16 = 0 ∧ ledger_inv c sb

instance (c : Consts) (sb : ocfs2_super_block) (flag : Nat) :
    Decidable (flag_unrecorded c sb flag) :=
  inferInstanceAs (Decidable (if _ then _ else _))

/-! ## Concrete sessions, for evaluating the model -/

/-- Outcomes in which every external call succeeds and `ocfs2_shutdown_dlm`
leaves no lock context behind. -/
def all_succeed : Outcomes where
  ocfs2_open := fun _ => 0
  ocfs2_close := fun _ => 0
  o2cb_init := fun _ => 0
  ocfs2_initialize_dlm := fun _ => 0
  ocfs2_lock_down_cluster := fun _ => 0
  ocfs2_release_cluster := fun _ => 0
  ocfs2_shutdown_dlm := fun _ => (0, false)
  setenv := fun _ => 0
  unsetenv := fun _ => 0
  ocfs2_malloc_block := fun _ => 0
  ocfs2_make_journal := fun _ => (0, 0)

/-- The process state at program start (`fs` NULL, `cluster_locked` 0,
`journal_clusters` 0, no external call made yet), with the given volume on
every device, the given value of `_TUNEFS_OCFS2_LOCK` and the given
outcomes. -/
def start_world (vol : ocfs2_filesys) (env : Option String) (oc : Outcomes) : World where
  fs := none
  cluster_locked := false
  journal_clusters := 0
  lockenv := env
  volume := fun _ => vol
  oc := oc
  trace := []

/-- A volume with the given `s_feature_incompat`, local or not, with one node
slot whose journal is at block 7, has 4 clusters and the given `ij_flags`. -/
def one_slot_volume (incompat : Nat) (is_local : Bool) (ij_flags : Nat) : ocfs2_filesys where
  fs_super := { s_feature_incompat := incompat, s_tunefs_flag := 0, s_max_slots := 1 }
  fs_dlm_ctxt := false
  mount_local := is_local
  lookup_journal := fun _ => (0, 7)
  read_inode := fun _ => (0, { i_clusters := 4, ij_flags := ij_flags })

/-- The first nonzero code of a list of results, 0 when there is none. -/
def first_error : List errcode_t → errcode_t
  | [] => 0
  | e :: rest => if e ≠ 0 then e else first_error rest

/-- The session invariant: the cluster lock is only marked held while `fs`
is open and has a lock context. -/
def lock_inv (w : World) : Prop :=
  w.cluster_locked = true → ∃ h, w.fs = some h ∧ h.fs_dlm_ctxt = true

/-- Outcomes in which every cleanup step fails: `ocfs2_release_cluster` with
5, `ocfs2_shutdown_dlm` with 6, `unsetenv` with -1, `ocfs2_close` with 7. -/
def cleanup_fails : Outcomes :=
  { all_succeed with
    ocfs2_release_cluster := fun _ => 5
    ocfs2_shutdown_dlm := fun _ => (6, true)
    unsetenv := fun _ => -1
    ocfs2_close := fun _ => 7 }

/-- A session that holds the cluster lock on a one-slot volume, as left by a
successful read-write open, with the given outcomes for later calls. -/
def held_world (oc : Outcomes) : World where
  fs := some { one_slot_volume 0 false 0 with fs_dlm_ctxt := true }
  cluster_locked := true
  journal_clusters := 4
  lockenv := some TUNEFS_OCFS2_LOCK_ENV_LOCKED
  volume := fun _ => one_slot_volume 0 false 0
  oc := oc
  trace := []

/-- The handle behind `fs` with its lock context left out: what stays the
same while the handle is open. -/
def handle_volume (fs : Option ocfs2_filesys) : Option ocfs2_filesys :=
  fs.map (fun h => { h with fs_dlm_ctxt := false })

/-- The external calls by which the cluster lock is acquired: `o2cb_init`,
`ocfs2_initialize_dlm` and `ocfs2_lock_down_cluster`. -/
def Event.is_acquire : Event → Bool
  | .o2cb_init => true
  | .ocfs2_initialize_dlm => true
  | .ocfs2_lock_down_cluster => true
  | _ => false

/-- Outcomes in which `setenv` fails (returns -1) and every other call
succeeds. -/
def setenv_fails : Outcomes :=
  { all_succeed with setenv := fun _ => -1 }

/-- Outcomes in which `unsetenv` fails (returns -1) and every other call
succeeds. -/
def unsetenv_fails : Outcomes :=
  { all_succeed with unsetenv := fun _ => -1 }

/-- A session with an open handle on a local-only one-slot volume, with the
given value of `cluster_locked` and the given outcomes. -/
def local_world (locked : Bool) (oc : Outcomes) : World where
  fs := some (one_slot_volume 0 true 0)
  cluster_locked := locked
  journal_clusters := 0
  lockenv := none
  volume := fun _ => one_slot_volume 0 true 0
  oc := oc
  trace := []

/-- A session with an open handle on a one-slot volume that is not local,
not holding the lock, with the given value of `_TUNEFS_OCFS2_LOCK` and the
given outcomes. -/
def cluster_world (env : Option String) (oc : Outcomes) : World where
  fs := some (one_slot_volume 0 false 0)
  cluster_locked := false
  journal_clusters := 0
  lockenv := env
  volume := fun _ => one_slot_volume 0 false 0
  oc := oc
  trace := []

/-- Outcomes in which `ocfs2_lock_down_cluster` fails with 77 and every other
call succeeds. -/
def lock_down_fails : Outcomes :=
  { all_succeed with ocfs2_lock_down_cluster := fun _ => 77 }

/-! ## The journal sizer -/

/-- Modelled from the spec: `allocate-journal(block, cluster-count) → error`
of the filesystem library. A successful call leaves the journal inode at
`blkno` with `i_clusters = clusters`; a failed call leaves it with the
`i_clusters` named by the outcome. Nothing else of the handle changes, so
lookups and reads answer as before. `slot` is the slot whose journal file
name the caller has just looked up. -/
def ocfs2_make_journal (slot blkno clusters : Nat) (h : ocfs2_filesys) (w : World) :
    errcode_t × ocfs2_filesys × World :=
  let r := w.oc.ocfs2_make_journal w.trace.length
  (r.1,
   { h with read_inode := fun b =>
      if b = blkno then
        ((h.read_inode b).1,
         { (h.read_inode b).2 with i_clusters := if r.1 = 0 then clusters else r.2 })
      else h.read_inode b },
   w.log (.ocfs2_make_journal slot blkno clusters))

/-- The body of the `for` loop of `tunefs_set_journal_size` for slot `i`, on
the object `h` the argument `fs` points to: the new value of `ret` (nonzero
means `goto bail`), the handle and the state after it. `ocfs2_lookup` of the
journal file name of slot `i` answers like the journal lookup of slot `i`. -/
def journal_size_body (num_clusters i : Nat) (h : ocfs2_filesys) (w : World) :
    errcode_t × ocfs2_filesys × World :=
  let lk := h.lookup_journal i
  let w1 := w.log (.ocfs2_lookup i)
  if lk.1 ≠ 0 then (lk.1, h, w1)
  else
    let rd := h.read_inode lk.2
    let w2 := w1.log (.ocfs2_read_inode lk.2)
    if rd.1 ≠ 0 then (rd.1, h, w2)
    else if num_clusters = rd.2.i_clusters then (rd.1, h, w2)
    else ocfs2_make_journal i lk.2 num_clusters h w2

/-- The `for` loop of `tunefs_set_journal_size`: `n` slots remain, `i` is the
current slot, `ret` the current value of the variable `ret`, `h` the object
the argument `fs` points to. -/
def journal_size_loop (num_clusters : Nat) :
    Nat → Nat → errcode_t → ocfs2_filesys → World → errcode_t × ocfs2_filesys × World
  | 0, _, ret, h, w => (ret, h, w)
  | n + 1, i, _, h, w =>
    let b := journal_size_body num_clusters i h w
    if b.1 ≠ 0 then b
    else journal_size_loop num_clusters n (i + 1) b.1 b.2.1 b.2.2

/-- The target cluster count of `tunefs_set_journal_size`: `clusters_of`
stands for `ocfs2_clusters_in_blocks(fs, ocfs2_blocks_in_bytes(fs, new_size))`
(inline functions of ocfs2.h), stored in a `uint32_t`; when it is 0 the
recorded `journal_clusters` is used. -/
def journal_target (clusters_of : Nat → Nat) (new_size : Nat) (w : World) : Nat :=
  if clusters_of new_size % 2 ^ 32 = 0 then w.journal_clusters
  else clusters_of new_size % 2 ^ 32

/-- The function `tunefs_set_journal_size`, called on the handle `h`. -/
def tunefs_set_journal_size (clusters_of : Nat → Nat) (h : ocfs2_filesys) (new_size : Nat)
    (w : World) : errcode_t × ocfs2_filesys × World :=
  let num_clusters := journal_target clusters_of new_size w
  let ret := w.oc.ocfs2_malloc_block w.trace.length
  let w1 := w.log .ocfs2_malloc_block
  if ret ≠ 0 then (ret, h, w1)
  else
    let r := journal_size_loop num_clusters h.fs_super.s_max_slots 0 ret h w1
    (r.1, r.2.1, r.2.2.log .ocfs2_free)

/-- The event is a call of `ocfs2_make_journal`. -/
def Event.is_make_journal : Event → Bool
  | .ocfs2_make_journal _ _ _ => true
  | _ => false

/-- The slot of a call of `ocfs2_make_journal`. -/
def Event.make_journal_slot : Event → Option Nat
  | .ocfs2_make_journal slot _ _ => some slot
  | _ => none

/-- The slot of a call of `ocfs2_lookup`. -/
def Event.lookup_slot : Event → Option Nat
  | .ocfs2_lookup slot => some slot
  | _ => none

/-- The journal inode of slot `i` as the handle `h` reads it. -/
def journal_inode (h : ocfs2_filesys) (i : Nat) : ocfs2_dinode :=
  (h.read_inode (h.lookup_journal i).2).2

/-- The journal of slot `i` is found, readable and has `n` clusters. -/
def slot_at (h : ocfs2_filesys) (n i : Nat) : Prop :=
  (h.lookup_journal i).1 = 0 ∧ (h.read_inode (h.lookup_journal i).2).1 = 0 ∧
    (journal_inode h i).i_clusters = n

/-- The largest `i_clusters` among the journal inodes of the `n` slots from
slot `i` on, 0 when there is none. -/
def scan_max (h : ocfs2_filesys) : Nat → Nat → Nat
  | 0, _ => 0
  | n + 1, i => max (journal_inode h i).i_clusters (scan_max h n (i + 1))

/-! ## The verbosity sink -/

/-- The hook of the com_err library: its default printer, or
`quiet_com_err`, which prints nothing. -/
inductive ComErrHook where
  | default_hook
  | quiet_com_err
  deriving DecidableEq, Repr

/-- The two output channels. -/
inductive Channel where
  | stdout
  | stderr
  deriving DecidableEq, Repr

/-- The largest value of the C `int` (32 bits, two's complement). -/
def INT_MAX : Int := 2 ^ 31 - 1

/-- The smallest value of the C `int`. -/
def INT_MIN : Int := -(2 ^ 31)

/-- The value an `int` variable holds after `++` or `--`: the mathematical
result wrapped to 32 bits, which is what the compiled code stores when the
counter overflows. -/
def wrap_int (x : Int) : Int := (x + 2 ^ 31) % 2 ^ 32 - 2 ^ 31

/-- The state of the message sink: the global `int verbosity`, the com_err
hook, and the calls of `vfprintf` made so far (channel and formatted
text). -/
structure Sink where
  verbosity : Int
  hook : ComErrHook
  out : List (Channel × String)
  deriving DecidableEq, Repr

/-- The sink at program start: `verbosity = 1`, default hook, nothing
written. -/
def Sink.start : Sink := { verbosity := 1, hook := .default_hook, out := [] }

/-- The function `tunefs_verbose`. -/
def tunefs_verbose (s : Sink) : Sink :=
  let s1 := { s with verbosity := wrap_int (s.verbosity + 1) }
  if s1.verbosity = 1 then { s1 with hook := .default_hook } else s1

/-- The function `tunefs_quiet`. -/
def tunefs_quiet (s : Sink) : Sink :=
  let s1 := if s.verbosity = 1 then { s with hook := .quiet_com_err } else s
  { s1 with verbosity := wrap_int (s1.verbosity - 1) }

/-- The function `vfverbosef`: `msg` is the formatted text and `rc` the value
the call of `vfprintf` returns (the number of bytes written, negative when the
write fails); without a call the result is the initial `rc = 0`. -/
def vfverbosef (rc : Int) (f : Channel) (level : Int) (msg : String) (s : Sink) : Int × Sink :=
  if level ≤ s.verbosity then (rc, { s with out := s.out ++ [(f, msg)] })
  else (0, s)

/-- The function `verbosef`; `rc` is what `vfprintf` returns. -/
def verbosef (rc : Int) (level : Int) (msg : String) (s : Sink) : Int × Sink :=
  vfverbosef rc .stdout level msg s

/-- The function `errorf`; `rc` is what `vfprintf` returns. -/
def errorf (rc : Int) (msg : String) (s : Sink) : Int × Sink :=
  vfverbosef rc .stderr 1 msg s

/-- A call of `tunefs_verbose` or `tunefs_quiet`. -/
inductive SinkOp where
  | verbose
  | quiet
  deriving DecidableEq, Repr

/-- Run one call on the sink. -/
def SinkOp.run (s : Sink) : SinkOp → Sink
  | .verbose => tunefs_verbose s
  | .quiet => tunefs_quiet s

/-- Run a sequence of calls, first call first. -/
def run_sink (s : Sink) (ops : List SinkOp) : Sink := ops.foldl SinkOp.run s

/-- The sink invariant: the com_err hook is `quiet_com_err` exactly when
`verbosity` is zero or below, and the default hook exactly when it is 1 or
more. -/
def sink_inv (s : Sink) : Prop :=
  (s.hook = .quiet_com_err ↔ s.verbosity ≤ 0) ∧ (s.hook = .default_hook ↔ 1 ≤ s.verbosity)

/-! ## The signal guard -/

/-- The signal numbers of signal.h that `handle_signal` names. -/
structure Signals where
  SIGQUIT : Int
  SIGTERM : Int
  SIGINT : Int
  SIGHUP : Int
  SIGSEGV : Int

/-- The case labels of the `switch` are distinct, as C requires. -/
def Signals.wf (sg : Signals) : Prop :=
  [sg.SIGQUIT, sg.SIGTERM, sg.SIGINT, sg.SIGHUP, sg.SIGSEGV].Nodup

instance (sg : Signals) : Decidable sg.wf :=
  inferInstanceAs (Decidable (List.Nodup _))

/-- The Linux signal numbers. -/
def linux_signals : Signals where
  SIGQUIT := 3
  SIGTERM := 15
  SIGINT := 2
  SIGHUP := 1
  SIGSEGV := 11

/-- How a call of `handle_signal` ends: it returns to the interrupted
program, or the process ends in `abort()`, or in `exit(status)`. -/
inductive SigOutcome where
  | returned
  | aborted
  | exited (status : Int)
  deriving DecidableEq, Repr

/-- The `switch` of `handle_signal`: the values of `exitp`, `abortp` and the
static `segv_already` after it, and the text written to stderr. -/
def handle_signal_switch (sg : Signals) (caught_sig : Int) (segv_already : Bool) :
    Bool × Bool × Bool × List String :=
  if caught_sig = sg.SIGQUIT then
    (true, true, segv_already, ["Caught signal " ++ toString caught_sig ++ ", exiting"])
  else if caught_sig = sg.SIGTERM ∨ caught_sig = sg.SIGINT ∨ caught_sig = sg.SIGHUP then
    (true, false, segv_already, ["Caught signal " ++ toString caught_sig ++ ", exiting"])
  else if caught_sig = sg.SIGSEGV then
    if segv_already then
      (true, true, segv_already,
        ["Segmentation fault, exiting", "Segmentation fault loop detected"])
    else (true, false, true, ["Segmentation fault, exiting"])
  else
    (false, false, segv_already, ["Caught signal " ++ toString caught_sig ++ ", ignoring"])

/-- The function `handle_signal`: the outcome, the new value of the static
`segv_already`, the text written to stderr, and the session state. -/
def handle_signal (c : Consts) (sg : Signals) (caught_sig : Int) (segv_already : Bool)
    (w : World) : SigOutcome × Bool × List String × World :=
  let sw := handle_signal_switch sg caught_sig segv_already
  if ¬ sw.1 = true then (.returned, sw.2.2.1, sw.2.2.2, w)
  else if sw.2.1 = true then (.aborted, sw.2.2.1, sw.2.2.2, w)
  else (.exited 1, sw.2.2.1, sw.2.2.2, (tunefs_close c w).2)

/-- The bits of `a` and `b` agree everywhere outside `mask`. -/
def same_bits_outside (mask a b : Nat) : Prop :=
  ∀ i : Nat, mask.testBit i = false → b.testBit i = a.testBit i

/-- Nothing of the handle but `s_feature_incompat` and `s_tunefs_flag`
differs between `a` and `b`. -/
def same_but_progress (a b : ocfs2_filesys) : Prop :=
  b.fs_super.s_max_slots = a.fs_super.s_max_slots ∧ b.fs_dlm_ctxt = a.fs_dlm_ctxt ∧
  b.mount_local = a.mount_local ∧ b.lookup_journal = a.lookup_journal ∧
  b.read_inode = a.read_inode

/-- A process with two devices: `/dev/a` holds a local volume whose journal
has 8 clusters, every other device a local volume whose journal has 4. -/
def two_volume_world : World :=
  { start_world (one_slot_volume 0 true 0) none all_succeed with
    volume := fun d =>
      if d = "/dev/a" then
        { one_slot_volume 0 true 0 with
          read_inode := fun _ => (0, { i_clusters := 8, ij_flags := 0 }) }
      else one_slot_volume 0 true 0 }

/-- No inherited lock state lets `tunefs_lock_cluster` return early: the
variable does not say "locked", and does not say "online" while
`TUNEFS_FLAG_ONLINE` is set. -/
def no_inherited_lock (c : Consts) (flags : Nat) (w : World) : Prop :=
  ¬ (tunefs_get_lock_env c w = 0 ∨
      (flags &&& c.TUNEFS_FLAG_ONLINE ≠ 0 ∧
        tunefs_get_lock_env c w = c.TUNEFS_ET_PERFORM_ONLINE))

instance (c : Consts) (flags : Nat) (w : World) : Decidable (no_inherited_lock c flags w) :=
  inferInstanceAs (Decidable (¬ _))

/-- Outcomes in which `ocfs2_lock_down_cluster` answers
`O2DLM_ET_TRYLOCK_FAILED` of `ocfs2_consts`, `setenv` fails, and every other
call succeeds. -/
def trylock_setenv_fails : Outcomes :=
  { all_succeed with
    ocfs2_lock_down_cluster := fun _ => 3001
    setenv := fun _ => -1 }

/-- Outcomes in which `ocfs2_lock_down_cluster` answers
`O2DLM_ET_TRYLOCK_FAILED` of `ocfs2_consts` and every other call succeeds. -/
def trylock_fails : Outcomes :=
  { all_succeed with ocfs2_lock_down_cluster := fun _ => 3001 }

/-- What `tunefs_lock_cluster` records at the label `out_set`: "locked" when
`!err && cluster_locked`, "online" when `err` is `TUNEFS_ET_PERFORM_ONLINE`,
and otherwise nothing (the variable is unset). -/
def lock_env_status (c : Consts) (err : errcode_t) (w : World) : Option String :=
  if err = 0 ∧ w.cluster_locked = true then some TUNEFS_OCFS2_LOCK_ENV_LOCKED
  else if err = c.TUNEFS_ET_PERFORM_ONLINE then some TUNEFS_OCFS2_LOCK_ENV_ONLINE
  else none

/-- The recording step at `out_set` fails: the `setenv` or `unsetenv` it makes
returns nonzero. -/
def recording_fails (c : Consts) (err : errcode_t) (w : World) : Prop :=
  (tunefs_set_lock_env c (lock_env_status c err w) w).1 ≠ 0

/-- The value of `err` and the state with which `tunefs_lock_cluster` arrives
at the label `out_set`, `none` when it returns without passing it (or when
`fs` is NULL). -/
def lock_reaches_out_set (c : Consts) (flags : Nat) (w : World) : Option (errcode_t × World) :=
  match w.fs with
  | none => none
  | some h =>
    if ¬ h.mount_local then
      let err := tunefs_get_lock_env c w
      if err = 0 ∨ (flags &&& c.TUNEFS_FLAG_ONLINE ≠ 0 ∧ err = c.TUNEFS_ET_PERFORM_ONLINE) then
        none
      else
        let r0 := o2cb_init w
        if r0.1 ≠ 0 then none
        else
          let r := ocfs2_initialize_dlm r0.2
          if flags &&& c.TUNEFS_FLAG_NOCLUSTER ≠ 0 ∧ r.1 = 0 then some (r.1, r.2)
          else if flags &&& c.TUNEFS_FLAG_NOCLUSTER ≠ 0 ∧
              r.1 = c.O2CB_ET_INVALID_STACK_NAME then
            some (c.TUNEFS_ET_INVALID_STACK_NAME, r.2)
          else if r.1 ≠ 0 then none
          else
            let d := ocfs2_lock_down_cluster (tunefs_block_signals r.2)
            let w1 := tunefs_unblock_signals d.2
            if d.1 = 0 then some (d.1, { w1 with cluster_locked := true })
            else if d.1 = c.O2DLM_ET_TRYLOCK_FAILED ∧ flags &&& c.TUNEFS_FLAG_ONLINE ≠ 0 then
              some (c.TUNEFS_ET_PERFORM_ONLINE, w1)
            else none
    else some (0, w)

instance (c : Consts) (err : errcode_t) (w : World) : Decidable (recording_fails c err w) :=
  inferInstanceAs (Decidable (_ ≠ _))

/-- Outcomes in which the second `ocfs2_malloc_block` of the process fails
with 12 and every other call succeeds. -/
def second_malloc_fails : Outcomes :=
  { all_succeed with ocfs2_malloc_block := fun n => if n = 0 then 0 else 12 }

/-- Outcomes in which `ocfs2_make_journal` fails with 28, leaving 5 clusters,
when it is the seventh external call of the process, and every other call
succeeds. -/
def second_resize_fails : Outcomes :=
  { all_succeed with ocfs2_make_journal := fun n => if n = 6 then (28, 5) else (0, 0) }

/-- A volume that is not local with three node slots, the journal of slot `i`
at block `10 + i`, each found, readable and 4 clusters long. -/
def three_slot_volume : ocfs2_filesys where
  fs_super := { s_feature_incompat := 0, s_tunefs_flag := 0, s_max_slots := 3 }
  fs_dlm_ctxt := false
  mount_local := false
  lookup_journal := fun i => (0, 10 + i)
  read_inode := fun _ => (0, { i_clusters := 4, ij_flags := 0 })

/-- The state in which `tunefs_set_journal_size` reaches slot `k`: its loop
run over the slots before `k` only, after the block allocation. -/
def journal_size_before (clusters_of : Nat → Nat) (h : ocfs2_filesys) (new_size : Nat)
    (w : World) (k : Nat) : errcode_t × ocfs2_filesys × World :=
  journal_size_loop (journal_target clusters_of new_size w) k 0 0 h
    (w.log .ocfs2_malloc_block)

/-- The loop body of `tunefs_set_journal_size` run for slot `k` in the state in
which it is reached. -/
def journal_size_at (clusters_of : Nat → Nat) (h : ocfs2_filesys) (new_size : Nat)
    (w : World) (k : Nat) : errcode_t × ocfs2_filesys × World :=
  journal_size_body (journal_target clusters_of new_size w) k
    (journal_size_before clusters_of h new_size w k).2.1
    (journal_size_before clusters_of h new_size w k).2.2

/-- The call `tunefs_set_journal_size(fs, new_size)` first fails at slot `k`:
the block allocation succeeds, `k` is a slot of the volume, the slots before
`k` are passed without error, and the lookup, the read or the
`ocfs2_make_journal` of slot `k` returns an error. -/
def first_fails_at (clusters_of : Nat → Nat) (h : ocfs2_filesys) (new_size : Nat)
    (w : World) (k : Nat) : Prop :=
  w.oc.ocfs2_malloc_block w.trace.length = 0 ∧ k < h.fs_super.s_max_slots ∧
  (journal_size_before clusters_of h new_size w k).1 = 0 ∧
  (journal_size_at clusters_of h new_size w k).1 ≠ 0

instance (clusters_of : Nat → Nat) (h : ocfs2_filesys) (new_size : Nat) (w : World) (k : Nat) :
    Decidable (first_fails_at clusters_of h new_size w k) :=
  inferInstanceAs (Decidable (_ ∧ _))

/-- A session with an open handle on the three-slot volume, with the given
outcomes. -/
def three_slot_world (oc : Outcomes) : World where
  fs := some three_slot_volume
  cluster_locked := false
  journal_clusters := 4
  lockenv := none
  volume := fun _ => three_slot_volume
  oc := oc
  trace := []

/-- Outcomes in which `ocfs2_open` fails with 9 and every other call
succeeds. -/
def open_fails : Outcomes :=
  { all_succeed with ocfs2_open := fun _ => 9 }

/-- The two states agree on everything but the value of the inherited
lock-state variable; for that value, either they agree as well, or the first
still holds `v` and the second has the variable unset. -/
def env_sim (v : String) (a b : World) : Prop :=
  a.fs = b.fs ∧ a.cluster_locked = b.cluster_locked ∧
  a.journal_clusters = b.journal_clusters ∧ a.volume = b.volume ∧ a.oc = b.oc ∧
  a.trace = b.trace ∧ (a.lockenv = b.lockenv ∨ (a.lockenv = some v ∧ b.lockenv = none))

/-! ## Bit masks -/

theorem testBit_lnot32 (x i : Nat) :
    (lnot32 x).testBit i = (decide (i < 32) && !x.testBit i) := by
  unfold lnot32
  rw [Nat.testBit_xor, Nat.testBit_two_pow_sub_one, Nat.testBit_mod_two_pow]
  by_cases h : i < 32 <;> simp [h]

theorem testBit_index_lt {T n : Nat} (hT : T < 2 ^ n) {i : Nat}
    (h : T.testBit i = true) : i < n := by
  by_contra hc
  have h1 : T < 2 ^ i :=
    lt_of_lt_of_le hT (Nat.pow_le_pow_right (by norm_num) (not_lt.mp hc))
  rw [Nat.testBit_lt_two_pow h1] at h
  exact Bool.noConfusion h

theorem disjoint_bits {R T : Nat} (h : R &&& T = 0) (i : Nat)
    (hT : T.testBit i = true) : R.testBit i = false := by
  have h1 := congrArg (fun n => n.testBit i) h
  simp only [Nat.testBit_and, hT, Bool.and_true, Nat.zero_testBit] at h1
  exact h1

theorem lor_mask_land_self (x : Nat) {T : Nat} (hT : T < 2 ^ 32) :
    ((x ||| T) % 2 ^ 32) &&& T = T := by
  apply Nat.eq_of_testBit_eq
  intro i
  simp only [Nat.testBit_and, Nat.testBit_mod_two_pow, Nat.testBit_or]
  by_cases h : T.testBit i = true
  · simp [h, testBit_index_lt hT h]
  · simp [h]

theorem lor_other_land (x : Nat) {R T : Nat} (hT : T < 2 ^ 32) (hRT : R &&& T = 0) :
    ((x ||| R) % 2 ^ 32) &&& T = x &&& T := by
  apply Nat.eq_of_testBit_eq
  intro i
  simp only [Nat.testBit_and, Nat.testBit_mod_two_pow, Nat.testBit_or]
  by_cases h : T.testBit i = true
  · simp [h, testBit_index_lt hT h, disjoint_bits hRT i h]
  · simp [h]

theorem land_lnot_self_land (x T : Nat) :
    ((x &&& lnot32 T) % 2 ^ 32) &&& T = 0 := by
  apply Nat.eq_of_testBit_eq
  intro i
  simp only [Nat.testBit_and, Nat.testBit_mod_two_pow, testBit_lnot32, Nat.zero_testBit]
  by_cases h : T.testBit i = true <;> simp [h]

theorem land_lnot_other_land (x : Nat) {R T : Nat} (hT : T < 2 ^ 32) (hRT : R &&& T = 0) :
    ((x &&& lnot32 R) % 2 ^ 32) &&& T = x &&& T := by
  apply Nat.eq_of_testBit_eq
  intro i
  simp only [Nat.testBit_and, Nat.testBit_mod_two_pow, testBit_lnot32]
  by_cases h : T.testBit i = true
  · simp [h, testBit_index_lt hT h, disjoint_bits hRT i h]
  · simp [h]

theorem lor_land_lnot_restore {tf : Nat} (f : Nat) (htf : tf < 2 ^ 16)
    (hf : (tf &&& f) % 2 ^ 16 = 0) :
    (((tf ||| f) % 2 ^ 16) &&& lnot32 f) % 2 ^ 16 = tf := by
  apply Nat.eq_of_testBit_eq
  intro i
  simp only [Nat.testBit_and, Nat.testBit_mod_two_pow, testBit_lnot32, Nat.testBit_or]
  by_cases h : tf.testBit i = true
  · have hi : i < 16 := testBit_index_lt htf h
    have h1 := congrArg (fun n => n.testBit i) hf
    simp only [Nat.testBit_and, Nat.testBit_mod_two_pow, h, hi, decide_True, Bool.true_and,
      Nat.zero_testBit] at h1
    have hi2 : i < 32 := by omega
    simp [h, hi, hi2, h1]
  · simp [h]
    intro _ hfi
    simp [hfi]

theorem land_comm_zero {R T : Nat} (h : R &&& T = 0) : T &&& R = 0 := by
  rw [Nat.land_comm]; exact h

/-! ## The in-progress flag ledger -/

theorem lor_low_ne_zero (tf : Nat) {flag : Nat} (h : flag % 2 ^ 16 ≠ 0) :
    (tf ||| flag) % 2 ^ 16 ≠ 0 := by
  intro h0
  apply h
  apply Nat.eq_of_testBit_eq
  intro i
  have h1 := congrArg (fun n => n.testBit i) h0
  simp only [Nat.testBit_mod_two_pow, Nat.testBit_or, Nat.zero_testBit] at h1 ⊢
  by_cases hi : i < 16
  · simp [hi] at h1 ⊢
    exact h1.2
  · simp [hi]

/-- After `tunefs_set_in_progress` the ledger invariant holds exactly when the
flag is RESIZE_INPROG or the new `s_tunefs_flag` is nonzero. -/
theorem set_inv_iff (c : Consts) (hc : c.wf) (wr : ocfs2_filesys → errcode_t)
    (fs : ocfs2_filesys) (flag : Nat) (hinv : ledger_inv c fs.fs_super) :
    ledger_inv c (tunefs_set_in_progress c wr fs flag).2.fs_super ↔
      (flag = c.OCFS2_FEATURE_INCOMPAT_RESIZE_INPROG ∨
        (fs.fs_super.s_tunefs_flag ||| flag) % 2 ^ 16 ≠ 0) := by
  obtain ⟨_, hT0, _, hT, hRT, _⟩ := hc
  unfold ledger_inv umbrella_set at *
  unfold tunefs_set_in_progress
  by_cases hf : flag = c.OCFS2_FEATURE_INCOMPAT_RESIZE_INPROG
  · simp only [hf, if_true, true_or, iff_true]
    rw [lor_other_land _ hT hRT]
    exact hinv
  · simp only [hf, if_false, false_or]
    rw [lor_mask_land_self _ hT]
    constructor
    · intro h
      exact h.mp hT0
    · intro h
      exact ⟨fun _ => h, fun _ => hT0⟩

theorem set_preserves_inv (c : Consts) (hc : c.wf) (wr : ocfs2_filesys → errcode_t)
    (fs : ocfs2_filesys) (flag : Nat) (hinv : ledger_inv c fs.fs_super)
    (hrec : recordable c flag) :
    ledger_inv c (tunefs_set_in_progress c wr fs flag).2.fs_super := by
  rw [set_inv_iff c hc wr fs flag hinv]
  rcases hrec with h | h
  · exact Or.inl h
  · exact Or.inr (lor_low_ne_zero _ h)

theorem clear_preserves_inv (c : Consts) (hc : c.wf) (wr : ocfs2_filesys → errcode_t)
    (fs : ocfs2_filesys) (flag : Nat) (hinv : ledger_inv c fs.fs_super) :
    ledger_inv c (tunefs_clear_in_progress c wr fs flag).2.fs_super := by
  obtain ⟨_, hT0, _, hT, hRT, _⟩ := hc
  unfold ledger_inv umbrella_set at *
  unfold tunefs_clear_in_progress
  by_cases hf : flag = c.OCFS2_FEATURE_INCOMPAT_RESIZE_INPROG
  · simp only [hf, if_true]
    rw [land_lnot_other_land _ hT hRT]
    exact hinv
  · simp only [hf, if_false]
    by_cases h0 : (fs.fs_super.s_tunefs_flag &&& lnot32 flag) % 2 ^ 16 = 0
    · simp only [h0, if_true]
      rw [land_lnot_self_land]
    · simp only [h0, if_false]
      constructor
      · intro _
        exact h0
      · intro _
        apply hinv.mpr
        intro hz
        apply h0
        rw [hz]
        simp

theorem run_ledger_preserves_inv (c : Consts) (hc : c.wf) (wr : ocfs2_filesys → errcode_t)
    (ops : List LedgerOp) :
    ∀ fs : ocfs2_filesys, ledger_inv c fs.fs_super → (∀ op ∈ ops, op.ok c) →
      ledger_inv c (run_ledger c wr fs ops).fs_super := by
  induction ops with
  | nil => intro fs h _; exact h
  | cons op rest ih =>
    intro fs h hok
    have hrest : ∀ o ∈ rest, o.ok c := fun o ho => hok o (List.mem_cons_of_mem _ ho)
    have hop : op.ok c := hok op (List.mem_cons_self _ _)
    unfold run_ledger
    rw [List.foldl_cons]
    apply ih _ _ hrest
    cases op with
    | set flag => exact set_preserves_inv c hc wr fs flag h hop
    | clear flag => exact clear_preserves_inv c hc wr fs flag h

/-- C1 (as amended). From a superblock in which the TUNEFS_INPROG umbrella bit
is set exactly when `s_tunefs_flag` is nonzero: after
`tunefs_set_in_progress(fs, flag)` that equivalence holds again exactly when
the flag is RESIZE_INPROG or the new `s_tunefs_flag` (the old value OR the
flag, cut to 16 bits) is nonzero, so for every flag that is RESIZE_INPROG or
has one of its low 16 bits set; after `tunefs_clear_in_progress(fs, flag)` it
holds for every flag; and so it holds after every call of every set/clear
sequence whose set flags are of that kind (in particular when the sequence
starts with no flag set). -/
theorem C1_umbrella_invariant (c : Consts) (hc : c.wf) (wr : ocfs2_filesys → errcode_t)
    (fs : ocfs2_filesys) (hinv : ledger_inv c fs.fs_super) (flag : Nat) :
    (ledger_inv c (tunefs_set_in_progress c wr fs flag).2.fs_super ↔
      (flag = c.OCFS2_FEATURE_INCOMPAT_RESIZE_INPROG ∨
        (fs.fs_super.s_tunefs_flag ||| flag) % 2 ^ 16 ≠ 0)) ∧
    (recordable c flag → ledger_inv c (tunefs_set_in_progress c wr fs flag).2.fs_super) ∧
    ledger_inv c (tunefs_clear_in_progress c wr fs flag).2.fs_super ∧
    (∀ ops : List LedgerOp, (∀ op ∈ ops, op.ok c) → ∀ k : Nat,
      ledger_inv c (run_ledger c wr fs (ops.take k)).fs_super) := by
  refine ⟨set_inv_iff c hc wr fs flag hinv, set_preserves_inv c hc wr fs flag hinv,
    clear_preserves_inv c hc wr fs flag hinv, ?_⟩
  intro ops hok k
  apply run_ledger_preserves_inv c hc wr _ fs hinv
  intro op hop
  exact hok op (List.mem_of_mem_take hop)

/-- C1, concrete instance: with the header values, starting from a superblock
without any flag, setting sub-flag 1, setting sub-flag 2 and clearing sub-flag 1
keeps the umbrella bit equal to "some sub-flag is set" after each call. -/
theorem C1_umbrella_invariant_witness :
    ocfs2_consts.wf ∧
    ledger_inv ocfs2_consts (fs_of_super ⟨0, 0, 1⟩).fs_super ∧
    ∀ k : Nat, ledger_inv ocfs2_consts
      (run_ledger ocfs2_consts (fun _ => 0) (fs_of_super ⟨0, 0, 1⟩)
        ([LedgerOp.set 1, LedgerOp.set 2, LedgerOp.clear 1].take k)).fs_super :=
  ⟨by decide, by decide,
    (C1_umbrella_invariant ocfs2_consts (by decide) (fun _ => 0) (fs_of_super ⟨0, 0, 1⟩)
      (by decide) 1).2.2.2 [LedgerOp.set 1, LedgerOp.set 2, LedgerOp.clear 1]
      (by
        intro op hop
        simp only [List.mem_cons, List.mem_singleton, List.not_mem_nil, or_false] at hop
        rcases hop with h | h | h <;> subst h
        · exact Or.inr (by decide)
        · exact Or.inr (by decide)
        · exact True.intro)⟩

/-- C1 as stated fails: on a superblock without any flag,
`tunefs_set_in_progress(fs, 0)` sets the umbrella bit and leaves
`s_tunefs_flag` zero; the same happens for a flag above the 16-bit field
such as `0x10000`. -/
theorem C1_counterexample :
    ledger_inv ocfs2_consts (fs_of_super ⟨0, 0, 1⟩).fs_super ∧
    ¬ ledger_inv ocfs2_consts
      (tunefs_set_in_progress ocfs2_consts (fun _ => 0) (fs_of_super ⟨0, 0, 1⟩) 0).2.fs_super ∧
    ¬ ledger_inv ocfs2_consts
      (tunefs_set_in_progress ocfs2_consts (fun _ => 0) (fs_of_super ⟨0, 0, 1⟩)
        0x10000).2.fs_super := by
  decide

theorem restore_sub_flag (c : Consts) (hc : c.wf) (wr : ocfs2_filesys → errcode_t)
    (fs : ocfs2_filesys) (flag : Nat)
    (hf : flag ≠ c.OCFS2_FEATURE_INCOMPAT_RESIZE_INPROG)
    (h16 : fs.fs_super.s_tunefs_flag < 2 ^ 16)
    (hnew : (fs.fs_super.s_tunefs_flag &&& flag) % 2 ^ 16 = 0)
    (hinv : ledger_inv c fs.fs_super) :
    progress_bits c (tunefs_clear_in_progress c wr
        (tunefs_set_in_progress c wr fs flag).2 flag).2.fs_super =
      progress_bits c fs.fs_super := by
  obtain ⟨_, hT0, hR, hT, hRT, _⟩ := hc
  have hTR := land_comm_zero hRT
  unfold ledger_inv umbrella_set at hinv
  unfold tunefs_clear_in_progress tunefs_set_in_progress progress_bits
  simp only [hf, if_false]
  rw [lor_land_lnot_restore flag h16 hnew]
  by_cases h0 : fs.fs_super.s_tunefs_flag = 0
  · simp only [h0, if_true]
    have hu : fs.fs_super.s_feature_incompat &&& c.OCFS2_FEATURE_INCOMPAT_TUNEFS_INPROG = 0 := by
      by_contra hne
      exact (hinv.mp hne) h0
    rw [land_lnot_self_land, land_lnot_other_land _ hR hTR, lor_other_land _ hR hTR, hu]
  · simp only [h0, if_false]
    rw [lor_mask_land_self _ hT, lor_other_land _ hR hTR]
    have hu := hinv.mpr h0
    simp [hu, hT0]

theorem restore_resize_flag (c : Consts) (hc : c.wf) (wr : ocfs2_filesys → errcode_t)
    (fs : ocfs2_filesys)
    (hclear : fs.fs_super.s_feature_incompat &&& c.OCFS2_FEATURE_INCOMPAT_RESIZE_INPROG = 0) :
    progress_bits c (tunefs_clear_in_progress c wr
        (tunefs_set_in_progress c wr fs c.OCFS2_FEATURE_INCOMPAT_RESIZE_INPROG).2
        c.OCFS2_FEATURE_INCOMPAT_RESIZE_INPROG).2.fs_super =
      progress_bits c fs.fs_super := by
  obtain ⟨_, hT0, hR, hT, hRT, _⟩ := hc
  unfold tunefs_clear_in_progress tunefs_set_in_progress progress_bits
  simp only [if_true]
  rw [land_lnot_self_land, land_lnot_other_land _ hT hRT, lor_other_land _ hT hRT, hclear]

/-- C2 (as amended). When the flag is not yet recorded in the superblock (the
RESIZE_INPROG bit is clear for the legacy flag; for any other flag none of its
bits is set in the 16-bit `s_tunefs_flag` and the umbrella bit agrees with
`s_tunefs_flag`), `tunefs_set_in_progress(fs, flag)` followed by
`tunefs_clear_in_progress(fs, flag)` leaves the RESIZE_INPROG bit, the
TUNEFS_INPROG bit and `s_tunefs_flag` as they were before the set; this holds
whatever the two superblock writes return, so in particular when both
succeed. -/
theorem C2_set_clear_round_trip (c : Consts) (hc : c.wf) (wr : ocfs2_filesys → errcode_t)
    (fs : ocfs2_filesys) (flag : Nat)
    (h16 : fs.fs_super.s_tunefs_flag < 2 ^ 16)
    (hnew : flag_unrecorded c fs.fs_super flag) :
    progress_bits c (tunefs_clear_in_progress c wr
        (tunefs_set_in_progress c wr fs flag).2 flag).2.fs_super =
      progress_bits c fs.fs_super := by
  unfold flag_unrecorded at hnew
  by_cases hf : flag = c.OCFS2_FEATURE_INCOMPAT_RESIZE_INPROG
  · rw [if_pos hf] at hnew
    subst hf
    exact restore_resize_flag c hc wr fs hnew
  · rw [if_neg hf] at hnew
    exact restore_sub_flag c hc wr fs flag hf h16 hnew.1 hnew.2

/-- C2, concrete instance: with sub-flag 2 already recorded, setting and then
clearing sub-flag 1 restores the progress bits. -/
theorem C2_set_clear_round_trip_witness :
    ocfs2_consts.wf ∧ (2 : Nat) < 2 ^ 16 ∧
    flag_unrecorded ocfs2_consts (fs_of_super ⟨0x20, 2, 1⟩).fs_super 1 ∧
    progress_bits ocfs2_consts (tunefs_clear_in_progress ocfs2_consts (fun _ => 0)
        (tunefs_set_in_progress ocfs2_consts (fun _ => 0)
          (fs_of_super ⟨0x20, 2, 1⟩) 1).2 1).2.fs_super =
      progress_bits ocfs2_consts (fs_of_super ⟨0x20, 2, 1⟩).fs_super :=
  ⟨by decide, by decide, by decide,
    C2_set_clear_round_trip ocfs2_consts (by decide) (fun _ => 0)
      (fs_of_super ⟨0x20, 2, 1⟩) 1 (by decide) (by decide)⟩

/-- C2 as stated fails when the flag is already recorded: with the
RESIZE_INPROG bit set, set and clear of the legacy flag (both writes
succeeding) leave it clear; with sub-flag 1 recorded, set and clear of
sub-flag 1 leave `s_tunefs_flag` zero and the umbrella bit clear. -/
theorem C2_counterexample :
    ((tunefs_set_in_progress ocfs2_consts (fun _ => 0) (fs_of_super ⟨4, 0, 1⟩) 4).1 = 0 ∧
     (tunefs_clear_in_progress ocfs2_consts (fun _ => 0)
        (tunefs_set_in_progress ocfs2_consts (fun _ => 0)
          (fs_of_super ⟨4, 0, 1⟩) 4).2 4).1 = 0 ∧
     progress_bits ocfs2_consts (fs_of_super ⟨4, 0, 1⟩).fs_super = (true, false, 0) ∧
     progress_bits ocfs2_consts (tunefs_clear_in_progress ocfs2_consts (fun _ => 0)
        (tunefs_set_in_progress ocfs2_consts (fun _ => 0)
          (fs_of_super ⟨4, 0, 1⟩) 4).2 4).2.fs_super = (false, false, 0)) ∧
    (progress_bits ocfs2_consts (fs_of_super ⟨0x20, 1, 1⟩).fs_super = (false, true, 1) ∧
     progress_bits ocfs2_consts (tunefs_clear_in_progress ocfs2_consts (fun _ => 0)
        (tunefs_set_in_progress ocfs2_consts (fun _ => 0)
          (fs_of_super ⟨0x20, 1, 1⟩) 1).2 1).2.fs_super = (false, false, 0)) := by
  decide

/-! ## Traces -/

theorem calls_since_append (w w1 : World) (t : List Event)
    (h : w1.trace = w.trace ++ t) : calls_since w w1 = t := by
  unfold calls_since
  rw [h]
  exact List.drop_left _ _

theorem codes_of_wf (c : Consts) (hc : c.wf) :
    c.TUNEFS_ET_INVALID_STACK_NAME ≠ 0 ∧ c.TUNEFS_ET_PERFORM_ONLINE ≠ 0 ∧
    c.TUNEFS_ET_INTERNAL_FAILURE ≠ 0 ∧
    fatal c c.TUNEFS_ET_INTERNAL_FAILURE ∧ fatal c c.TUNEFS_ET_HEARTBEAT_DEV ∧
    fatal c c.TUNEFS_ET_RESIZE_IN_PROGRESS ∧ fatal c c.TUNEFS_ET_TUNEFS_IN_PROGRESS ∧
    fatal c c.TUNEFS_ET_JOURNAL_DIRTY ∧
    c.TUNEFS_ET_INVALID_STACK_NAME ≠ c.TUNEFS_ET_PERFORM_ONLINE := by
  obtain ⟨_, _, _, _, _, hnd⟩ := hc
  simp only [List.nodup_cons, List.mem_cons, List.mem_singleton, not_or, List.not_mem_nil,
    not_false_eq_true, List.nodup_nil, and_true] at hnd
  unfold fatal
  obtain ⟨h0, h1, h2, h3, h4, h5, h6⟩ := hnd
  refine ⟨?_, ?_, ?_, ⟨?_, ?_, ?_⟩, ⟨?_, ?_, ?_⟩, ⟨?_, ?_, ?_⟩, ⟨?_, ?_, ?_⟩, ⟨?_, ?_, ?_⟩, ?_⟩
  all_goals (intro h; simp_all)

/-! ## tunefs_open: the feature checks -/

/-- C3 (as amended). On a volume whose `s_feature_incompat` has the
RESIZE_INPROG bit set, a read-write `tunefs_open` whose `ocfs2_open`
succeeds returns `TUNEFS_ET_RESIZE_IN_PROGRESS` when the HEARTBEAT_DEV bit
is clear and `TUNEFS_ET_HEARTBEAT_DEV` when it is set; in both cases the
only external calls are `ocfs2_open` and `ocfs2_close` (no `o2cb_init`, no
DLM call, no lock attempt), the inherited lock-state variable and
`cluster_locked` are unchanged, and `fs` is NULL on return. -/
theorem C3_resize_in_progress (c : Consts) (hc : c.wf) (device : String) (flags : Nat)
    (w : World)
    (hrw : flags &&& c.TUNEFS_FLAG_RW ≠ 0)
    (hopen : w.oc.ocfs2_open w.trace.length = 0)
    (hres : (w.volume device).fs_super.s_feature_incompat &&&
      c.OCFS2_FEATURE_INCOMPAT_RESIZE_INPROG ≠ 0) :
    ∃ w1 : World,
      tunefs_open c device flags w =
        some (if (w.volume device).fs_super.s_feature_incompat &&&
                  c.OCFS2_FEATURE_INCOMPAT_HEARTBEAT_DEV ≠ 0
              then c.TUNEFS_ET_HEARTBEAT_DEV else c.TUNEFS_ET_RESIZE_IN_PROGRESS, w1) ∧
      calls_since w w1 = [Event.ocfs2_open device true, Event.ocfs2_close] ∧
      w1.lockenv = w.lockenv ∧ w1.cluster_locked = w.cluster_locked ∧ w1.fs = none := by
  obtain ⟨_, _, _, _, hfh, hfr, _, _, _⟩ := codes_of_wf c hc
  refine ⟨{ (ocfs2_close (ocfs2_open device true w).2).2 with fs := none }, ?_, ?_, ?_, ?_, ?_⟩
  · by_cases hhb : (w.volume device).fs_super.s_feature_incompat &&&
        c.OCFS2_FEATURE_INCOMPAT_HEARTBEAT_DEV ≠ 0
    · simp [tunefs_open, ocfs2_open, hopen, hrw, hhb, open_out, hfh, ocfs2_close,
        World.log]
    · simp [tunefs_open, ocfs2_open, hopen, hrw, hhb, hres, open_out, hfr, ocfs2_close,
        World.log]
  · apply calls_since_append
    simp [ocfs2_close, ocfs2_open, World.log]
  · rfl
  · rfl
  · rfl

/-- C3, concrete instance: a read-write open of a volume with only the
RESIZE_INPROG bit set. -/
theorem C3_resize_in_progress_witness :
    ∃ w1 : World,
      tunefs_open ocfs2_consts "/dev/sdb1" 1
          (start_world (one_slot_volume 4 false 0) none all_succeed) =
        some (ocfs2_consts.TUNEFS_ET_RESIZE_IN_PROGRESS, w1) ∧
      calls_since (start_world (one_slot_volume 4 false 0) none all_succeed) w1 =
        [Event.ocfs2_open "/dev/sdb1" true, Event.ocfs2_close] ∧
      w1.lockenv = none ∧ w1.cluster_locked = false ∧ w1.fs = none :=
  C3_resize_in_progress ocfs2_consts (by decide) "/dev/sdb1" 1
    (start_world (one_slot_volume 4 false 0) none all_succeed)
    (by decide) (by decide) (by decide)

/-- C3 as stated fails: with the HEARTBEAT_DEV bit set next to the
RESIZE_INPROG bit, a read-write open returns `TUNEFS_ET_HEARTBEAT_DEV`, not
`TUNEFS_ET_RESIZE_IN_PROGRESS`. -/
theorem C3_counterexample :
    (one_slot_volume 6 false 0).fs_super.s_feature_incompat &&&
      ocfs2_consts.OCFS2_FEATURE_INCOMPAT_RESIZE_INPROG ≠ 0 ∧
    (1 : Nat) &&& ocfs2_consts.TUNEFS_FLAG_RW ≠ 0 ∧
    (tunefs_open ocfs2_consts "/dev/sdb1" 1
        (start_world (one_slot_volume 6 false 0) none all_succeed)).map Prod.fst =
      some ocfs2_consts.TUNEFS_ET_HEARTBEAT_DEV ∧
    ocfs2_consts.TUNEFS_ET_HEARTBEAT_DEV ≠ ocfs2_consts.TUNEFS_ET_RESIZE_IN_PROGRESS := by
  decide

/-! ## tunefs_close -/

/-- C9. On a session with an open handle (and the lock only marked held
while the handle has a lock context), `tunefs_close` makes, in this order,
the calls `ocfs2_release_cluster` (between blocking and unblocking signals)
if the lock is held, `ocfs2_shutdown_dlm` if a lock context exists,
`unsetenv` of the inherited lock-state variable, and `ocfs2_close`, whatever
the earlier steps returned; it returns the first nonzero result among them
(`TUNEFS_ET_INTERNAL_FAILURE` standing for a failed `unsetenv`), 0 if there
is none, and leaves `fs` NULL and `cluster_locked` clear. -/
theorem C9_close_runs_every_step (c : Consts) (w : World) (h : ocfs2_filesys)
    (hfs : w.fs = some h) (hinv : lock_inv w) :
    calls_since w (tunefs_close c w).2 =
      (if w.cluster_locked then
        [Event.sigprocmask_block, Event.ocfs2_release_cluster, Event.sigprocmask_unblock]
       else []) ++
      (if h.fs_dlm_ctxt then [Event.ocfs2_shutdown_dlm] else []) ++
      [Event.unsetenv, Event.ocfs2_close] ∧
    (tunefs_close c w).1 =
      first_error
        ((if w.cluster_locked then [w.oc.ocfs2_release_cluster (w.trace.length + 1)] else []) ++
         (if h.fs_dlm_ctxt then
            [(w.oc.ocfs2_shutdown_dlm
                (w.trace.length + (if w.cluster_locked then 3 else 0))).1]
          else []) ++
         [if w.oc.unsetenv (w.trace.length + (if w.cluster_locked then 3 else 0) +
                (if h.fs_dlm_ctxt then 1 else 0)) ≠ 0
          then c.TUNEFS_ET_INTERNAL_FAILURE else 0,
          w.oc.ocfs2_close (w.trace.length + (if w.cluster_locked then 3 else 0) +
                (if h.fs_dlm_ctxt then 1 else 0) + 1)]) ∧
    (tunefs_close c w).2.fs = none ∧
    (tunefs_close c w).2.cluster_locked = false := by
  cases hl : w.cluster_locked <;> cases hx : h.fs_dlm_ctxt
  · refine ⟨?_, ?_, ?_, ?_⟩
    · apply calls_since_append
      simp [tunefs_close, hfs, tunefs_unlock_cluster, unlock_release, unlock_shutdown, hl, hx,
        tunefs_set_lock_env, unsetenv, ocfs2_close, World.log]
    · simp [tunefs_close, hfs, tunefs_unlock_cluster, unlock_release, unlock_shutdown, hl, hx,
        tunefs_set_lock_env, unsetenv, ocfs2_close, World.log, first_error]
      split_ifs <;> simp_all
    · simp [tunefs_close, hfs]
    · simp [tunefs_close, hfs, tunefs_unlock_cluster, unlock_release, unlock_shutdown, hl, hx,
        tunefs_set_lock_env, unsetenv, ocfs2_close, World.log]
  · refine ⟨?_, ?_, ?_, ?_⟩
    · apply calls_since_append
      simp [tunefs_close, hfs, tunefs_unlock_cluster, unlock_release, unlock_shutdown, hl, hx,
        tunefs_set_lock_env, unsetenv, ocfs2_close, ocfs2_shutdown_dlm, World.log,
        World.update_fs]
    · simp [tunefs_close, hfs, tunefs_unlock_cluster, unlock_release, unlock_shutdown, hl, hx,
        tunefs_set_lock_env, unsetenv, ocfs2_close, ocfs2_shutdown_dlm, World.log,
        World.update_fs, first_error]
      split_ifs <;> simp_all
    · simp [tunefs_close, hfs]
    · simp [tunefs_close, hfs, tunefs_unlock_cluster, unlock_release, unlock_shutdown, hl, hx,
        tunefs_set_lock_env, unsetenv, ocfs2_close, ocfs2_shutdown_dlm, World.log,
        World.update_fs]
  · obtain ⟨h1, hfs1, hx1⟩ := hinv hl
    rw [hfs] at hfs1
    cases hfs1
    rw [hx] at hx1
    exact Bool.noConfusion hx1
  · refine ⟨?_, ?_, ?_, ?_⟩
    · apply calls_since_append
      simp [tunefs_close, hfs, tunefs_unlock_cluster, unlock_release, unlock_shutdown, hl, hx,
        tunefs_set_lock_env, unsetenv, ocfs2_close, ocfs2_shutdown_dlm, ocfs2_release_cluster,
        tunefs_block_signals, tunefs_unblock_signals, World.log, World.update_fs]
    · simp [tunefs_close, hfs, tunefs_unlock_cluster, unlock_release, unlock_shutdown, hl, hx,
        tunefs_set_lock_env, unsetenv, ocfs2_close, ocfs2_shutdown_dlm, ocfs2_release_cluster,
        tunefs_block_signals, tunefs_unblock_signals, World.log, World.update_fs, first_error]
      split_ifs <;> simp_all
    · simp [tunefs_close, hfs]
    · simp [tunefs_close, hfs, tunefs_unlock_cluster, unlock_release, unlock_shutdown, hl, hx,
        tunefs_set_lock_env, unsetenv, ocfs2_close, ocfs2_shutdown_dlm, ocfs2_release_cluster,
        tunefs_block_signals, tunefs_unblock_signals, World.log, World.update_fs]

/-- C9, concrete instance: the lock is held and every cleanup step fails; all
four steps still run and the result is that of the first one. -/
theorem C9_close_runs_every_step_witness :
    lock_inv (held_world cleanup_fails) ∧
    calls_since (held_world cleanup_fails) (tunefs_close ocfs2_consts (held_world cleanup_fails)).2 =
      [Event.sigprocmask_block, Event.ocfs2_release_cluster, Event.sigprocmask_unblock,
       Event.ocfs2_shutdown_dlm, Event.unsetenv, Event.ocfs2_close] ∧
    (tunefs_close ocfs2_consts (held_world cleanup_fails)).1 = 5 ∧
    (tunefs_close ocfs2_consts (held_world cleanup_fails)).2.fs = none ∧
    (tunefs_close ocfs2_consts (held_world cleanup_fails)).2.cluster_locked = false :=
  ⟨fun _ => ⟨_, rfl, rfl⟩,
    C9_close_runs_every_step ocfs2_consts (held_world cleanup_fails)
      { one_slot_volume 0 false 0 with fs_dlm_ctxt := true } rfl (fun _ => ⟨_, rfl, rfl⟩)⟩

/-- C9 as stated fails: on a session with an open handle in which
`cluster_locked` is set although the handle has no lock context,
`tunefs_close` returns 0 after calling only `unsetenv` and `ocfs2_close`: the
lock is marked held, `ocfs2_release_cluster` is not called, and
`cluster_locked` is still set on return. -/
theorem C9_counterexample :
    (local_world true all_succeed).fs.isSome = true ∧
    (local_world true all_succeed).cluster_locked = true ∧
    (tunefs_close ocfs2_consts (local_world true all_succeed)).1 = 0 ∧
    (tunefs_close ocfs2_consts (local_world true all_succeed)).2.trace =
      [Event.unsetenv, Event.ocfs2_close] ∧
    (tunefs_close ocfs2_consts (local_world true all_succeed)).2.fs = none ∧
    (tunefs_close ocfs2_consts (local_world true all_succeed)).2.cluster_locked = true := by
  refine ⟨rfl, rfl, by decide, by decide, rfl, rfl⟩

theorem open_out_fst (c : Consts) (e : errcode_t) (w : World) : (open_out c e w).1 = e := by
  unfold open_out
  split_ifs
  · split <;> rfl
  · rfl

theorem open_out_fatal_fs (c : Consts) (e : errcode_t) (w : World) (hf : fatal c e) :
    (open_out c e w).2.fs = none := by
  unfold open_out
  rw [if_pos hf]
  split
  · rfl
  · assumption

theorem open_result_shape (c : Consts) (device : String) (flags : Nat) (w : World)
    (r : errcode_t × World) (h : tunefs_open c device flags w = some r) :
    ∃ e w1, r = open_out c e w1 := by
  unfold tunefs_open open_locked at h
  simp only at h
  repeat' split at h
  all_goals first
    | exact Option.noConfusion h
    | exact ⟨_, _, (Option.some.inj h).symm⟩

theorem close_of_closed (c : Consts) (w : World) (h : w.fs = none) :
    tunefs_close c w = (0, w) := by
  unfold tunefs_close
  rw [h]

theorem close_leaves_closed (c : Consts) (w : World) : (tunefs_close c w).2.fs = none := by
  unfold tunefs_close
  split
  · rfl
  · assumption

/-- C10. `tunefs_close` on a session that is not open does nothing: after a
`tunefs_open` that failed fatally, and after a preceding `tunefs_close` (on
any state `w0`), it returns 0, makes no external call (so no
`ocfs2_release_cluster`, `ocfs2_shutdown_dlm` or `ocfs2_close`) and leaves the
whole session state as it was. -/
theorem C10_close_idempotent (c : Consts) (device : String) (flags : Nat) (w w0 : World)
    (r : errcode_t × World) (hopen : tunefs_open c device flags w = some r)
    (hfatal : fatal c r.1) :
    (tunefs_close c r.2 = (0, r.2) ∧ calls_since r.2 (tunefs_close c r.2).2 = []) ∧
    (tunefs_close c (tunefs_close c w0).2 = (0, (tunefs_close c w0).2) ∧
      calls_since (tunefs_close c w0).2 (tunefs_close c (tunefs_close c w0).2).2 = []) := by
  obtain ⟨e, w1, hr⟩ := open_result_shape c device flags w r hopen
  have he : r.1 = e := by rw [hr]; exact open_out_fst c e w1
  have hnone : r.2.fs = none := by
    rw [hr]
    exact open_out_fatal_fs c e w1 (he ▸ hfatal)
  have h1 := close_of_closed c r.2 hnone
  have h2 := close_of_closed c _ (close_leaves_closed c w0)
  refine ⟨⟨h1, ?_⟩, ⟨h2, ?_⟩⟩
  · rw [h1]
    exact calls_since_append _ _ [] (List.append_nil _).symm
  · rw [h2]
    exact calls_since_append _ _ [] (List.append_nil _).symm

/-- C10, concrete instance: a read-write open that fails on a dirty journal,
followed by `tunefs_close`; and `tunefs_close` twice on a session holding the
lock. -/
theorem C10_close_idempotent_witness :
    ∃ r : errcode_t × World,
      tunefs_open ocfs2_consts "/dev/sdb1" 1
        (start_world (one_slot_volume 0 true 1) none all_succeed) = some r ∧
      fatal ocfs2_consts r.1 ∧
      (tunefs_close ocfs2_consts r.2 = (0, r.2) ∧
        calls_since r.2 (tunefs_close ocfs2_consts r.2).2 = []) ∧
      (tunefs_close ocfs2_consts (tunefs_close ocfs2_consts (held_world all_succeed)).2 =
          (0, (tunefs_close ocfs2_consts (held_world all_succeed)).2) ∧
        calls_since (tunefs_close ocfs2_consts (held_world all_succeed)).2
          (tunefs_close ocfs2_consts
            (tunefs_close ocfs2_consts (held_world all_succeed)).2).2 = []) :=
  ⟨_, rfl, by decide,
    C10_close_idempotent ocfs2_consts "/dev/sdb1" 1
      (start_world (one_slot_volume 0 true 1) none all_succeed) (held_world all_succeed)
      _ rfl (by decide)⟩

/-! ## Effects of the lock helpers on the session -/

theorem mem_calls_since_mono (w w1 w2 : World) (e : Event)
    (h12 : w1.trace <+: w2.trace) (he : e ∈ calls_since w w1) : e ∈ calls_since w w2 := by
  obtain ⟨t, ht⟩ := h12
  unfold calls_since at *
  rw [← ht, List.drop_append_eq_append_drop]
  exact List.mem_append_left _ he

theorem set_lock_env_post (c : Consts) (s : Option String) (w : World) :
    (tunefs_set_lock_env c s w).2.fs = w.fs ∧
    (tunefs_set_lock_env c s w).2.cluster_locked = w.cluster_locked ∧
    (tunefs_set_lock_env c s w).2.journal_clusters = w.journal_clusters ∧
    (tunefs_set_lock_env c s w).2.oc = w.oc ∧
    (tunefs_set_lock_env c s w).2.volume = w.volume ∧
    (tunefs_set_lock_env c s w).2.trace =
      w.trace ++ [match s with | none => Event.unsetenv | some v => Event.setenv v] := by
  cases s <;> simp [tunefs_set_lock_env, unsetenv, setenv, World.log]

theorem unlock_cluster_frame (c : Consts) (w : World) :
    handle_volume (tunefs_unlock_cluster c w).2.fs = handle_volume w.fs ∧
    (tunefs_unlock_cluster c w).2.journal_clusters = w.journal_clusters ∧
    (tunefs_unlock_cluster c w).2.oc = w.oc ∧
    (tunefs_unlock_cluster c w).2.volume = w.volume ∧
    w.trace <+: (tunefs_unlock_cluster c w).2.trace ∧
    ∀ e ∈ calls_since w (tunefs_unlock_cluster c w).2, e.is_acquire = false := by
  cases hfs : w.fs with
  | none => simp [tunefs_unlock_cluster, hfs, calls_since]
  | some h =>
    cases hl : w.cluster_locked <;> cases hx : h.fs_dlm_ctxt <;>
      simp [tunefs_unlock_cluster, hfs, unlock_release, unlock_shutdown, hl, hx,
        tunefs_set_lock_env, unsetenv, ocfs2_shutdown_dlm, ocfs2_release_cluster,
        tunefs_block_signals, tunefs_unblock_signals, World.log, World.update_fs,
        calls_since, Event.is_acquire, handle_volume]

theorem unlock_cluster_clears (c : Consts) (w : World) (hinv : lock_inv w) :
    (tunefs_unlock_cluster c w).2.cluster_locked = false := by
  cases hl : w.cluster_locked with
  | false =>
    cases hfs : w.fs with
    | none => simp [tunefs_unlock_cluster, hfs, hl]
    | some h =>
      cases hx : h.fs_dlm_ctxt <;>
        simp [tunefs_unlock_cluster, hfs, unlock_release, unlock_shutdown, hl, hx,
          tunefs_set_lock_env, unsetenv, ocfs2_shutdown_dlm, World.log, World.update_fs]
  | true =>
    obtain ⟨h, hfs, hx⟩ := hinv hl
    simp [tunefs_unlock_cluster, hfs, unlock_release, unlock_shutdown, hl, hx,
      tunefs_set_lock_env, unsetenv, ocfs2_shutdown_dlm, ocfs2_release_cluster,
      tunefs_block_signals, tunefs_unblock_signals, World.log, World.update_fs]

theorem lock_inv_of_unlocked (w : World) (h : w.cluster_locked = false) : lock_inv w := by
  intro h1
  rw [h] at h1
  exact Bool.noConfusion h1

theorem calls_since_trans (w w1 w2 : World) (h1 : w.trace <+: w1.trace)
    (h2 : w1.trace <+: w2.trace) :
    calls_since w w2 = calls_since w w1 ++ calls_since w1 w2 := by
  obtain ⟨t1, ht1⟩ := h1
  obtain ⟨t2, ht2⟩ := h2
  rw [calls_since_append w w1 t1 ht1.symm, calls_since_append w1 w2 t2 ht2.symm]
  apply calls_since_append
  rw [← ht2, ← ht1, List.append_assoc]

theorem set_lock_env_fst (c : Consts) (s : Option String) (w : World) :
    (tunefs_set_lock_env c s w).1 = 0 ∨
    ((tunefs_set_lock_env c s w).1 ≠ 0 ∧
      (tunefs_set_lock_env c s w).1 = c.TUNEFS_ET_INTERNAL_FAILURE) := by
  cases s <;> simp only [tunefs_set_lock_env] <;> split_ifs <;> simp_all <;> exact em _

theorem set_lock_env_calls (c : Consts) (s : Option String) (w : World) :
    w.trace <+: (tunefs_set_lock_env c s w).2.trace ∧
    ∀ e ∈ calls_since w (tunefs_set_lock_env c s w).2, e.is_acquire = false := by
  have h := (set_lock_env_post c s w).2.2.2.2.2
  refine ⟨⟨_, h.symm⟩, ?_⟩
  rw [calls_since_append _ _ _ h]
  cases s <;> simp [Event.is_acquire]

theorem lock_out_set_eq (c : Consts) (err : errcode_t) (w : World) :
    lock_out_set c err w =
      if (tunefs_set_lock_env c
            (if err = 0 ∧ w.cluster_locked = true then some TUNEFS_OCFS2_LOCK_ENV_LOCKED
             else if err = c.TUNEFS_ET_PERFORM_ONLINE then some TUNEFS_OCFS2_LOCK_ENV_ONLINE
             else none) w).1 ≠ 0
      then ((tunefs_set_lock_env c
            (if err = 0 ∧ w.cluster_locked = true then some TUNEFS_OCFS2_LOCK_ENV_LOCKED
             else if err = c.TUNEFS_ET_PERFORM_ONLINE then some TUNEFS_OCFS2_LOCK_ENV_ONLINE
             else none) w).1,
            (tunefs_unlock_cluster c (tunefs_set_lock_env c
            (if err = 0 ∧ w.cluster_locked = true then some TUNEFS_OCFS2_LOCK_ENV_LOCKED
             else if err = c.TUNEFS_ET_PERFORM_ONLINE then some TUNEFS_OCFS2_LOCK_ENV_ONLINE
             else none) w).2).2)
      else (err, (tunefs_set_lock_env c
            (if err = 0 ∧ w.cluster_locked = true then some TUNEFS_OCFS2_LOCK_ENV_LOCKED
             else if err = c.TUNEFS_ET_PERFORM_ONLINE then some TUNEFS_OCFS2_LOCK_ENV_ONLINE
             else none) w).2) := by
  unfold lock_out_set
  split_ifs <;> simp_all

/-- What `lock_out_set` does: when recording succeeds it returns `err` and
changes only the lock-state variable; when recording fails it returns
`TUNEFS_ET_INTERNAL_FAILURE` after `tunefs_unlock_cluster`. -/
theorem lock_out_set_post (c : Consts) (err : errcode_t) (w : World) :
    ((lock_out_set c err w).1 = err ∧
        (lock_out_set c err w).2.cluster_locked = w.cluster_locked ∧
        (lock_out_set c err w).2.fs = w.fs ∨
      (lock_out_set c err w).1 = c.TUNEFS_ET_INTERNAL_FAILURE ∧
        c.TUNEFS_ET_INTERNAL_FAILURE ≠ 0 ∧
        (lock_inv w → (lock_out_set c err w).2.cluster_locked = false)) ∧
    handle_volume (lock_out_set c err w).2.fs = handle_volume w.fs ∧
    (lock_out_set c err w).2.journal_clusters = w.journal_clusters ∧
    (lock_out_set c err w).2.oc = w.oc ∧
    (lock_out_set c err w).2.volume = w.volume ∧
    w.trace <+: (lock_out_set c err w).2.trace ∧
    ∀ e ∈ calls_since w (lock_out_set c err w).2, e.is_acquire = false := by
  rw [lock_out_set_eq]
  generalize (if err = 0 ∧ w.cluster_locked = true then some TUNEFS_OCFS2_LOCK_ENV_LOCKED
             else if err = c.TUNEFS_ET_PERFORM_ONLINE then some TUNEFS_OCFS2_LOCK_ENV_ONLINE
             else none) = s
  obtain ⟨hfs, hl, hj, ho, hv, _⟩ := set_lock_env_post c s w
  obtain ⟨hp, hc⟩ := set_lock_env_calls c s w
  obtain ⟨ufs, uj, uo, uv, up, uc⟩ := unlock_cluster_frame c (tunefs_set_lock_env c s w).2
  rcases set_lock_env_fst c s w with h0 | ⟨hne, hint⟩
  · rw [if_neg (not_not.mpr h0)]
    exact ⟨Or.inl ⟨rfl, hl, hfs⟩, by rw [hfs], hj, ho, hv, hp, hc⟩
  · rw [if_pos hne]
    refine ⟨Or.inr ⟨hint, hint ▸ hne, ?_⟩, ?_, ?_, ?_, ?_, ?_, ?_⟩
    · intro hinv
      apply unlock_cluster_clears
      intro hl1
      rw [hl] at hl1
      rw [hfs]
      exact hinv hl1
    · simp only [ufs, hfs]
    · simp only [uj, hj]
    · simp only [uo, ho]
    · simp only [uv, hv]
    · exact hp.trans up
    · intro e he
      simp only at he
      rw [calls_since_trans _ _ _ hp up, List.mem_append] at he
      rcases he with he | he
      · exact hc e he
      · exact uc e he

/-! ## tunefs_lock_cluster -/

/-- C5 (as amended). On a volume for which `ocfs2_mount_local` reports
local-only, for every flags value and every prior process state,
`tunefs_lock_cluster` makes no call to `o2cb_init`, `ocfs2_initialize_dlm` or
`ocfs2_lock_down_cluster`; it returns 0 when recording the lock state
(`setenv` if `cluster_locked` is set, `unsetenv` otherwise) succeeds, and
`TUNEFS_ET_INTERNAL_FAILURE` when it fails. -/
theorem C5_local_volume (c : Consts) (hc : c.wf) (flags : Nat) (w : World)
    (h : ocfs2_filesys) (hfs : w.fs = some h) (hlocal : h.mount_local = true) :
    ∃ r : errcode_t × World,
      tunefs_lock_cluster c flags w = some r ∧
      r.1 = (if (if w.cluster_locked then w.oc.setenv w.trace.length
                 else w.oc.unsetenv w.trace.length) = 0
             then 0 else c.TUNEFS_ET_INTERNAL_FAILURE) ∧
      Event.o2cb_init ∉ calls_since w r.2 ∧
      Event.ocfs2_initialize_dlm ∉ calls_since w r.2 ∧
      Event.ocfs2_lock_down_cluster ∉ calls_since w r.2 := by
  obtain ⟨_, hpo, _, _, _, _, _, _, _⟩ := codes_of_wf c hc
  have hcalls := (lock_out_set_post c 0 w).2.2.2.2.2.2
  refine ⟨lock_out_set c 0 w, ?_, ?_, ?_, ?_, ?_⟩
  · simp [tunefs_lock_cluster, hfs, hlocal]
  · rw [lock_out_set_eq]
    cases hl : w.cluster_locked
    · simp only [Bool.false_eq_true, and_false, if_false, hpo.symm]
      simp only [tunefs_set_lock_env, unsetenv]
      split_ifs <;> simp_all
    · simp only [and_self, if_true]
      simp only [tunefs_set_lock_env, setenv]
      split_ifs <;> simp_all
  · intro hmem
    exact Bool.noConfusion (hcalls _ hmem)
  · intro hmem
    exact Bool.noConfusion (hcalls _ hmem)
  · intro hmem
    exact Bool.noConfusion (hcalls _ hmem)

/-- C5, concrete instance: a local-only volume, every call succeeding. -/
theorem C5_local_volume_witness :
    ∃ r : errcode_t × World,
      tunefs_lock_cluster ocfs2_consts 1 (local_world false all_succeed) = some r ∧
      r.1 = 0 ∧
      Event.o2cb_init ∉ calls_since (local_world false all_succeed) r.2 ∧
      Event.ocfs2_initialize_dlm ∉ calls_since (local_world false all_succeed) r.2 ∧
      Event.ocfs2_lock_down_cluster ∉ calls_since (local_world false all_succeed) r.2 :=
  C5_local_volume ocfs2_consts (by decide) 1 (local_world false all_succeed)
    (one_slot_volume 0 true 0) rfl rfl

/-- C5 as stated fails: on a local-only volume a failing `unsetenv` makes
`tunefs_lock_cluster` return `TUNEFS_ET_INTERNAL_FAILURE` instead of 0, and
so does a failing `setenv` when the call is entered with `cluster_locked`
set. -/
theorem C5_counterexample :
    (local_world false unsetenv_fails).fs.map (fun h => h.mount_local) = some true ∧
    (tunefs_lock_cluster ocfs2_consts 1 (local_world false unsetenv_fails)).map Prod.fst =
      some ocfs2_consts.TUNEFS_ET_INTERNAL_FAILURE ∧
    (tunefs_lock_cluster ocfs2_consts 1 (local_world true setenv_fails)).map Prod.fst =
      some ocfs2_consts.TUNEFS_ET_INTERNAL_FAILURE ∧
    ocfs2_consts.TUNEFS_ET_INTERNAL_FAILURE ≠ 0 := by
  decide

theorem lock_down_post (w : World) :
    (tunefs_unblock_signals (ocfs2_lock_down_cluster (tunefs_block_signals w)).2).fs = w.fs ∧
    (tunefs_unblock_signals (ocfs2_lock_down_cluster
      (tunefs_block_signals w)).2).cluster_locked = w.cluster_locked ∧
    (tunefs_unblock_signals (ocfs2_lock_down_cluster
      (tunefs_block_signals w)).2).journal_clusters = w.journal_clusters ∧
    (tunefs_unblock_signals (ocfs2_lock_down_cluster (tunefs_block_signals w)).2).oc = w.oc ∧
    (tunefs_unblock_signals (ocfs2_lock_down_cluster
      (tunefs_block_signals w)).2).volume = w.volume ∧
    (tunefs_unblock_signals (ocfs2_lock_down_cluster
      (tunefs_block_signals w)).2).lockenv = w.lockenv ∧
    (tunefs_unblock_signals (ocfs2_lock_down_cluster (tunefs_block_signals w)).2).trace =
      w.trace ++ [Event.sigprocmask_block, Event.ocfs2_lock_down_cluster,
        Event.sigprocmask_unblock] ∧
    (ocfs2_lock_down_cluster (tunefs_block_signals w)).1 =
      w.oc.ocfs2_lock_down_cluster (w.trace.length + 1) := by
  simp [tunefs_unblock_signals, tunefs_block_signals, ocfs2_lock_down_cluster, World.log]

/-- What the locking step does on a session that does not hold the lock and
has a lock context. -/
theorem lock_acquire_post (c : Consts) (hc : c.wf) (flags : Nat) (w : World)
    (h : ocfs2_filesys) (hfs : w.fs = some h) (hx : h.fs_dlm_ctxt = true)
    (hl : w.cluster_locked = false) :
    handle_volume (lock_acquire c flags w).2.fs = handle_volume w.fs ∧
    lock_inv (lock_acquire c flags w).2 ∧
    (fatal c (lock_acquire c flags w).1 → (lock_acquire c flags w).2.cluster_locked = false) ∧
    ((lock_acquire c flags w).1 = 0 →
      (lock_acquire c flags w).2.cluster_locked = true ∧
      w.oc.ocfs2_lock_down_cluster (w.trace.length + 1) = 0 ∧
      Event.ocfs2_lock_down_cluster ∈ calls_since w (lock_acquire c flags w).2) ∧
    (lock_acquire c flags w).2.journal_clusters = w.journal_clusters ∧
    (lock_acquire c flags w).2.oc = w.oc ∧
    (lock_acquire c flags w).2.volume = w.volume ∧
    w.trace <+: (lock_acquire c flags w).2.trace := by
  obtain ⟨_, hpo, _, hfi, _, _, _, _, _⟩ := codes_of_wf c hc
  obtain ⟨dfs, dl, dj, do_, dv, _, dt, d1⟩ := lock_down_post w
  have dp : w.trace <+: (tunefs_unblock_signals (ocfs2_lock_down_cluster
      (tunefs_block_signals w)).2).trace := ⟨_, dt.symm⟩
  have dmem : Event.ocfs2_lock_down_cluster ∈ calls_since w
      (tunefs_unblock_signals (ocfs2_lock_down_cluster (tunefs_block_signals w)).2) := by
    rw [calls_since_append _ _ _ dt]
    simp
  unfold lock_acquire
  simp only
  generalize hw1 : tunefs_unblock_signals (ocfs2_lock_down_cluster
      (tunefs_block_signals w)).2 = w1 at dfs dl dj do_ dv dt dp dmem ⊢
  generalize hr0 : (ocfs2_lock_down_cluster (tunefs_block_signals w)).1 = r0 at d1 ⊢
  by_cases h0 : r0 = 0
  · rw [if_pos h0, h0]
    have hWinv : lock_inv { w1 with cluster_locked := true } :=
      fun _ => ⟨h, dfs.trans hfs, hx⟩
    obtain ⟨hcase, hsome, hj, ho, hv, hp, _⟩ :=
      lock_out_set_post c 0 { w1 with cluster_locked := true }
    have hp1 : w1.trace <+: (lock_out_set c 0 { w1 with cluster_locked := true }).2.trace := hp
    refine ⟨?_, ?_, ?_, ?_, hj.trans dj, ho.trans do_, hv.trans dv, dp.trans hp1⟩
    · rw [hsome]
      show handle_volume w1.fs = _
      rw [dfs]
    · rcases hcase with ⟨_, _, hfs2⟩ | ⟨_, _, hcl⟩
      · intro _
        exact ⟨h, hfs2.trans (dfs.trans hfs), hx⟩
      · exact lock_inv_of_unlocked _ (hcl hWinv)
    · rcases hcase with ⟨he, _, _⟩ | ⟨_, _, hcl⟩
      · intro hf
        exact absurd he hf.1
      · intro _
        exact hcl hWinv
    · rcases hcase with ⟨_, hl2, _⟩ | ⟨he, hne, _⟩
      · intro _
        exact ⟨hl2, d1 ▸ h0, mem_calls_since_mono w w1 _ _ hp1 dmem⟩
      · intro he0
        rw [he] at he0
        exact absurd he0 hne
  · rw [if_neg h0]
    by_cases ht : r0 = c.O2DLM_ET_TRYLOCK_FAILED ∧ flags &&& c.TUNEFS_FLAG_ONLINE ≠ 0
    · rw [if_pos ht]
      have hw1inv : lock_inv w1 := lock_inv_of_unlocked _ (dl.trans hl)
      obtain ⟨hcase, hsome, hj, ho, hv, hp, _⟩ :=
        lock_out_set_post c c.TUNEFS_ET_PERFORM_ONLINE w1
      have hcl : (lock_out_set c c.TUNEFS_ET_PERFORM_ONLINE w1).2.cluster_locked = false := by
        rcases hcase with ⟨_, hl2, _⟩ | ⟨_, _, hcl⟩
        · exact hl2.trans (dl.trans hl)
        · exact hcl hw1inv
      refine ⟨?_, lock_inv_of_unlocked _ hcl, fun _ => hcl, ?_, hj.trans dj, ho.trans do_,
        hv.trans dv, dp.trans hp⟩
      · rw [hsome, dfs]
      · intro he0
        rw [hcl]
        rcases hcase with ⟨he, _, _⟩ | ⟨he, hne, _⟩
        · rw [he] at he0
          exact absurd he0 hpo
        · rw [he] at he0
          exact absurd he0 hne
    · rw [if_neg ht]
      have hcl : (ocfs2_shutdown_dlm w1).2.cluster_locked = false := by
        simp [ocfs2_shutdown_dlm, World.log, World.update_fs, dl, hl]
      refine ⟨?_, lock_inv_of_unlocked _ hcl, fun _ => hcl, fun he0 => absurd he0 h0, ?_, ?_, ?_,
        ?_⟩
      · simp [ocfs2_shutdown_dlm, World.log, World.update_fs, dfs, hfs, handle_volume]
      · simp [ocfs2_shutdown_dlm, World.log, World.update_fs, dj]
      · simp [ocfs2_shutdown_dlm, World.log, World.update_fs, do_]
      · simp [ocfs2_shutdown_dlm, World.log, World.update_fs, dv]
      · refine dp.trans ?_
        simp [ocfs2_shutdown_dlm, World.log, World.update_fs]

theorem init_dlm_post (w : World) (h : ocfs2_filesys) (hfs : w.fs = some h) :
    (ocfs2_initialize_dlm (o2cb_init w).2).2.fs =
      some { h with fs_dlm_ctxt :=
        if w.oc.ocfs2_initialize_dlm (w.trace.length + 1) = 0 then true else h.fs_dlm_ctxt } ∧
    (ocfs2_initialize_dlm (o2cb_init w).2).2.cluster_locked = w.cluster_locked ∧
    (ocfs2_initialize_dlm (o2cb_init w).2).2.journal_clusters = w.journal_clusters ∧
    (ocfs2_initialize_dlm (o2cb_init w).2).2.oc = w.oc ∧
    (ocfs2_initialize_dlm (o2cb_init w).2).2.volume = w.volume ∧
    (ocfs2_initialize_dlm (o2cb_init w).2).2.lockenv = w.lockenv ∧
    (ocfs2_initialize_dlm (o2cb_init w).2).2.trace =
      w.trace ++ [Event.o2cb_init, Event.ocfs2_initialize_dlm] ∧
    (ocfs2_initialize_dlm (o2cb_init w).2).1 =
      w.oc.ocfs2_initialize_dlm (w.trace.length + 1) := by
  simp [ocfs2_initialize_dlm, o2cb_init, World.log, World.update_fs, hfs]

theorem head_calls_since (w w1 w2 : World) (e : Event) (t : List Event)
    (h1 : w1.trace = w.trace ++ e :: t) (h2 : w1.trace <+: w2.trace) :
    (calls_since w w2).head? = some e := by
  obtain ⟨t2, ht2⟩ := h2
  rw [calls_since_append w w2 (e :: t ++ t2)]
  · rfl
  · rw [← ht2, h1, List.append_assoc]

/-- What `tunefs_lock_cluster` does from the call of `o2cb_init` on, for a
session that has a handle and does not hold the lock. -/
theorem lock_start_post (c : Consts) (hc : c.wf) (flags : Nat) (w : World)
    (h : ocfs2_filesys) (hfs : w.fs = some h) (hl : w.cluster_locked = false) :
    handle_volume (lock_start c flags w).2.fs = handle_volume w.fs ∧
    lock_inv (lock_start c flags w).2 ∧
    (fatal c (lock_start c flags w).1 → (lock_start c flags w).2.cluster_locked = false) ∧
    (flags &&& c.TUNEFS_FLAG_NOCLUSTER = 0 → (lock_start c flags w).1 = 0 →
      (lock_start c flags w).2.cluster_locked = true ∧
      w.oc.ocfs2_lock_down_cluster (w.trace.length + 3) = 0 ∧
      Event.ocfs2_lock_down_cluster ∈ calls_since w (lock_start c flags w).2) ∧
    (lock_start c flags w).2.journal_clusters = w.journal_clusters ∧
    (lock_start c flags w).2.oc = w.oc ∧
    (lock_start c flags w).2.volume = w.volume ∧
    w.trace <+: (lock_start c flags w).2.trace ∧
    (calls_since w (lock_start c flags w).2).head? = some Event.o2cb_init := by
  obtain ⟨_, hpo, _, hfi, _, _, _, _, _⟩ := codes_of_wf c hc
  obtain ⟨ifs, il, ij, io, iv, _, it, i1⟩ := init_dlm_post w h hfs
  unfold lock_start
  simp only
  by_cases h0 : (o2cb_init w).1 ≠ 0
  · rw [if_pos h0]
    have ht : (o2cb_init w).2.trace = w.trace ++ [Event.o2cb_init] := rfl
    refine ⟨?_, lock_inv_of_unlocked _ hl, fun _ => hl, fun _ he => absurd he h0, rfl, rfl, rfl,
      ⟨_, ht.symm⟩, ?_⟩
    · rfl
    · exact head_calls_since w _ _ _ [] ht (List.prefix_refl _)
  · rw [if_neg h0]
    generalize hwd : (ocfs2_initialize_dlm (o2cb_init w).2).2 = wd at ifs il ij io iv it ⊢
    generalize hrd : (ocfs2_initialize_dlm (o2cb_init w).2).1 = rd at i1 ⊢
    have ip : w.trace <+: wd.trace := ⟨_, it.symm⟩
    have hwdinv : lock_inv wd := lock_inv_of_unlocked _ (il.trans hl)
    have hwdsome : handle_volume wd.fs = handle_volume w.fs := by rw [ifs, hfs]; rfl
    have hhead : ∀ w2 : World, wd.trace <+: w2.trace →
        (calls_since w w2).head? = some Event.o2cb_init :=
      fun w2 hp => head_calls_since w wd w2 _ [Event.ocfs2_initialize_dlm] it hp
    by_cases hn0 : flags &&& c.TUNEFS_FLAG_NOCLUSTER ≠ 0 ∧ rd = 0
    · rw [if_pos hn0]
      obtain ⟨hcase, hsome, hj, ho, hv, hp, _⟩ := lock_out_set_post c rd wd
      have hcl : (lock_out_set c rd wd).2.cluster_locked = false := by
        rcases hcase with ⟨_, hl2, _⟩ | ⟨_, _, hcl⟩
        · exact hl2.trans (il.trans hl)
        · exact hcl hwdinv
      exact ⟨hsome.trans hwdsome, lock_inv_of_unlocked _ hcl, fun _ => hcl,
        fun hz => absurd hz hn0.1, hj.trans ij, ho.trans io, hv.trans iv, ip.trans hp,
        hhead _ hp⟩
    · rw [if_neg hn0]
      by_cases hn1 : flags &&& c.TUNEFS_FLAG_NOCLUSTER ≠ 0 ∧ rd = c.O2CB_ET_INVALID_STACK_NAME
      · rw [if_pos hn1]
        obtain ⟨hcase, hsome, hj, ho, hv, hp, _⟩ :=
          lock_out_set_post c c.TUNEFS_ET_INVALID_STACK_NAME wd
        have hcl : (lock_out_set c c.TUNEFS_ET_INVALID_STACK_NAME wd).2.cluster_locked =
            false := by
          rcases hcase with ⟨_, hl2, _⟩ | ⟨_, _, hcl⟩
          · exact hl2.trans (il.trans hl)
          · exact hcl hwdinv
        exact ⟨hsome.trans hwdsome, lock_inv_of_unlocked _ hcl, fun _ => hcl,
          fun hz => absurd hz hn1.1, hj.trans ij, ho.trans io, hv.trans iv, ip.trans hp,
          hhead _ hp⟩
      · rw [if_neg hn1]
        by_cases hd : rd ≠ 0
        · rw [if_pos hd]
          simp only [hwd, hrd]
          exact ⟨hwdsome, hwdinv, fun _ => il.trans hl, fun _ he => absurd he hd, ij, io, iv, ip,
            hhead _ (List.prefix_refl _)⟩
        · rw [if_neg hd]
          have hd0 : rd = 0 := not_not.mp hd
          have hx : ({ h with fs_dlm_ctxt :=
              if w.oc.ocfs2_initialize_dlm (w.trace.length + 1) = 0 then true
              else h.fs_dlm_ctxt } : ocfs2_filesys).fs_dlm_ctxt = true := by
            show (if w.oc.ocfs2_initialize_dlm (w.trace.length + 1) = 0 then true
              else h.fs_dlm_ctxt) = true
            rw [← i1, hd0, if_pos rfl]
          obtain ⟨asome, ainv, afat, azero, aj, ao, av, ap⟩ :=
            lock_acquire_post c hc flags wd _ ifs hx (il.trans hl)
          refine ⟨asome.trans hwdsome, ainv, afat, ?_, aj.trans ij, ao.trans io, av.trans iv, ip.trans ap,
            hhead _ ap⟩
          intro _ he
          obtain ⟨z1, z2, z3⟩ := azero he
          refine ⟨z1, ?_, ?_⟩
          · rw [io, it] at z2
            simpa using z2
          · rw [calls_since_trans w wd _ ip ap]
            exact List.mem_append_right _ z3

theorem lock_acquire_grows (c : Consts) (flags : Nat) (w : World) :
    w.trace <+: (lock_acquire c flags w).2.trace := by
  have dp : w.trace <+: (tunefs_unblock_signals (ocfs2_lock_down_cluster
      (tunefs_block_signals w)).2).trace := ⟨_, (lock_down_post w).2.2.2.2.2.2.1.symm⟩
  unfold lock_acquire
  simp only
  split_ifs
  · exact dp.trans (lock_out_set_post c _
      { tunefs_unblock_signals (ocfs2_lock_down_cluster (tunefs_block_signals w)).2 with
        cluster_locked := true }).2.2.2.2.2.1
  · exact dp.trans (lock_out_set_post c _ _).2.2.2.2.2.1
  · refine dp.trans ?_
    simp [ocfs2_shutdown_dlm, World.log, World.update_fs]

theorem lock_start_first_call (c : Consts) (flags : Nat) (w : World) :
    (calls_since w (lock_start c flags w).2).head? = some Event.o2cb_init := by
  have ht : (o2cb_init w).2.trace = w.trace ++ [Event.o2cb_init] := rfl
  have hd : (o2cb_init w).2.trace <+: (ocfs2_initialize_dlm (o2cb_init w).2).2.trace := by
    simp [ocfs2_initialize_dlm, World.log, World.update_fs]
  apply head_calls_since w (o2cb_init w).2 _ _ [] ht
  unfold lock_start
  simp only
  split_ifs
  · exact List.prefix_refl _
  · exact hd.trans (lock_out_set_post c _ _).2.2.2.2.2.1
  · exact hd.trans (lock_out_set_post c _ _).2.2.2.2.2.1
  · exact hd
  · exact hd.trans (lock_acquire_grows c flags _)

/-- C6 as stated fails: with `_TUNEFS_OCFS2_LOCK` set to "bogus" on a volume
that is not local, `tunefs_lock_cluster` calls `o2cb_init`,
`ocfs2_initialize_dlm` and `ocfs2_lock_down_cluster`, returns 0 (not
`TUNEFS_ET_INVALID_STACK_NAME`) and holds the lock. -/
theorem C6_counterexample :
    (tunefs_lock_cluster ocfs2_consts 1 (cluster_world (some "bogus") all_succeed)).map
        Prod.fst = some 0 ∧
    (tunefs_lock_cluster ocfs2_consts 1 (cluster_world (some "bogus") all_succeed)).map
        (fun r => r.2.trace) =
      some [Event.o2cb_init, Event.ocfs2_initialize_dlm, Event.sigprocmask_block,
        Event.ocfs2_lock_down_cluster, Event.sigprocmask_unblock, Event.setenv "locked"] ∧
    (tunefs_lock_cluster ocfs2_consts 1 (cluster_world (some "bogus") all_succeed)).map
        (fun r => r.2.cluster_locked) = some true ∧
    ocfs2_consts.TUNEFS_ET_INVALID_STACK_NAME ≠ 0 := by
  decide

/-- What `tunefs_lock_cluster` leaves behind when entered with a handle and
without the lock held. -/
theorem lock_cluster_post (c : Consts) (hc : c.wf) (flags : Nat) (w : World)
    (h : ocfs2_filesys) (hfs : w.fs = some h) (hl : w.cluster_locked = false) :
    ∃ r : errcode_t × World,
      tunefs_lock_cluster c flags w = some r ∧
      handle_volume r.2.fs = handle_volume w.fs ∧
      lock_inv r.2 ∧
      (fatal c r.1 → r.2.cluster_locked = false) ∧
      r.2.journal_clusters = w.journal_clusters ∧
      r.2.oc = w.oc ∧
      r.2.volume = w.volume ∧
      w.trace <+: r.2.trace := by
  have hwinv : lock_inv w := lock_inv_of_unlocked _ hl
  by_cases hnl : h.mount_local = true
  · have heq : tunefs_lock_cluster c flags w = some (lock_out_set c 0 w) := by
      simp [tunefs_lock_cluster, hfs, hnl]
    obtain ⟨hcase, hsome, hj, ho, hv, hp, _⟩ := lock_out_set_post c 0 w
    have hcl : (lock_out_set c 0 w).2.cluster_locked = false := by
      rcases hcase with ⟨_, hl2, _⟩ | ⟨_, _, hcl⟩
      · exact hl2.trans hl
      · exact hcl hwinv
    exact ⟨_, heq, hsome, lock_inv_of_unlocked _ hcl, fun _ => hcl, hj, ho, hv, hp⟩
  · by_cases henv : tunefs_get_lock_env c w = 0 ∨
        (flags &&& c.TUNEFS_FLAG_ONLINE ≠ 0 ∧
          tunefs_get_lock_env c w = c.TUNEFS_ET_PERFORM_ONLINE)
    · have heq : tunefs_lock_cluster c flags w = some (tunefs_get_lock_env c w, w) := by
        simp only [tunefs_lock_cluster, hfs, hnl, not_false_eq_true, if_true, henv,
          Bool.false_eq_true]
      exact ⟨_, heq, rfl, hwinv, fun _ => hl, rfl, rfl, rfl, List.prefix_refl _⟩
    · have heq : tunefs_lock_cluster c flags w = some (lock_start c flags w) := by
        simp only [tunefs_lock_cluster, hfs, hnl, not_false_eq_true, if_true, henv, if_false,
          Bool.false_eq_true]
      obtain ⟨s1, s2, s3, _, s5, s6, s7, s8, _⟩ := lock_start_post c hc flags w h hfs hl
      exact ⟨_, heq, s1, s2, s3, s5, s6, s7, s8⟩

/-! ## The journal check -/

theorem note_clusters_frame (n : Nat) (w : World) :
    (note_clusters n w).fs = w.fs ∧
    (note_clusters n w).cluster_locked = w.cluster_locked ∧
    (note_clusters n w).lockenv = w.lockenv ∧
    (note_clusters n w).oc = w.oc ∧
    (note_clusters n w).volume = w.volume ∧
    (note_clusters n w).trace = w.trace := by
  unfold note_clusters
  split_ifs <;> simp

theorem journal_check_loop_frame (c : Consts) (h : ocfs2_filesys) (n : Nat) :
    ∀ (i : Nat) (ret : errcode_t) (w : World),
      (journal_check_loop c h n i ret w).2.fs = w.fs ∧
      (journal_check_loop c h n i ret w).2.cluster_locked = w.cluster_locked ∧
      (journal_check_loop c h n i ret w).2.lockenv = w.lockenv ∧
      (journal_check_loop c h n i ret w).2.oc = w.oc ∧
      (journal_check_loop c h n i ret w).2.volume = w.volume ∧
      w.trace <+: (journal_check_loop c h n i ret w).2.trace := by
  induction n with
  | zero =>
    intro i ret w
    exact ⟨rfl, rfl, rfl, rfl, rfl, List.prefix_refl _⟩
  | succ n ih =>
    intro i ret w
    obtain ⟨n1, n2, n3, n4, n5, n6⟩ :=
      note_clusters_frame (h.read_inode (h.lookup_journal i).2).2.i_clusters
        ((w.log (Event.ocfs2_lookup_system_inode i)).log
          (Event.ocfs2_read_inode (h.lookup_journal i).2))
    have hp : w.trace <+: (note_clusters (h.read_inode (h.lookup_journal i).2).2.i_clusters
        ((w.log (Event.ocfs2_lookup_system_inode i)).log
          (Event.ocfs2_read_inode (h.lookup_journal i).2))).trace := by
      rw [n6]
      simp [World.log]
    unfold journal_check_loop
    simp only
    by_cases h1 : (h.lookup_journal i).1 ≠ 0
    · rw [if_pos h1]
      simp [World.log]
    · rw [if_neg h1]
      by_cases h2 : (h.read_inode (h.lookup_journal i).2).1 ≠ 0
      · rw [if_pos h2]
        simp [World.log]
      · rw [if_neg h2]
        by_cases h3 : (h.read_inode (h.lookup_journal i).2).2.ij_flags &&&
            c.OCFS2_JOURNAL_DIRTY_FL ≠ 0
        · rw [if_pos h3]
          exact ⟨n1, n2, n3, n4, n5, hp⟩
        · rw [if_neg h3]
          obtain ⟨a1, a2, a3, a4, a5, a6⟩ :=
            ih (i + 1) (h.read_inode (h.lookup_journal i).2).1
              (note_clusters (h.read_inode (h.lookup_journal i).2).2.i_clusters
                ((w.log (Event.ocfs2_lookup_system_inode i)).log
                  (Event.ocfs2_read_inode (h.lookup_journal i).2)))
          exact ⟨a1.trans n1, a2.trans n2, a3.trans n3, a4.trans n4, a5.trans n5, hp.trans a6⟩

theorem journal_check_frame (c : Consts) (h : ocfs2_filesys) (w : World) :
    (tunefs_journal_check c h w).2.fs = w.fs ∧
    (tunefs_journal_check c h w).2.cluster_locked = w.cluster_locked ∧
    (tunefs_journal_check c h w).2.lockenv = w.lockenv ∧
    (tunefs_journal_check c h w).2.oc = w.oc ∧
    (tunefs_journal_check c h w).2.volume = w.volume ∧
    w.trace <+: (tunefs_journal_check c h w).2.trace := by
  unfold tunefs_journal_check
  simp only
  split_ifs with h1
  · simp [World.log]
  · obtain ⟨a1, a2, a3, a4, a5, a6⟩ :=
      journal_check_loop_frame c h h.fs_super.s_max_slots 0
        (w.oc.ocfs2_malloc_block w.trace.length) (w.log Event.ocfs2_malloc_block)
    refine ⟨a1, a2, a3, a4, a5, ?_⟩
    have hp : w.trace <+: (w.log Event.ocfs2_malloc_block).trace := by simp [World.log]
    refine (hp.trans a6).trans ?_
    simp [World.log]

/-- The loop of the journal check stops with `TUNEFS_ET_JOURNAL_DIRTY` at the
first dirty slot `k` when the slots up to `k` are found and readable. -/
theorem journal_check_loop_dirty (c : Consts) (h : ocfs2_filesys) (k : Nat)
    (hread : ∀ i ≤ k, (h.lookup_journal i).1 = 0 ∧
      (h.read_inode (h.lookup_journal i).2).1 = 0)
    (hclean : ∀ i < k,
      (h.read_inode (h.lookup_journal i).2).2.ij_flags &&& c.OCFS2_JOURNAL_DIRTY_FL = 0)
    (hdirty :
      (h.read_inode (h.lookup_journal k).2).2.ij_flags &&& c.OCFS2_JOURNAL_DIRTY_FL ≠ 0)
    (n : Nat) :
    ∀ (i : Nat) (ret : errcode_t) (w : World), i ≤ k → k < i + n →
      (journal_check_loop c h n i ret w).1 = c.TUNEFS_ET_JOURNAL_DIRTY := by
  induction n with
  | zero =>
    intro i ret w h1 h2
    omega
  | succ n ih =>
    intro i ret w h1 h2
    obtain ⟨hlk, hrd⟩ := hread i h1
    unfold journal_check_loop
    simp only [hlk, hrd, ne_eq, not_true_eq_false, if_false]
    by_cases hik : i = k
    · subst hik
      rw [if_pos hdirty]
    · have hlt : i < k := lt_of_le_of_ne h1 hik
      rw [if_neg (not_not.mpr (hclean i hlt))]
      exact ih (i + 1) _ _ hlt (by omega)

theorem handle_volume_some (o : Option ocfs2_filesys) (h0 : ocfs2_filesys)
    (h : handle_volume o = handle_volume (some h0)) :
    ∃ h2, o = some h2 ∧ h2.fs_super = h0.fs_super ∧ h2.mount_local = h0.mount_local ∧
      h2.lookup_journal = h0.lookup_journal ∧ h2.read_inode = h0.read_inode := by
  cases o with
  | none => simp [handle_volume] at h
  | some h2 =>
    refine ⟨h2, rfl, ?_⟩
    simp only [handle_volume, Option.map_some', Option.some.injEq,
      ocfs2_filesys.mk.injEq, true_and] at h
    exact h

theorem journal_check_dirty (c : Consts) (h : ocfs2_filesys) (w : World) (k : Nat)
    (hmalloc : w.oc.ocfs2_malloc_block w.trace.length = 0)
    (hk : k < h.fs_super.s_max_slots)
    (hread : ∀ i ≤ k, (h.lookup_journal i).1 = 0 ∧
      (h.read_inode (h.lookup_journal i).2).1 = 0)
    (hclean : ∀ i < k,
      (h.read_inode (h.lookup_journal i).2).2.ij_flags &&& c.OCFS2_JOURNAL_DIRTY_FL = 0)
    (hdirty :
      (h.read_inode (h.lookup_journal k).2).2.ij_flags &&& c.OCFS2_JOURNAL_DIRTY_FL ≠ 0) :
    (tunefs_journal_check c h w).1 = c.TUNEFS_ET_JOURNAL_DIRTY := by
  unfold tunefs_journal_check
  simp only [hmalloc, ne_eq, not_true_eq_false, if_false]
  exact journal_check_loop_dirty c h k hread hclean hdirty _ 0 _ _ (Nat.zero_le _) (by omega)

theorem open_after_ocfs2_open (device : String) (rw : Bool) (w : World)
    (hopen : w.oc.ocfs2_open w.trace.length = 0) :
    (ocfs2_open device rw w).1 = 0 ∧
    (ocfs2_open device rw w).2.fs = some { w.volume device with fs_dlm_ctxt := false } ∧
    (ocfs2_open device rw w).2.cluster_locked = w.cluster_locked ∧
    (ocfs2_open device rw w).2.oc = w.oc ∧
    (ocfs2_open device rw w).2.volume = w.volume ∧
    (ocfs2_open device rw w).2.lockenv = w.lockenv ∧
    (ocfs2_open device rw w).2.trace = w.trace ++ [Event.ocfs2_open device rw] := by
  simp [ocfs2_open, hopen, World.log]

/-- The result of `tunefs_open` for a read-write open that passes the three
feature checks. -/
theorem open_reaches_lock (c : Consts) (device : String) (flags : Nat) (w : World)
    (hrw : flags &&& c.TUNEFS_FLAG_RW ≠ 0)
    (hopen : w.oc.ocfs2_open w.trace.length = 0)
    (hhb : (w.volume device).fs_super.s_feature_incompat &&&
      c.OCFS2_FEATURE_INCOMPAT_HEARTBEAT_DEV = 0)
    (hres : (w.volume device).fs_super.s_feature_incompat &&&
      c.OCFS2_FEATURE_INCOMPAT_RESIZE_INPROG = 0)
    (htun : (w.volume device).fs_super.s_feature_incompat &&&
      c.OCFS2_FEATURE_INCOMPAT_TUNEFS_INPROG = 0) :
    tunefs_open c device flags w = open_locked c flags (ocfs2_open device true w).2 := by
  simp [tunefs_open, ocfs2_open, hopen, hrw, hhb, hres, htun]

/-- C4 as stated fails: a read-only `tunefs_open` of a volume whose slot 0
journal is dirty never calls `tunefs_lock_cluster` (so it is not in
deferred-online mode) and returns 0 with the handle open, not
`TUNEFS_ET_JOURNAL_DIRTY`: the journal check is skipped for read-only
opens. -/
theorem C4_counterexample :
    ((one_slot_volume 0 false 1).read_inode
        ((one_slot_volume 0 false 1).lookup_journal 0).2).2.ij_flags &&&
      ocfs2_consts.OCFS2_JOURNAL_DIRTY_FL ≠ 0 ∧
    (tunefs_open ocfs2_consts "/dev/sdb1" 0
        (start_world (one_slot_volume 0 false 1) none all_succeed)).map Prod.fst = some 0 ∧
    (tunefs_open ocfs2_consts "/dev/sdb1" 0
        (start_world (one_slot_volume 0 false 1) none all_succeed)).map
          (fun r => r.2.trace) = some [Event.ocfs2_open "/dev/sdb1" false] ∧
    (tunefs_open ocfs2_consts "/dev/sdb1" 0
        (start_world (one_slot_volume 0 false 1) none all_succeed)).map
          (fun r => r.2.fs.isSome) = some true ∧
    ocfs2_consts.TUNEFS_ET_JOURNAL_DIRTY ≠ 0 := by
  decide

/-! ## tunefs_open as a whole -/

theorem open_out_post (c : Consts) (e : errcode_t) (w : World) :
    (open_out c e w).1 = e ∧
    (open_out c e w).2.cluster_locked = w.cluster_locked ∧
    (open_out c e w).2.lockenv = w.lockenv ∧
    (fatal c e → (open_out c e w).2.fs = none ∧
      (w.fs.isSome = true → (open_out c e w).2.trace = w.trace ++ [Event.ocfs2_close])) ∧
    (¬ fatal c e → (open_out c e w).2 = w) ∧
    w.trace <+: (open_out c e w).2.trace := by
  unfold open_out
  by_cases hf : fatal c e
  · rw [if_pos hf]
    cases hfs : w.fs with
    | none => simp [hf, hfs]
    | some h => simp [hf, ocfs2_close, World.log]
  · rw [if_neg hf]
    simp [hf]

theorem mem_calls_since_last (w w1 w2 : World) (e : Event) (hp : w.trace <+: w1.trace)
    (h2 : w2.trace = w1.trace ++ [e]) : e ∈ calls_since w w2 := by
  rw [calls_since_trans w w1 w2 hp ⟨_, h2.symm⟩, calls_since_append w1 w2 [e] h2]
  simp

theorem isSome_of_handle_volume (a b : Option ocfs2_filesys) (h0 : ocfs2_filesys)
    (h : handle_volume a = handle_volume b) (hb : b = some h0) : a.isSome = true := by
  subst hb
  obtain ⟨h2, ha, _⟩ := handle_volume_some a h0 h
  rw [ha]
  rfl

theorem open_exit (c : Consts) (e : errcode_t) (w wx : World) (hp : w.trace <+: wx.trace)
    (hcl : fatal c e → wx.cluster_locked = false) (hs : wx.fs.isSome = true) :
    (fatal c (open_out c e wx).1 →
      (open_out c e wx).2.fs = none ∧ (open_out c e wx).2.cluster_locked = false ∧
      Event.ocfs2_close ∈ calls_since w (open_out c e wx).2) ∧
    (¬ fatal c (open_out c e wx).1 → (open_out c e wx).2.fs.isSome = true) := by
  obtain ⟨p1, p2, _, p3, p4, _⟩ := open_out_post c e wx
  rw [p1]
  refine ⟨fun hf => ⟨(p3 hf).1, p2.trans (hcl hf), mem_calls_since_last w _ _ _ hp ((p3 hf).2 hs)⟩,
    fun hnf => ?_⟩
  rw [p4 hnf]
  exact hs

theorem open_locked_exit (c : Consts) (hc : c.wf) (flags : Nat) (w w0 : World)
    (h0 : ocfs2_filesys) (hfs : w0.fs = some h0) (hl : w0.cluster_locked = false)
    (hp : w.trace <+: w0.trace) :
    ∃ r : errcode_t × World,
      open_locked c flags w0 = some r ∧
      (fatal c r.1 →
        r.2.fs = none ∧ r.2.cluster_locked = false ∧ Event.ocfs2_close ∈ calls_since w r.2) ∧
      (¬ fatal c r.1 → r.2.fs.isSome = true) := by
  obtain ⟨rl, hlk, lvol, linv, lfat, _, _, _, lp⟩ := lock_cluster_post c hc flags w0 h0 hfs hl
  have lsome : rl.2.fs.isSome = true := isSome_of_handle_volume _ _ h0 lvol hfs
  unfold open_locked
  simp only [hlk]
  by_cases hf : fatal c rl.1
  · rw [if_pos hf]
    exact ⟨_, rfl, open_exit c rl.1 w rl.2 (hp.trans lp) lfat lsome⟩
  · rw [if_neg hf]
    cases hfs2 : rl.2.fs with
    | none =>
      rw [hfs2] at lsome
      exact Bool.noConfusion lsome
    | some h2 =>
      simp only
      have hp1 : w.trace <+: (rl.2.log Event.io_init_cache).trace :=
        (hp.trans lp).trans ⟨_, rfl⟩
      by_cases hpo : rl.1 ≠ c.TUNEFS_ET_PERFORM_ONLINE
      · rw [if_pos hpo]
        obtain ⟨jfs, jl, _, _, _, jp⟩ :=
          journal_check_frame c h2 (rl.2.log Event.io_init_cache)
        have jfs2 : (tunefs_journal_check c h2 (rl.2.log Event.io_init_cache)).2.fs =
            some h2 := jfs.trans hfs2
        by_cases hj : (tunefs_journal_check c h2 (rl.2.log Event.io_init_cache)).1 ≠ 0
        · rw [if_pos hj]
          have jinv : lock_inv (tunefs_journal_check c h2 (rl.2.log Event.io_init_cache)).2 := by
            intro hl1
            rw [jl] at hl1
            rw [jfs]
            exact linv hl1
          obtain ⟨uvol, _, _, _, up, _⟩ := unlock_cluster_frame c
            (tunefs_journal_check c h2 (rl.2.log Event.io_init_cache)).2
          exact ⟨_, rfl, open_exit c _ w _ ((hp1.trans jp).trans up)
            (fun _ => unlock_cluster_clears c _ jinv)
            (isSome_of_handle_volume _ _ h2 uvol jfs2)⟩
        · rw [if_neg hj]
          refine ⟨_, rfl, open_exit c _ w _ (hp1.trans jp) (fun h1 => absurd h1 hf) ?_⟩
          rw [jfs2]
          rfl
      · rw [if_neg hpo]
        refine ⟨_, rfl, open_exit c _ w _ hp1 (fun h1 => absurd h1 hf) ?_⟩
        show rl.2.fs.isSome = true
        rw [hfs2]
        rfl

/-- Entered without the cluster lock held, `tunefs_open` returns for every
device, flags value and outcome of the external calls; after a fatal error
`fs` is NULL, `cluster_locked` is clear and `ocfs2_close` was called if
`ocfs2_open` had succeeded; otherwise `fs` is not NULL. -/
theorem open_holds_nothing (c : Consts) (hc : c.wf) (device : String) (flags : Nat)
    (w : World) (hl : w.cluster_locked = false) :
    ∃ r : errcode_t × World,
      tunefs_open c device flags w = some r ∧
      (fatal c r.1 →
        r.2.fs = none ∧ r.2.cluster_locked = false ∧
        (w.oc.ocfs2_open w.trace.length = 0 → Event.ocfs2_close ∈ calls_since w r.2)) ∧
      (¬ fatal c r.1 → w.oc.ocfs2_open w.trace.length = 0 → r.2.fs.isSome = true) := by
  have wrap : ∀ r : errcode_t × World,
      ((fatal c r.1 → r.2.fs = none ∧ r.2.cluster_locked = false ∧
          Event.ocfs2_close ∈ calls_since w r.2) ∧
        (¬ fatal c r.1 → r.2.fs.isSome = true)) →
      ((fatal c r.1 → r.2.fs = none ∧ r.2.cluster_locked = false ∧
          (w.oc.ocfs2_open w.trace.length = 0 → Event.ocfs2_close ∈ calls_since w r.2)) ∧
        (¬ fatal c r.1 → w.oc.ocfs2_open w.trace.length = 0 → r.2.fs.isSome = true)) :=
    fun r hr => ⟨fun hf => ⟨(hr.1 hf).1, (hr.1 hf).2.1, fun _ => (hr.1 hf).2.2⟩,
      fun hnf _ => hr.2 hnf⟩
  unfold tunefs_open
  simp only
  generalize decide (flags &&& c.TUNEFS_FLAG_RW ≠ 0) = b
  by_cases hopen : w.oc.ocfs2_open w.trace.length = 0
  · obtain ⟨o1, ofs, ol, _, _, _, ot⟩ := open_after_ocfs2_open device b w hopen
    have op : w.trace <+: (ocfs2_open device b w).2.trace := ⟨_, ot.symm⟩
    have osome : (ocfs2_open device b w).2.fs.isSome = true := by rw [ofs]; rfl
    have ocl := ol.trans hl
    rw [if_neg (not_not.mpr o1)]
    by_cases hrw : flags &&& c.TUNEFS_FLAG_RW = 0
    · rw [if_pos hrw]
      exact ⟨_, rfl, wrap _ (open_exit c _ w _ op (fun _ => ocl) osome)⟩
    · rw [if_neg hrw, ofs]
      simp only
      by_cases h1 : (w.volume device).fs_super.s_feature_incompat &&&
          c.OCFS2_FEATURE_INCOMPAT_HEARTBEAT_DEV ≠ 0
      · rw [if_pos h1]
        exact ⟨_, rfl, wrap _ (open_exit c _ w _ op (fun _ => ocl) osome)⟩
      · rw [if_neg h1]
        by_cases h2 : (w.volume device).fs_super.s_feature_incompat &&&
            c.OCFS2_FEATURE_INCOMPAT_RESIZE_INPROG ≠ 0
        · rw [if_pos h2]
          exact ⟨_, rfl, wrap _ (open_exit c _ w _ op (fun _ => ocl) osome)⟩
        · rw [if_neg h2]
          by_cases h3 : (w.volume device).fs_super.s_feature_incompat &&&
              c.OCFS2_FEATURE_INCOMPAT_TUNEFS_INPROG ≠ 0
          · rw [if_pos h3]
            exact ⟨_, rfl, wrap _ (open_exit c _ w _ op (fun _ => ocl) osome)⟩
          · rw [if_neg h3]
            obtain ⟨r, hr, hpost⟩ := open_locked_exit c hc flags w _ _ ofs ocl op
            exact ⟨r, hr, wrap r hpost⟩
  · have o1 : (ocfs2_open device b w).1 ≠ 0 := hopen
    have ocl : (ocfs2_open device b w).2.cluster_locked = false := hl
    rw [if_pos o1]
    obtain ⟨p1, p2, _, p3, _, _⟩ := open_out_post c (ocfs2_open device b w).1
      (ocfs2_open device b w).2
    refine ⟨_, rfl, ?_, ?_⟩
    · intro hf
      rw [p1] at hf
      exact ⟨(p3 hf).1, p2.trans ocl, fun h => absurd h hopen⟩
    · intro _ h
      exact absurd h hopen

theorem get_lock_env_zero (c : Consts) (hc : c.wf) (w : World)
    (h : tunefs_get_lock_env c w = 0) : w.lockenv = some TUNEFS_OCFS2_LOCK_ENV_LOCKED := by
  obtain ⟨his, hpo, _, _, _, _, _, _, _⟩ := codes_of_wf c hc
  unfold tunefs_get_lock_env at h
  cases hv : w.lockenv with
  | none =>
    rw [hv] at h
    exact absurd h his
  | some v =>
    rw [hv] at h
    simp only at h
    split_ifs at h with h1 h2
    · exact absurd h hpo
    · rw [h2]
    · exact absurd h his

/-- The path of a read-write `tunefs_open` that returns 0: `ocfs2_open`
succeeded, `tunefs_lock_cluster` returned 0, and the state on return is the
one the journal check left. -/
theorem open_zero_path (c : Consts) (hc : c.wf) (device : String) (flags : Nat) (w : World)
    (hrw : flags &&& c.TUNEFS_FLAG_RW ≠ 0)
    (r : errcode_t × World) (hr : tunefs_open c device flags w = some r) (hz : r.1 = 0) :
    w.oc.ocfs2_open w.trace.length = 0 ∧
    ∃ (rl : errcode_t × World) (h2 : ocfs2_filesys),
      tunefs_lock_cluster c flags (ocfs2_open device true w).2 = some rl ∧ rl.1 = 0 ∧
      r.2 = (tunefs_journal_check c h2 (rl.2.log Event.io_init_cache)).2 := by
  obtain ⟨_, hpo, _, _, hfh, hfr, hft, _, _⟩ := codes_of_wf c hc
  have hb : decide (flags &&& c.TUNEFS_FLAG_RW ≠ 0) = true := by simpa using hrw
  have exit_ne : ∀ (e : errcode_t) (wx : World), e ≠ 0 → some (open_out c e wx) ≠ some r := by
    intro e wx he heq
    have h1 : (open_out c e wx).1 = r.1 := by rw [Option.some.inj heq]
    rw [open_out_fst, hz] at h1
    exact he h1
  unfold tunefs_open at hr
  simp only [hb] at hr
  by_cases hopen : w.oc.ocfs2_open w.trace.length = 0
  · refine ⟨hopen, ?_⟩
    obtain ⟨o1, ofs, _, _, _, _, _⟩ := open_after_ocfs2_open device true w hopen
    rw [if_neg (not_not.mpr o1), if_neg hrw, ofs] at hr
    simp only at hr
    by_cases h1 : (w.volume device).fs_super.s_feature_incompat &&&
        c.OCFS2_FEATURE_INCOMPAT_HEARTBEAT_DEV ≠ 0
    · rw [if_pos h1] at hr
      exact absurd hr (exit_ne _ _ hfh.1)
    · rw [if_neg h1] at hr
      by_cases h2 : (w.volume device).fs_super.s_feature_incompat &&&
          c.OCFS2_FEATURE_INCOMPAT_RESIZE_INPROG ≠ 0
      · rw [if_pos h2] at hr
        exact absurd hr (exit_ne _ _ hfr.1)
      · rw [if_neg h2] at hr
        by_cases h3 : (w.volume device).fs_super.s_feature_incompat &&&
            c.OCFS2_FEATURE_INCOMPAT_TUNEFS_INPROG ≠ 0
        · rw [if_pos h3] at hr
          exact absurd hr (exit_ne _ _ hft.1)
        · rw [if_neg h3] at hr
          unfold open_locked at hr
          cases hlk : tunefs_lock_cluster c flags (ocfs2_open device true w).2 with
          | none =>
            rw [hlk] at hr
            exact Option.noConfusion hr
          | some rl =>
            rw [hlk] at hr
            simp only at hr
            by_cases hf : fatal c rl.1
            · rw [if_pos hf] at hr
              exact absurd hr (exit_ne _ _ hf.1)
            · rw [if_neg hf] at hr
              cases hfs2 : rl.2.fs with
              | none =>
                rw [hfs2] at hr
                exact Option.noConfusion hr
              | some h2 =>
                rw [hfs2] at hr
                simp only at hr
                by_cases hpo1 : rl.1 ≠ c.TUNEFS_ET_PERFORM_ONLINE
                · rw [if_pos hpo1] at hr
                  by_cases hj : (tunefs_journal_check c h2
                      (rl.2.log Event.io_init_cache)).1 ≠ 0
                  · rw [if_pos hj] at hr
                    exact absurd hr (exit_ne _ _ hj)
                  · rw [if_neg hj] at hr
                    have hr1 := Option.some.inj hr
                    have hrl : rl.1 = 0 := by
                      have h5 := congrArg Prod.fst hr1
                      rw [open_out_fst] at h5
                      rw [h5]
                      exact hz
                    refine ⟨rl, h2, rfl, hrl, ?_⟩
                    rw [← hr1, (open_out_post c _ _).2.2.2.2.1 hf]
                · rw [if_neg hpo1] at hr
                  have hpo2 : rl.1 = c.TUNEFS_ET_PERFORM_ONLINE := not_not.mp hpo1
                  refine absurd hr (exit_ne _ _ ?_)
                  rw [hpo2]
                  exact hpo
  · have o1 : (ocfs2_open device true w).1 ≠ 0 := hopen
    rw [if_pos o1] at hr
    exact absurd hr (exit_ne _ _ o1)

theorem lock_acquire_zero (c : Consts) (hc : c.wf) (flags : Nat) (w : World)
    (hz : (lock_acquire c flags w).1 = 0) :
    (lock_acquire c flags w).2.cluster_locked = true ∧
    w.oc.ocfs2_lock_down_cluster (w.trace.length + 1) = 0 ∧
    Event.ocfs2_lock_down_cluster ∈ calls_since w (lock_acquire c flags w).2 := by
  obtain ⟨_, hpo, _, _, _, _, _, _, _⟩ := codes_of_wf c hc
  obtain ⟨_, _, _, _, _, _, dt, d1⟩ := lock_down_post w
  have dp : w.trace <+: (tunefs_unblock_signals (ocfs2_lock_down_cluster
      (tunefs_block_signals w)).2).trace := ⟨_, dt.symm⟩
  have dmem : Event.ocfs2_lock_down_cluster ∈ calls_since w
      (tunefs_unblock_signals (ocfs2_lock_down_cluster (tunefs_block_signals w)).2) := by
    rw [calls_since_append _ _ _ dt]
    simp
  unfold lock_acquire at hz ⊢
  simp only at hz ⊢
  generalize hw1 : tunefs_unblock_signals (ocfs2_lock_down_cluster
      (tunefs_block_signals w)).2 = w1 at dt dp dmem hz ⊢
  generalize hr0 : (ocfs2_lock_down_cluster (tunefs_block_signals w)).1 = r0 at d1 hz ⊢
  by_cases h0 : r0 = 0
  · rw [if_pos h0, h0] at hz
    rw [if_pos h0, h0]
    obtain ⟨hcase, _, _, _, _, hp, _⟩ := lock_out_set_post c 0 { w1 with cluster_locked := true }
    have hp1 : w1.trace <+: (lock_out_set c 0 { w1 with cluster_locked := true }).2.trace := hp
    rcases hcase with ⟨_, hl2, _⟩ | ⟨he, hne, _⟩
    · exact ⟨hl2, d1 ▸ h0, mem_calls_since_mono w w1 _ _ hp1 dmem⟩
    · rw [he] at hz
      exact absurd hz hne
  · rw [if_neg h0] at hz
    by_cases ht : r0 = c.O2DLM_ET_TRYLOCK_FAILED ∧ flags &&& c.TUNEFS_FLAG_ONLINE ≠ 0
    · rw [if_pos ht] at hz
      obtain ⟨hcase, _⟩ := lock_out_set_post c c.TUNEFS_ET_PERFORM_ONLINE w1
      rcases hcase with ⟨he, _, _⟩ | ⟨he, hne, _⟩
      · rw [he] at hz
        exact absurd hz hpo
      · rw [he] at hz
        exact absurd hz hne
    · rw [if_neg ht] at hz
      exact absurd hz h0

theorem lock_start_zero (c : Consts) (hc : c.wf) (flags : Nat) (w : World)
    (hnc : flags &&& c.TUNEFS_FLAG_NOCLUSTER = 0)
    (hz : (lock_start c flags w).1 = 0) :
    (lock_start c flags w).2.cluster_locked = true ∧
    w.oc.ocfs2_lock_down_cluster (w.trace.length + 3) = 0 ∧
    Event.ocfs2_lock_down_cluster ∈ calls_since w (lock_start c flags w).2 ∧
    w.trace <+: (lock_start c flags w).2.trace := by
  have hd : w.trace <+: (ocfs2_initialize_dlm (o2cb_init w).2).2.trace := by
    simp [ocfs2_initialize_dlm, o2cb_init, World.log, World.update_fs]
  have ho : (ocfs2_initialize_dlm (o2cb_init w).2).2.oc = w.oc := by
    simp [ocfs2_initialize_dlm, o2cb_init, World.log, World.update_fs]
  have hlen : (ocfs2_initialize_dlm (o2cb_init w).2).2.trace.length = w.trace.length + 2 := by
    simp [ocfs2_initialize_dlm, o2cb_init, World.log, World.update_fs]
  unfold lock_start at hz ⊢
  simp only [hnc, ne_eq, not_true_eq_false, false_and, if_false] at hz ⊢
  by_cases h0 : (o2cb_init w).1 = 0
  · rw [if_neg (not_not.mpr h0)] at hz ⊢
    by_cases hd0 : (ocfs2_initialize_dlm (o2cb_init w).2).1 = 0
    · rw [if_neg (not_not.mpr hd0)] at hz ⊢
      obtain ⟨z1, z2, z3⟩ := lock_acquire_zero c hc flags _ hz
      refine ⟨z1, ?_, ?_, hd.trans (lock_acquire_grows c flags _)⟩
      · rw [ho, hlen] at z2
        exact z2
      · rw [calls_since_trans w _ _ hd (lock_acquire_grows c flags _)]
        exact List.mem_append_right _ z3
    · rw [if_pos hd0] at hz
      exact absurd hz hd0
  · rw [if_pos h0] at hz
    exact absurd hz h0

/-- C7 (as amended). A read-write `tunefs_open` without
`TUNEFS_FLAG_NOCLUSTER` (with or without `TUNEFS_FLAG_ONLINE`) on a volume
that is not local that returns 0 has the distributed lock: either
`ocfs2_lock_down_cluster` was called in this open and succeeded, and
`cluster_locked` is set on return, or the inherited lock-state variable said
"locked" on entry and still does on return. -/
theorem C7_lock_before_rw_open (c : Consts) (hc : c.wf) (device : String) (flags : Nat)
    (w : World)
    (hrw : flags &&& c.TUNEFS_FLAG_RW ≠ 0)
    (hnc : flags &&& c.TUNEFS_FLAG_NOCLUSTER = 0)
    (hnl : (w.volume device).mount_local = false)
    (r : errcode_t × World) (hr : tunefs_open c device flags w = some r) (hz : r.1 = 0) :
    (r.2.cluster_locked = true ∧
      w.oc.ocfs2_lock_down_cluster (w.trace.length + 4) = 0 ∧
      Event.ocfs2_lock_down_cluster ∈ calls_since w r.2) ∨
    (w.lockenv = some TUNEFS_OCFS2_LOCK_ENV_LOCKED ∧
      r.2.lockenv = some TUNEFS_OCFS2_LOCK_ENV_LOCKED) := by
  obtain ⟨hopen, rl, h2, hlk, hrl, hr2⟩ := open_zero_path c hc device flags w hrw r hr hz
  obtain ⟨_, ofs, ol, oo, _, oe, ot⟩ := open_after_ocfs2_open device true w hopen
  have op : w.trace <+: (ocfs2_open device true w).2.trace := ⟨_, ot.symm⟩
  obtain ⟨_, jl, je, _, _, jp⟩ := journal_check_frame c h2 (rl.2.log Event.io_init_cache)
  have jp1 : rl.2.trace <+: r.2.trace := by
    rw [hr2]
    exact List.IsPrefix.trans ⟨_, rfl⟩ jp
  unfold tunefs_lock_cluster at hlk
  rw [ofs] at hlk
  simp only [hnl, Bool.false_eq_true, not_false_eq_true, if_true] at hlk
  by_cases henv : tunefs_get_lock_env c (ocfs2_open device true w).2 = 0 ∨
      (flags &&& c.TUNEFS_FLAG_ONLINE ≠ 0 ∧
        tunefs_get_lock_env c (ocfs2_open device true w).2 = c.TUNEFS_ET_PERFORM_ONLINE)
  · rw [if_pos henv] at hlk
    have hrl1 := Option.some.inj hlk
    right
    have hg : tunefs_get_lock_env c (ocfs2_open device true w).2 = 0 := by
      have := congrArg Prod.fst hrl1
      simp only at this
      rw [this]
      exact hrl
    have hlocked := get_lock_env_zero c hc _ hg
    rw [oe] at hlocked
    refine ⟨hlocked, ?_⟩
    rw [hr2, je]
    show rl.2.lockenv = _
    rw [← hrl1]
    exact oe.trans hlocked
  · rw [if_neg henv] at hlk
    have hrl1 := Option.some.inj hlk
    left
    rw [← hrl1] at hrl
    obtain ⟨z1, z2, z3, sp⟩ := lock_start_zero c hc flags (ocfs2_open device true w).2 hnc hrl
    rw [hrl1] at z1 z3 sp
    refine ⟨?_, ?_, ?_⟩
    · rw [hr2, jl]
      exact z1
    · rw [oo, ot] at z2
      simpa using z2
    · apply mem_calls_since_mono w rl.2 r.2 _ jp1
      rw [calls_since_trans w _ rl.2 op sp]
      exact List.mem_append_right _ z3

/-- C7, concrete instance: a read-write open of a clustered volume with every
call succeeding takes the lock. -/
theorem C7_lock_before_rw_open_witness :
    ∃ r : errcode_t × World,
      tunefs_open ocfs2_consts "/dev/sdb1" 1
        (start_world (one_slot_volume 0 false 0) none all_succeed) = some r ∧
      r.1 = 0 ∧
      ((r.2.cluster_locked = true ∧
        (start_world (one_slot_volume 0 false 0) none all_succeed).oc.ocfs2_lock_down_cluster
          ((start_world (one_slot_volume 0 false 0) none all_succeed).trace.length + 4) = 0 ∧
        Event.ocfs2_lock_down_cluster ∈
          calls_since (start_world (one_slot_volume 0 false 0) none all_succeed) r.2) ∨
       ((start_world (one_slot_volume 0 false 0) none all_succeed).lockenv =
          some TUNEFS_OCFS2_LOCK_ENV_LOCKED ∧
        r.2.lockenv = some TUNEFS_OCFS2_LOCK_ENV_LOCKED)) :=
  ⟨_, rfl, rfl,
    C7_lock_before_rw_open ocfs2_consts (by decide) "/dev/sdb1" 1
      (start_world (one_slot_volume 0 false 0) none all_succeed) (by decide) (by decide)
      rfl _ rfl rfl⟩

/-- C7 as stated fails: with `TUNEFS_FLAG_RW | TUNEFS_FLAG_NOCLUSTER` on a
clustered volume whose `ocfs2_initialize_dlm` succeeds, `tunefs_open` returns
0 without ever calling `ocfs2_lock_down_cluster`; `cluster_locked` is clear
and the inherited lock-state variable is unset, on entry and on return. -/
theorem C7_counterexample :
    (5 : Nat) &&& ocfs2_consts.TUNEFS_FLAG_RW ≠ 0 ∧
    (5 : Nat) &&& ocfs2_consts.TUNEFS_FLAG_NOCLUSTER ≠ 0 ∧
    (one_slot_volume 0 false 0).mount_local = false ∧
    (tunefs_open ocfs2_consts "/dev/sdb1" 5
        (start_world (one_slot_volume 0 false 0) none all_succeed)).map Prod.fst = some 0 ∧
    (tunefs_open ocfs2_consts "/dev/sdb1" 5
        (start_world (one_slot_volume 0 false 0) none all_succeed)).map
          (fun r => r.2.cluster_locked) = some false ∧
    (tunefs_open ocfs2_consts "/dev/sdb1" 5
        (start_world (one_slot_volume 0 false 0) none all_succeed)).map
          (fun r => r.2.lockenv) = some none ∧
    (tunefs_open ocfs2_consts "/dev/sdb1" 5
        (start_world (one_slot_volume 0 false 0) none all_succeed)).map
          (fun r => decide (Event.ocfs2_lock_down_cluster ∈ r.2.trace)) = some false := by
  decide

/-! ## The session invariant is what tunefs_open leaves behind -/

theorem open_out_lock_inv (c : Consts) (e : errcode_t) (wx : World)
    (hcl : fatal c e → wx.cluster_locked = false) (hinv : lock_inv wx) :
    lock_inv (open_out c e wx).2 := by
  obtain ⟨_, p2, _, _, p4, _⟩ := open_out_post c e wx
  by_cases hf : fatal c e
  · exact lock_inv_of_unlocked _ (p2.trans (hcl hf))
  · rw [p4 hf]
    exact hinv

theorem open_locked_lock_inv (c : Consts) (hc : c.wf) (flags : Nat) (w0 : World)
    (h0 : ocfs2_filesys) (hfs : w0.fs = some h0) (hl : w0.cluster_locked = false) :
    ∃ r : errcode_t × World, open_locked c flags w0 = some r ∧ lock_inv r.2 := by
  obtain ⟨rl, hlk, lvol, linv, lfat, _, _, _, _⟩ := lock_cluster_post c hc flags w0 h0 hfs hl
  have lsome : rl.2.fs.isSome = true := isSome_of_handle_volume _ _ h0 lvol hfs
  unfold open_locked
  simp only [hlk]
  by_cases hf : fatal c rl.1
  · rw [if_pos hf]
    exact ⟨_, rfl, open_out_lock_inv c _ _ lfat linv⟩
  · rw [if_neg hf]
    cases hfs2 : rl.2.fs with
    | none =>
      rw [hfs2] at lsome
      exact Bool.noConfusion lsome
    | some h2 =>
      simp only
      have winv : lock_inv (rl.2.log Event.io_init_cache) := linv
      by_cases hpo : rl.1 ≠ c.TUNEFS_ET_PERFORM_ONLINE
      · rw [if_pos hpo]
        obtain ⟨jfs, jl, _, _, _, _⟩ :=
          journal_check_frame c h2 (rl.2.log Event.io_init_cache)
        have jinv : lock_inv (tunefs_journal_check c h2 (rl.2.log Event.io_init_cache)).2 := by
          intro hl1
          rw [jl] at hl1
          rw [jfs]
          exact linv hl1
        by_cases hj : (tunefs_journal_check c h2 (rl.2.log Event.io_init_cache)).1 ≠ 0
        · rw [if_pos hj]
          have ucl := unlock_cluster_clears c _ jinv
          exact ⟨_, rfl, open_out_lock_inv c _ _ (fun _ => ucl) (lock_inv_of_unlocked _ ucl)⟩
        · rw [if_neg hj]
          exact ⟨_, rfl, open_out_lock_inv c _ _ (fun h1 => absurd h1 hf) jinv⟩
      · rw [if_neg hpo]
        exact ⟨_, rfl, open_out_lock_inv c _ _ (fun h1 => absurd h1 hf) winv⟩

/-- Entered without the lock held, `tunefs_open` leaves the session in a
state where `cluster_locked` is only set while `fs` is open and has a lock
context: the states `tunefs_close` is called on. -/
theorem open_establishes_lock_inv (c : Consts) (hc : c.wf) (device : String) (flags : Nat)
    (w : World) (hl : w.cluster_locked = false) (r : errcode_t × World)
    (hr : tunefs_open c device flags w = some r) : lock_inv r.2 := by
  unfold tunefs_open at hr
  simp only at hr
  generalize decide (flags &&& c.TUNEFS_FLAG_RW ≠ 0) = b at hr
  have ocl : (ocfs2_open device b w).2.cluster_locked = false := hl
  have oinv : lock_inv (ocfs2_open device b w).2 := lock_inv_of_unlocked _ ocl
  have early : ∀ e : errcode_t, some (open_out c e (ocfs2_open device b w).2) = some r →
      lock_inv r.2 := by
    intro e he
    rw [← Option.some.inj he]
    exact open_out_lock_inv c e _ (fun _ => ocl) oinv
  by_cases hopen : w.oc.ocfs2_open w.trace.length = 0
  · obtain ⟨o1, ofs, _, _, _, _, _⟩ := open_after_ocfs2_open device b w hopen
    rw [if_neg (not_not.mpr o1)] at hr
    by_cases hrw : flags &&& c.TUNEFS_FLAG_RW = 0
    · rw [if_pos hrw] at hr
      exact early _ hr
    · rw [if_neg hrw, ofs] at hr
      simp only at hr
      by_cases h1 : (w.volume device).fs_super.s_feature_incompat &&&
          c.OCFS2_FEATURE_INCOMPAT_HEARTBEAT_DEV ≠ 0
      · rw [if_pos h1] at hr
        exact early _ hr
      · rw [if_neg h1] at hr
        by_cases h2 : (w.volume device).fs_super.s_feature_incompat &&&
            c.OCFS2_FEATURE_INCOMPAT_RESIZE_INPROG ≠ 0
        · rw [if_pos h2] at hr
          exact early _ hr
        · rw [if_neg h2] at hr
          by_cases h3 : (w.volume device).fs_super.s_feature_incompat &&&
              c.OCFS2_FEATURE_INCOMPAT_TUNEFS_INPROG ≠ 0
          · rw [if_pos h3] at hr
            exact early _ hr
          · rw [if_neg h3] at hr
            obtain ⟨r1, hr1, hinv⟩ := open_locked_lock_inv c hc flags _ _ ofs ocl
            rw [hr] at hr1
            rw [Option.some.inj hr1]
            exact hinv
  · have o1 : (ocfs2_open device b w).1 ≠ 0 := hopen
    rw [if_pos o1] at hr
    exact early _ hr

/-! ## The ledger changes nothing but progress markers -/

theorem same_bits_refl (mask a : Nat) : same_bits_outside mask a a := fun _ _ => rfl

theorem same_bits_lor (mask : Nat) {x n : Nat} (hx : x < 2 ^ n) :
    same_bits_outside mask x ((x ||| mask) % 2 ^ n) := by
  intro i hi
  simp only [Nat.testBit_mod_two_pow, Nat.testBit_or, hi, Bool.or_false]
  by_cases h : x.testBit i = true
  · simp [h, testBit_index_lt hx h]
  · simp [h]

theorem same_bits_land_lnot (mask : Nat) {x n : Nat} (hx : x < 2 ^ n) (hn : n ≤ 32) :
    same_bits_outside mask x ((x &&& lnot32 mask) % 2 ^ n) := by
  intro i hi
  simp only [Nat.testBit_mod_two_pow, Nat.testBit_and, testBit_lnot32, hi]
  by_cases h : x.testBit i = true
  · have h1 : i < n := testBit_index_lt hx h
    have h2 : i < 32 := by omega
    simp [h, h1, h2]
  · simp [h]

theorem land_of_same_bits {mask m a b : Nat} (h : same_bits_outside mask a b)
    (hd : m &&& mask = 0) : b &&& m = a &&& m := by
  apply Nat.eq_of_testBit_eq
  intro i
  simp only [Nat.testBit_and]
  by_cases hm : m.testBit i = true
  · have hmask : mask.testBit i = false := by
      by_contra hc
      have := disjoint_bits hd i (by simpa using hc)
      rw [hm] at this
      exact Bool.noConfusion this
    rw [h i hmask]
  · simp [hm]

theorem progress_frame_of_bits (c : Consts) (hc : c.wf) (fs fs1 : ocfs2_filesys) (flag : Nat)
    (hs : same_but_progress fs fs1)
    (hR : flag = c.OCFS2_FEATURE_INCOMPAT_RESIZE_INPROG →
      fs1.fs_super.s_tunefs_flag = fs.fs_super.s_tunefs_flag ∧
      same_bits_outside c.OCFS2_FEATURE_INCOMPAT_RESIZE_INPROG
        fs.fs_super.s_feature_incompat fs1.fs_super.s_feature_incompat)
    (hT : flag ≠ c.OCFS2_FEATURE_INCOMPAT_RESIZE_INPROG →
      same_bits_outside c.OCFS2_FEATURE_INCOMPAT_TUNEFS_INPROG
        fs.fs_super.s_feature_incompat fs1.fs_super.s_feature_incompat ∧
      same_bits_outside flag fs.fs_super.s_tunefs_flag fs1.fs_super.s_tunefs_flag) :
    same_but_progress fs fs1 ∧
    (flag = c.OCFS2_FEATURE_INCOMPAT_RESIZE_INPROG →
      fs1.fs_super.s_tunefs_flag = fs.fs_super.s_tunefs_flag ∧
      same_bits_outside c.OCFS2_FEATURE_INCOMPAT_RESIZE_INPROG
        fs.fs_super.s_feature_incompat fs1.fs_super.s_feature_incompat) ∧
    (flag ≠ c.OCFS2_FEATURE_INCOMPAT_RESIZE_INPROG →
      same_bits_outside c.OCFS2_FEATURE_INCOMPAT_TUNEFS_INPROG
        fs.fs_super.s_feature_incompat fs1.fs_super.s_feature_incompat ∧
      same_bits_outside flag fs.fs_super.s_tunefs_flag fs1.fs_super.s_tunefs_flag ∧
      fs1.fs_super.s_feature_incompat &&& c.OCFS2_FEATURE_INCOMPAT_RESIZE_INPROG =
        fs.fs_super.s_feature_incompat &&& c.OCFS2_FEATURE_INCOMPAT_RESIZE_INPROG ∧
      (c.OCFS2_FEATURE_INCOMPAT_HEARTBEAT_DEV &&& c.OCFS2_FEATURE_INCOMPAT_TUNEFS_INPROG = 0 →
        fs1.fs_super.s_feature_incompat &&& c.OCFS2_FEATURE_INCOMPAT_HEARTBEAT_DEV =
          fs.fs_super.s_feature_incompat &&& c.OCFS2_FEATURE_INCOMPAT_HEARTBEAT_DEV)) := by
  obtain ⟨_, _, _, _, hRT, _⟩ := hc
  refine ⟨hs, hR, fun hne => ?_⟩
  obtain ⟨h1, h2⟩ := hT hne
  exact ⟨h1, h2, land_of_same_bits h1 hRT, fun hH => land_of_same_bits h1 hH⟩

theorem set_same_but_progress (c : Consts) (wr : ocfs2_filesys → errcode_t)
    (fs : ocfs2_filesys) (flag : Nat) :
    same_but_progress fs (tunefs_set_in_progress c wr fs flag).2 := by
  unfold tunefs_set_in_progress
  simp only
  split_ifs <;> exact ⟨rfl, rfl, rfl, rfl, rfl⟩

theorem clear_same_but_progress (c : Consts) (wr : ocfs2_filesys → errcode_t)
    (fs : ocfs2_filesys) (flag : Nat) :
    same_but_progress fs (tunefs_clear_in_progress c wr fs flag).2 := by
  unfold tunefs_clear_in_progress
  simp only
  split_ifs <;> exact ⟨rfl, rfl, rfl, rfl, rfl⟩

/-- C20. `tunefs_set_in_progress` and `tunefs_clear_in_progress` leave the
handle as it was except for the progress markers of the superblock (a 32-bit
`s_feature_incompat` and a 16-bit `s_tunefs_flag`): with the legacy
RESIZE_INPROG flag `s_tunefs_flag` is untouched and every bit of
`s_feature_incompat` outside RESIZE_INPROG keeps its value; with any other
flag every bit of `s_feature_incompat` outside TUNEFS_INPROG keeps its value
(so the RESIZE_INPROG bit does, and the HEARTBEAT_DEV bit, the masks being
disjoint), and every bit of `s_tunefs_flag` that the flag does not name keeps
its value. -/
theorem C20_only_progress_markers (c : Consts) (hc : c.wf) (wr : ocfs2_filesys → errcode_t)
    (fs : ocfs2_filesys) (flag : Nat)
    (h32 : fs.fs_super.s_feature_incompat < 2 ^ 32)
    (h16 : fs.fs_super.s_tunefs_flag < 2 ^ 16) :
    ∀ fs1 : ocfs2_filesys,
      fs1 = (tunefs_set_in_progress c wr fs flag).2 ∨
        fs1 = (tunefs_clear_in_progress c wr fs flag).2 →
      same_but_progress fs fs1 ∧
      (flag = c.OCFS2_FEATURE_INCOMPAT_RESIZE_INPROG →
        fs1.fs_super.s_tunefs_flag = fs.fs_super.s_tunefs_flag ∧
        same_bits_outside c.OCFS2_FEATURE_INCOMPAT_RESIZE_INPROG
          fs.fs_super.s_feature_incompat fs1.fs_super.s_feature_incompat) ∧
      (flag ≠ c.OCFS2_FEATURE_INCOMPAT_RESIZE_INPROG →
        same_bits_outside c.OCFS2_FEATURE_INCOMPAT_TUNEFS_INPROG
          fs.fs_super.s_feature_incompat fs1.fs_super.s_feature_incompat ∧
        same_bits_outside flag fs.fs_super.s_tunefs_flag fs1.fs_super.s_tunefs_flag ∧
        fs1.fs_super.s_feature_incompat &&& c.OCFS2_FEATURE_INCOMPAT_RESIZE_INPROG =
          fs.fs_super.s_feature_incompat &&& c.OCFS2_FEATURE_INCOMPAT_RESIZE_INPROG ∧
        (c.OCFS2_FEATURE_INCOMPAT_HEARTBEAT_DEV &&& c.OCFS2_FEATURE_INCOMPAT_TUNEFS_INPROG = 0 →
          fs1.fs_super.s_feature_incompat &&& c.OCFS2_FEATURE_INCOMPAT_HEARTBEAT_DEV =
            fs.fs_super.s_feature_incompat &&& c.OCFS2_FEATURE_INCOMPAT_HEARTBEAT_DEV)) := by
  intro fs1 hfs1
  rcases hfs1 with h | h
  · subst h
    apply progress_frame_of_bits c hc fs _ flag (set_same_but_progress c wr fs flag)
    · intro hf
      simp only [tunefs_set_in_progress, hf, if_true]
      exact ⟨trivial, same_bits_lor _ h32⟩
    · intro hf
      simp only [tunefs_set_in_progress, hf, if_false]
      exact ⟨same_bits_lor _ h32, same_bits_lor _ h16⟩
  · subst h
    apply progress_frame_of_bits c hc fs _ flag (clear_same_but_progress c wr fs flag)
    · intro hf
      simp only [tunefs_clear_in_progress, hf, if_true]
      exact ⟨trivial, same_bits_land_lnot _ h32 (le_refl _)⟩
    · intro hf
      simp only [tunefs_clear_in_progress, hf, if_false]
      have htf := same_bits_land_lnot flag h16 (by norm_num : 16 ≤ 32)
      by_cases h0 : (fs.fs_super.s_tunefs_flag &&& lnot32 flag) % 2 ^ 16 = 0
      · simp only [h0, if_true]
        rw [h0] at htf
        exact ⟨same_bits_land_lnot _ h32 (le_refl _), htf⟩
      · simp only [h0, if_false]
        exact ⟨same_bits_refl _ _, htf⟩

/-- C20, concrete instance: setting sub-flag 1 on a superblock that has the
HEARTBEAT_DEV and RESIZE_INPROG bits set and sub-flag 2 recorded. -/
theorem C20_only_progress_markers_witness :
    ocfs2_consts.wf ∧ (0x26 : Nat) < 2 ^ 32 ∧ (2 : Nat) < 2 ^ 16 ∧
    same_but_progress (fs_of_super ⟨0x26, 2, 1⟩)
      (tunefs_set_in_progress ocfs2_consts (fun _ => 0) (fs_of_super ⟨0x26, 2, 1⟩) 1).2 ∧
    (tunefs_set_in_progress ocfs2_consts (fun _ => 0)
        (fs_of_super ⟨0x26, 2, 1⟩) 1).2.fs_super.s_feature_incompat &&& 4 = 0x26 &&& 4 ∧
    (tunefs_set_in_progress ocfs2_consts (fun _ => 0)
        (fs_of_super ⟨0x26, 2, 1⟩) 1).2.fs_super.s_feature_incompat &&& 2 = 0x26 &&& 2 :=
  have h := C20_only_progress_markers ocfs2_consts (by decide) (fun _ => 0)
    (fs_of_super ⟨0x26, 2, 1⟩) 1 (by decide) (by decide) _ (Or.inl rfl)
  ⟨by decide, by decide, by decide, h.1, (h.2.2 (by decide)).2.2.1,
    (h.2.2 (by decide)).2.2.2 (by decide)⟩

/-! ## The verbosity sink -/

theorem wrap_int_of_range (x : Int) (h1 : INT_MIN ≤ x) (h2 : x ≤ INT_MAX) : wrap_int x = x := by
  unfold INT_MIN at h1
  unfold INT_MAX at h2
  unfold wrap_int
  omega

theorem wrap_int_add (a b : Int) : wrap_int (wrap_int a + b) = wrap_int (a + b) := by
  unfold wrap_int
  omega

theorem wrap_int_idem (a : Int) : wrap_int (wrap_int a) = wrap_int a := by
  unfold wrap_int
  omega

theorem verbose_step (s : Sink) :
    (tunefs_verbose s).verbosity = wrap_int (s.verbosity + 1) := by
  unfold tunefs_verbose
  simp only
  split_ifs <;> rfl

theorem quiet_step (s : Sink) : (tunefs_quiet s).verbosity = wrap_int (s.verbosity - 1) := by
  unfold tunefs_quiet
  simp only
  split_ifs <;> rfl

theorem run_verbose (s : Sink) : SinkOp.run s SinkOp.verbose = tunefs_verbose s := rfl

theorem run_sink_cons (s : Sink) (op : SinkOp) (rest : List SinkOp) :
    run_sink s (op :: rest) = run_sink (SinkOp.run s op) rest := rfl

theorem run_sink_append (s : Sink) (l : List SinkOp) (op : SinkOp) :
    run_sink s (l ++ [op]) = SinkOp.run (run_sink s l) op := by
  unfold run_sink
  rw [List.foldl_append]
  rfl

/-- The counter after any sequence of calls: the number of `tunefs_verbose`
calls minus the number of `tunefs_quiet` calls is added, in 32-bit
arithmetic. -/
theorem run_sink_verbosity (ops : List SinkOp) :
    ∀ s : Sink, wrap_int s.verbosity = s.verbosity →
      (run_sink s ops).verbosity =
        wrap_int (s.verbosity + (ops.count SinkOp.verbose : Int) -
          (ops.count SinkOp.quiet : Int)) := by
  induction ops with
  | nil =>
    intro s hs
    simp [run_sink, hs]
  | cons op rest ih =>
    intro s _
    rw [run_sink_cons]
    cases op with
    | verbose =>
      have hv : (SinkOp.run s SinkOp.verbose).verbosity = wrap_int (s.verbosity + 1) :=
        verbose_step s
      rw [ih _ (by rw [hv, wrap_int_idem]), hv]
      have e1 : wrap_int (s.verbosity + 1) + ((rest.count SinkOp.verbose : Nat) : Int) -
          ((rest.count SinkOp.quiet : Nat) : Int) =
          wrap_int (s.verbosity + 1) + (((rest.count SinkOp.verbose : Nat) : Int) -
          ((rest.count SinkOp.quiet : Nat) : Int)) := by omega
      rw [e1, wrap_int_add]
      congr 1
      simp [List.count_cons]
      omega
    | quiet =>
      have hq : (SinkOp.run s SinkOp.quiet).verbosity = wrap_int (s.verbosity - 1) :=
        quiet_step s
      rw [ih _ (by rw [hq, wrap_int_idem]), hq]
      have e1 : wrap_int (s.verbosity - 1) + ((rest.count SinkOp.verbose : Nat) : Int) -
          ((rest.count SinkOp.quiet : Nat) : Int) =
          wrap_int (s.verbosity - 1) + (((rest.count SinkOp.verbose : Nat) : Int) -
          ((rest.count SinkOp.quiet : Nat) : Int)) := by omega
      rw [e1, wrap_int_add]
      congr 1
      simp [List.count_cons]
      omega

theorem verbose_keeps_inv (s : Sink) (h : sink_inv s) (hmax : s.verbosity < INT_MAX)
    (hmin : INT_MIN ≤ s.verbosity) :
    sink_inv (tunefs_verbose s) ∧ (tunefs_verbose s).verbosity = s.verbosity + 1 := by
  obtain ⟨hq, hd⟩ := h
  have hw : wrap_int (s.verbosity + 1) = s.verbosity + 1 :=
    wrap_int_of_range _ (by omega) (by omega)
  refine ⟨?_, (verbose_step s).trans hw⟩
  unfold sink_inv tunefs_verbose
  simp only [hw]
  by_cases h1 : s.verbosity + 1 = 1
  · rw [if_pos h1]
    simp only [h1]
    constructor
    · constructor
      · intro hh
        exact ComErrHook.noConfusion hh
      · intro hh
        omega
    · constructor
      · intro _
        omega
      · intro _
        trivial
  · rw [if_neg h1]
    show (s.hook = ComErrHook.quiet_com_err ↔ s.verbosity + 1 ≤ 0) ∧
      (s.hook = ComErrHook.default_hook ↔ 1 ≤ s.verbosity + 1)
    constructor
    · constructor
      · intro hh
        have := hq.mp hh
        omega
      · intro hh
        exact hq.mpr (by omega)
    · constructor
      · intro hh
        have := hd.mp hh
        omega
      · intro hh
        exact hd.mpr (by omega)

theorem quiet_keeps_inv (s : Sink) (h : sink_inv s) (hmax : s.verbosity ≤ INT_MAX)
    (hmin : INT_MIN < s.verbosity) :
    sink_inv (tunefs_quiet s) ∧ (tunefs_quiet s).verbosity = s.verbosity - 1 := by
  obtain ⟨hq, hd⟩ := h
  have hw : wrap_int (s.verbosity - 1) = s.verbosity - 1 :=
    wrap_int_of_range _ (by omega) (by omega)
  refine ⟨?_, (quiet_step s).trans hw⟩
  unfold sink_inv tunefs_quiet
  simp only
  by_cases h1 : s.verbosity = 1
  · rw [if_pos h1]
    show (ComErrHook.quiet_com_err = ComErrHook.quiet_com_err ↔
        wrap_int (s.verbosity - 1) ≤ 0) ∧
      (ComErrHook.quiet_com_err = ComErrHook.default_hook ↔ 1 ≤ wrap_int (s.verbosity - 1))
    rw [hw]
    constructor
    · constructor
      · intro _
        omega
      · intro _
        trivial
    · constructor
      · intro hh
        exact ComErrHook.noConfusion hh
      · intro hh
        omega
  · rw [if_neg h1]
    show (s.hook = ComErrHook.quiet_com_err ↔ wrap_int (s.verbosity - 1) ≤ 0) ∧
      (s.hook = ComErrHook.default_hook ↔ 1 ≤ wrap_int (s.verbosity - 1))
    rw [hw]
    constructor
    · constructor
      · intro hh
        have := hq.mp hh
        omega
      · intro hh
        exact hq.mpr (by omega)
    · constructor
      · intro hh
        have := hd.mp hh
        omega
      · intro hh
        exact hd.mpr (by omega)

/-- While the counter cannot leave the range of `int`, every call keeps the
hook invariant and moves the counter by exactly one. -/
theorem run_sink_keeps_inv (ops : List SinkOp) :
    ∀ s : Sink, sink_inv s → INT_MIN + (ops.length : Int) ≤ s.verbosity →
      s.verbosity + (ops.length : Int) ≤ INT_MAX →
      sink_inv (run_sink s ops) ∧
      (run_sink s ops).verbosity =
        s.verbosity + (ops.count SinkOp.verbose : Int) - (ops.count SinkOp.quiet : Int) := by
  induction ops with
  | nil =>
    intro s h _ _
    exact ⟨h, by simp [run_sink]⟩
  | cons op rest ih =>
    intro s h hlo hhi
    rw [run_sink_cons]
    have hlen : ((op :: rest).length : Int) = (rest.length : Int) + 1 := by simp
    rw [hlen] at hlo hhi
    cases op with
    | verbose =>
      obtain ⟨k1, k2⟩ := verbose_keeps_inv s h (by omega) (by omega)
      obtain ⟨r1, r2⟩ := ih (SinkOp.run s SinkOp.verbose) k1
        (by show _ ≤ (tunefs_verbose s).verbosity; rw [k2]; omega)
        (by show (tunefs_verbose s).verbosity + _ ≤ _; rw [k2]; omega)
      refine ⟨r1, ?_⟩
      rw [r2]
      show (tunefs_verbose s).verbosity + _ - _ = _
      rw [k2]
      simp [List.count_cons]
      omega
    | quiet =>
      obtain ⟨k1, k2⟩ := quiet_keeps_inv s h (by omega) (by omega)
      obtain ⟨r1, r2⟩ := ih (SinkOp.run s SinkOp.quiet) k1
        (by show _ ≤ (tunefs_quiet s).verbosity; rw [k2]; omega)
        (by show (tunefs_quiet s).verbosity + _ ≤ _; rw [k2]; omega)
      refine ⟨r1, ?_⟩
      rw [r2]
      show (tunefs_quiet s).verbosity + _ - _ = _
      rw [k2]
      simp [List.count_cons]
      omega

theorem start_inv : sink_inv Sink.start := by
  unfold sink_inv Sink.start
  decide

/-- From the initial state, `n` calls of `tunefs_verbose` bring the counter to
`1 + n` with the default hook, as long as that is an `int`. -/
theorem run_verbose_calls (n : Nat) (hn : (n : Int) + 1 ≤ INT_MAX) :
    run_sink Sink.start (List.replicate n SinkOp.verbose) =
      { verbosity := 1 + (n : Int), hook := ComErrHook.default_hook, out := [] } := by
  induction n with
  | zero => rfl
  | succ n ih =>
    have hn1 : (n : Int) + 1 ≤ INT_MAX := by
      push_cast at hn
      omega
    rw [List.replicate_succ', run_sink_append, ih hn1]
    have hw : wrap_int (1 + (n : Int) + 1) = 1 + (n : Int) + 1 :=
      wrap_int_of_range _ (by unfold INT_MIN; omega) (by push_cast at hn; omega)
    have hne : ¬ (1 + (n : Int) + 1 = 1) := by omega
    rw [run_verbose]
    unfold tunefs_verbose
    simp only [hw, hne, if_false]
    congr 1

/-- C12 (as amended). After any sequence `ops` of `tunefs_verbose` and
`tunefs_quiet` calls from the initial state, the verbosity is 1 plus the
number of `tunefs_verbose` calls minus the number of `tunefs_quiet` calls (in
32-bit arithmetic), and `errorf` calls `vfprintf` on stderr with its message
exactly when that verbosity is at least 1, its fixed level, returning what
`vfprintf` returns; at verbosity 0 or below it writes nothing and returns 0.
It never writes to stdout and leaves verbosity and hook alone. For fewer than
2^31 - 1 calls, `errorf` writes exactly when there were no more
`tunefs_quiet` than `tunefs_verbose` calls. -/
theorem C12_errorf_threshold (ops : List SinkOp) (rc : Int) (msg : String) :
    (run_sink Sink.start ops).verbosity =
      wrap_int (1 + (ops.count SinkOp.verbose : Int) - (ops.count SinkOp.quiet : Int)) ∧
    (1 ≤ (run_sink Sink.start ops).verbosity →
      errorf rc msg (run_sink Sink.start ops) =
        (rc, { run_sink Sink.start ops with
          out := (run_sink Sink.start ops).out ++ [(Channel.stderr, msg)] })) ∧
    ((run_sink Sink.start ops).verbosity ≤ 0 →
      errorf rc msg (run_sink Sink.start ops) = (0, run_sink Sink.start ops)) ∧
    ((ops.length : Int) < 2 ^ 31 - 1 →
      ((errorf rc msg (run_sink Sink.start ops)).2.out =
          (run_sink Sink.start ops).out ++ [(Channel.stderr, msg)] ↔
        ops.count SinkOp.quiet ≤ ops.count SinkOp.verbose)) := by
  refine ⟨run_sink_verbosity ops Sink.start (by decide), ?_, ?_, ?_⟩
  · intro h
    unfold errorf vfverbosef
    rw [if_pos h]
  · intro h
    unfold errorf vfverbosef
    rw [if_neg (by omega)]
  · intro hlen
    obtain ⟨_, hv⟩ := run_sink_keeps_inv ops Sink.start start_inv
      (by unfold INT_MIN; show _ ≤ (1 : Int); omega)
      (by unfold INT_MAX; show (1 : Int) + _ ≤ _; omega)
    have hv1 : (run_sink Sink.start ops).verbosity =
        1 + (ops.count SinkOp.verbose : Int) - (ops.count SinkOp.quiet : Int) := hv
    unfold errorf vfverbosef
    by_cases h : 1 ≤ (run_sink Sink.start ops).verbosity
    · rw [if_pos h]
      constructor
      · intro _
        omega
      · intro _
        rfl
    · rw [if_neg h]
      constructor
      · intro hout
        have := congrArg List.length hout
        simp at this
      · intro hle
        omega

/-- C12, concrete instance: after `tunefs_quiet`, `tunefs_verbose` the
verbosity is 1 again and `errorf` writes to stderr. -/
theorem C12_errorf_threshold_witness :
    (errorf 5 "error" (run_sink Sink.start [SinkOp.quiet, SinkOp.verbose])).2.out =
        (run_sink Sink.start [SinkOp.quiet, SinkOp.verbose]).out ++
          [(Channel.stderr, "error")] ↔
      [SinkOp.quiet, SinkOp.verbose].count SinkOp.quiet ≤
        [SinkOp.quiet, SinkOp.verbose].count SinkOp.verbose :=
  (C12_errorf_threshold [SinkOp.quiet, SinkOp.verbose] 5 "error").2.2.2 (by decide)

/-- C12 as stated fails: one call of `tunefs_quiet` from the initial state
brings verbosity to 0, and `errorf` then writes nothing, while in the initial
state it writes its message to stderr. -/
theorem C12_counterexample :
    (run_sink Sink.start [SinkOp.quiet]).verbosity = 0 ∧
    (errorf 5 "error" (run_sink Sink.start [SinkOp.quiet])).2.out = [] ∧
    (errorf 5 "error" Sink.start).2.out = [(Channel.stderr, "error")] := by
  decide

/-- C13 (as amended). Starting from the initial state (verbosity 1, default
com_err hook), for every sequence of fewer than 2^31 - 1 calls of
`tunefs_verbose` and `tunefs_quiet` (so that the `int` counter cannot
overflow): after every call the com_err hook is `quiet_com_err` exactly when
verbosity is zero or below and the default hook exactly when verbosity is 1
or more, the verbosity is 1 plus the number of `tunefs_verbose` calls minus
the number of `tunefs_quiet` calls so far, and at every point where a further
call of the sequence follows `tunefs_verbose` raises verbosity by exactly 1
and `tunefs_quiet` lowers it by exactly 1. -/
theorem C13_quiet_hook_invariant (ops : List SinkOp)
    (hlen : (ops.length : Int) < 2 ^ 31 - 1) (k : Nat) :
    sink_inv (run_sink Sink.start (ops.take k)) ∧
    (run_sink Sink.start (ops.take k)).verbosity =
      1 + ((ops.take k).count SinkOp.verbose : Int) -
        ((ops.take k).count SinkOp.quiet : Int) ∧
    (k < ops.length →
      (tunefs_verbose (run_sink Sink.start (ops.take k))).verbosity =
        (run_sink Sink.start (ops.take k)).verbosity + 1 ∧
      (tunefs_quiet (run_sink Sink.start (ops.take k))).verbosity =
        (run_sink Sink.start (ops.take k)).verbosity - 1) := by
  have htake : ((ops.take k).length : Int) ≤ (ops.length : Int) := by
    have h1 : (ops.take k).length ≤ ops.length := by
      rw [List.length_take]
      exact Nat.min_le_right _ _
    omega
  obtain ⟨hinv, hv⟩ := run_sink_keeps_inv (ops.take k) Sink.start start_inv
    (by unfold INT_MIN; show _ ≤ (1 : Int); omega)
    (by unfold INT_MAX; show (1 : Int) + _ ≤ _; omega)
  have hv1 : (run_sink Sink.start (ops.take k)).verbosity =
      1 + ((ops.take k).count SinkOp.verbose : Int) -
        ((ops.take k).count SinkOp.quiet : Int) := hv
  refine ⟨hinv, hv1, ?_⟩
  intro hk
  have hlk : (ops.take k).length = k := List.length_take_of_le (le_of_lt hk)
  have c1 : (ops.take k).count SinkOp.verbose ≤ k := by
    have := List.count_le_length SinkOp.verbose (ops.take k)
    omega
  have c2 : (ops.take k).count SinkOp.quiet ≤ k := by
    have := List.count_le_length SinkOp.quiet (ops.take k)
    omega
  refine ⟨(verbose_keeps_inv _ hinv ?_ ?_).2, (quiet_keeps_inv _ hinv ?_ ?_).2⟩
  · unfold INT_MAX
    omega
  · unfold INT_MIN
    omega
  · unfold INT_MAX
    omega
  · unfold INT_MIN
    omega

/-- C13, concrete instance: in the sequence `tunefs_quiet`, `tunefs_verbose`,
after the first call the hook is `quiet_com_err` and verbosity is 0. -/
theorem C13_quiet_hook_invariant_witness :
    sink_inv (run_sink Sink.start ([SinkOp.quiet, SinkOp.verbose].take 1)) ∧
    (run_sink Sink.start ([SinkOp.quiet, SinkOp.verbose].take 1)).hook =
      ComErrHook.quiet_com_err :=
  ⟨(C13_quiet_hook_invariant [SinkOp.quiet, SinkOp.verbose] (by decide) 1).1, by decide⟩

/-- C13 as stated fails: 2^31 - 2 calls of `tunefs_verbose` from the initial
state bring the `int` counter to `INT_MAX`; the next `tunefs_verbose` does not
raise it by 1 but leaves it at `INT_MIN`, with the default hook still in
place although verbosity is below zero. -/
theorem C13_counterexample :
    (run_sink Sink.start (List.replicate 2147483646 SinkOp.verbose)).verbosity = INT_MAX ∧
    (tunefs_verbose
      (run_sink Sink.start (List.replicate 2147483646 SinkOp.verbose))).verbosity ≠
      (run_sink Sink.start (List.replicate 2147483646 SinkOp.verbose)).verbosity + 1 ∧
    ¬ sink_inv (run_sink Sink.start
      (List.replicate 2147483646 SinkOp.verbose ++ [SinkOp.verbose])) := by
  have h := run_verbose_calls 2147483646 (by unfold INT_MAX; norm_num)
  have hmax : (1 : Int) + ((2147483646 : Nat) : Int) = 2147483647 := by norm_num
  rw [run_sink_append, h, hmax]
  refine ⟨by unfold INT_MAX; norm_num, ?_, ?_⟩
  · rw [verbose_step]
    unfold wrap_int
    norm_num
  · intro hinv
    have hd := hinv.2
    rw [run_verbose] at hd
    have hv : (tunefs_verbose ⟨2147483647, ComErrHook.default_hook, []⟩).verbosity =
        -2147483648 := by
      rw [verbose_step]
      unfold wrap_int
      norm_num
    have hh : (tunefs_verbose ⟨2147483647, ComErrHook.default_hook, []⟩).hook =
        ComErrHook.default_hook := by
      unfold tunefs_verbose wrap_int
      norm_num
    have := hd.mp hh
    rw [hv] at this
    omega

/-! ## The signal guard -/

theorem signals_distinct (sg : Signals) (h : sg.wf) :
    sg.SIGQUIT ≠ sg.SIGTERM ∧ sg.SIGQUIT ≠ sg.SIGINT ∧ sg.SIGQUIT ≠ sg.SIGHUP ∧
    sg.SIGQUIT ≠ sg.SIGSEGV ∧ sg.SIGTERM ≠ sg.SIGSEGV ∧ sg.SIGINT ≠ sg.SIGSEGV ∧
    sg.SIGHUP ≠ sg.SIGSEGV := by
  unfold Signals.wf at h
  simp only [List.nodup_cons, List.mem_cons, List.mem_singleton, not_or, List.not_mem_nil,
    not_false_eq_true, List.nodup_nil, and_true] at h
  obtain ⟨⟨h1, h2, h3, h4⟩, ⟨_, _, h5⟩, ⟨_, h6⟩, h7⟩ := h
  exact ⟨h1, h2, h3, h4, h5, h6, h7⟩

/-- C19. `handle_signal` ends in exactly one way for every caught signal:
SIGINT, SIGTERM and SIGHUP run `tunefs_close` and exit with status 1; SIGQUIT,
and SIGSEGV when an earlier SIGSEGV was already handled, abort without
calling `tunefs_close` (the session state is untouched); the first SIGSEGV
notes that it was handled, runs `tunefs_close` and exits with status 1; every
other signal returns to the program with the session state untouched. -/
theorem C19_signal_outcomes (c : Consts) (sg : Signals) (hsg : sg.wf) (caught_sig : Int)
    (segv_already : Bool) (w : World) :
    (caught_sig = sg.SIGINT ∨ caught_sig = sg.SIGTERM ∨ caught_sig = sg.SIGHUP →
      (handle_signal c sg caught_sig segv_already w).1 = SigOutcome.exited 1 ∧
      (handle_signal c sg caught_sig segv_already w).2.2.2 = (tunefs_close c w).2) ∧
    (caught_sig = sg.SIGQUIT →
      (handle_signal c sg caught_sig segv_already w).1 = SigOutcome.aborted ∧
      (handle_signal c sg caught_sig segv_already w).2.2.2 = w) ∧
    (caught_sig = sg.SIGSEGV → segv_already = true →
      (handle_signal c sg caught_sig segv_already w).1 = SigOutcome.aborted ∧
      (handle_signal c sg caught_sig segv_already w).2.2.2 = w) ∧
    (caught_sig = sg.SIGSEGV → segv_already = false →
      (handle_signal c sg caught_sig segv_already w).1 = SigOutcome.exited 1 ∧
      (handle_signal c sg caught_sig segv_already w).2.1 = true ∧
      (handle_signal c sg caught_sig segv_already w).2.2.2 = (tunefs_close c w).2) ∧
    (caught_sig ≠ sg.SIGINT → caught_sig ≠ sg.SIGTERM → caught_sig ≠ sg.SIGHUP →
      caught_sig ≠ sg.SIGQUIT → caught_sig ≠ sg.SIGSEGV →
      (handle_signal c sg caught_sig segv_already w).1 = SigOutcome.returned ∧
      (handle_signal c sg caught_sig segv_already w).2.1 = segv_already ∧
      (handle_signal c sg caught_sig segv_already w).2.2.2 = w) := by
  obtain ⟨h1, h2, h3, h4, h5, h6, h7⟩ := signals_distinct sg hsg
  refine ⟨?_, ?_, ?_, ?_, ?_⟩
  · intro h
    have hq : caught_sig ≠ sg.SIGQUIT := by
      rcases h with h | h | h <;> rw [h]
      · exact h2.symm
      · exact h1.symm
      · exact h3.symm
    have h' : caught_sig = sg.SIGTERM ∨ caught_sig = sg.SIGINT ∨ caught_sig = sg.SIGHUP := by
      rcases h with h | h | h
      · exact Or.inr (Or.inl h)
      · exact Or.inl h
      · exact Or.inr (Or.inr h)
    simp [handle_signal, handle_signal_switch, hq, h']
  · intro h
    simp [handle_signal, handle_signal_switch, h]
  · intro h hs
    subst h
    simp [handle_signal, handle_signal_switch, h4.symm, h5.symm, h6.symm, h7.symm, hs]
  · intro h hs
    subst h
    simp [handle_signal, handle_signal_switch, h4.symm, h5.symm, h6.symm, h7.symm, hs]
  · intro a1 a2 a3 a4 a5
    simp [handle_signal, handle_signal_switch, a1, a2, a3, a4, a5]

/-- C19, concrete instance with the Linux signal numbers: SIGTERM (15) on a
session holding the lock tears the session down and exits with status 1. -/
theorem C19_signal_outcomes_witness :
    linux_signals.wf ∧
    (handle_signal ocfs2_consts linux_signals 15 false (held_world all_succeed)).1 =
      SigOutcome.exited 1 ∧
    (handle_signal ocfs2_consts linux_signals 15 false (held_world all_succeed)).2.2.2 =
      (tunefs_close ocfs2_consts (held_world all_succeed)).2 :=
  ⟨by decide,
    (C19_signal_outcomes ocfs2_consts linux_signals (by decide) 15 false
      (held_world all_succeed)).1 (Or.inr (Or.inl rfl))⟩

/-! ## What the journal check records -/

/-- C16, evaluated at a second open in the same process: after opening and
closing `/dev/a` (one journal of 8 clusters), a read-write open of `/dev/b`
(one journal of 4 clusters, found, readable and clean) succeeds, the largest
`i_clusters` read in its scan is 4, and `journal_clusters` is 8; a first open
of `/dev/b` records 4. -/
theorem C16_stale_journal_clusters :
    scan_max (two_volume_world.volume "/dev/b")
      (two_volume_world.volume "/dev/b").fs_super.s_max_slots 0 = 4 ∧
    ((tunefs_open ocfs2_consts "/dev/a" 1 two_volume_world).bind
        (fun r1 => tunefs_open ocfs2_consts "/dev/b" 1
          (tunefs_close ocfs2_consts r1.2).2)).map
      (fun r2 => (r2.1, r2.2.journal_clusters)) = some (0, 8) ∧
    (tunefs_open ocfs2_consts "/dev/b" 1 two_volume_world).map
      (fun r2 => (r2.1, r2.2.journal_clusters)) = some (0, 4) := by
  decide

/-! ## tunefs_lock_cluster when the lock attempt fails -/

theorem lock_cluster_starts (c : Consts) (flags : Nat) (w : World) (h : ocfs2_filesys)
    (hfs : w.fs = some h) (hnl : h.mount_local = false)
    (henv : no_inherited_lock c flags w) :
    tunefs_lock_cluster c flags w = some (lock_start c flags w) := by
  unfold no_inherited_lock at henv
  simp only [tunefs_lock_cluster, hfs, hnl, Bool.false_eq_true, not_false_eq_true, if_true,
    henv, if_false]

theorem lock_out_set_cases (c : Consts) (err : errcode_t) (w : World) :
    lock_out_set c err w =
      if (tunefs_set_lock_env c (lock_env_status c err w) w).1 ≠ 0 then
        ((tunefs_set_lock_env c (lock_env_status c err w) w).1,
          (tunefs_unlock_cluster c (tunefs_set_lock_env c (lock_env_status c err w) w).2).2)
      else (err, (tunefs_set_lock_env c (lock_env_status c err w) w).2) :=
  lock_out_set_eq c err w

theorem lock_start_acquires (c : Consts) (flags : Nat) (w : World)
    (hnc : flags &&& c.TUNEFS_FLAG_NOCLUSTER = 0)
    (h0 : w.oc.o2cb_init w.trace.length = 0)
    (h1 : w.oc.ocfs2_initialize_dlm (w.trace.length + 1) = 0) :
    lock_start c flags w = lock_acquire c flags (ocfs2_initialize_dlm (o2cb_init w).2).2 := by
  have e0 : (o2cb_init w).1 = 0 := h0
  have e1 : (ocfs2_initialize_dlm (o2cb_init w).2).1 = 0 := by
    simp [ocfs2_initialize_dlm, o2cb_init, World.log, h1]
  unfold lock_start
  simp only [e0, e1, hnc, ne_eq, not_true_eq_false, false_and, if_false]

/-- C14 (as amended). On a volume that is not local, entered without the lock
held, with no usable inherited lock state and without
`TUNEFS_FLAG_NOCLUSTER`, when `o2cb_init` and `ocfs2_initialize_dlm` succeed
and `ocfs2_lock_down_cluster` fails with `e`: if `e` is
`O2DLM_ET_TRYLOCK_FAILED` and `TUNEFS_FLAG_ONLINE` is set, and the `setenv`
that records the state succeeds, `tunefs_lock_cluster` returns
`TUNEFS_ET_PERFORM_ONLINE`, leaves `cluster_locked` clear and the inherited
variable at "online"; for every other failure it calls `ocfs2_shutdown_dlm`
(its last external call), leaves `cluster_locked` clear and returns `e`. -/
theorem C14_lock_attempt_fails (c : Consts) (hc : c.wf) (flags : Nat) (w : World)
    (h : ocfs2_filesys) (hfs : w.fs = some h) (hnl : h.mount_local = false)
    (hl : w.cluster_locked = false)
    (henv : no_inherited_lock c flags w)
    (hnc : flags &&& c.TUNEFS_FLAG_NOCLUSTER = 0)
    (h0 : w.oc.o2cb_init w.trace.length = 0)
    (h1 : w.oc.ocfs2_initialize_dlm (w.trace.length + 1) = 0)
    (e : errcode_t) (h2 : w.oc.ocfs2_lock_down_cluster (w.trace.length + 3) = e)
    (he : e ≠ 0) :
    ∃ r : errcode_t × World,
      tunefs_lock_cluster c flags w = some r ∧
      (e = c.O2DLM_ET_TRYLOCK_FAILED ∧ flags &&& c.TUNEFS_FLAG_ONLINE ≠ 0 →
        w.oc.setenv (w.trace.length + 5) = 0 →
        r.1 = c.TUNEFS_ET_PERFORM_ONLINE ∧ r.2.cluster_locked = false ∧
        r.2.lockenv = some TUNEFS_OCFS2_LOCK_ENV_ONLINE) ∧
      (¬ (e = c.O2DLM_ET_TRYLOCK_FAILED ∧ flags &&& c.TUNEFS_FLAG_ONLINE ≠ 0) →
        r.1 = e ∧ r.2.cluster_locked = false ∧
        calls_since w r.2 =
          [Event.o2cb_init, Event.ocfs2_initialize_dlm, Event.sigprocmask_block,
           Event.ocfs2_lock_down_cluster, Event.sigprocmask_unblock,
           Event.ocfs2_shutdown_dlm]) := by
  obtain ⟨_, hpo, _, _, _, _, _, _, _⟩ := codes_of_wf c hc
  obtain ⟨ifs, il, _, io, _, _, it, _⟩ := init_dlm_post w h hfs
  obtain ⟨dfs, dl, _, do_, _, de, dt, d1⟩ :=
    lock_down_post (ocfs2_initialize_dlm (o2cb_init w).2).2
  have hd : (ocfs2_lock_down_cluster (tunefs_block_signals
      (ocfs2_initialize_dlm (o2cb_init w).2).2)).1 = e := by
    rw [d1, io, it]
    simpa using h2
  have hlen : (tunefs_unblock_signals (ocfs2_lock_down_cluster (tunefs_block_signals
      (ocfs2_initialize_dlm (o2cb_init w).2).2)).2).trace.length = w.trace.length + 5 := by
    rw [dt, it]
    simp
  have hcl : (tunefs_unblock_signals (ocfs2_lock_down_cluster (tunefs_block_signals
      (ocfs2_initialize_dlm (o2cb_init w).2).2)).2).cluster_locked = false :=
    dl.trans (il.trans hl)
  have hoc : (tunefs_unblock_signals (ocfs2_lock_down_cluster (tunefs_block_signals
      (ocfs2_initialize_dlm (o2cb_init w).2).2)).2).oc = w.oc := do_.trans io
  have htr : (tunefs_unblock_signals (ocfs2_lock_down_cluster (tunefs_block_signals
      (ocfs2_initialize_dlm (o2cb_init w).2).2)).2).trace =
      w.trace ++ [Event.o2cb_init, Event.ocfs2_initialize_dlm, Event.sigprocmask_block,
        Event.ocfs2_lock_down_cluster, Event.sigprocmask_unblock] := by
    rw [dt, it]
    simp
  refine ⟨lock_start c flags w, lock_cluster_starts c flags w h hfs hnl henv, ?_, ?_⟩
  · intro ht hset
    rw [lock_start_acquires c flags w hnc h0 h1]
    unfold lock_acquire
    simp only [hd]
    generalize tunefs_unblock_signals (ocfs2_lock_down_cluster (tunefs_block_signals
      (ocfs2_initialize_dlm (o2cb_init w).2).2)).2 = w1 at hlen hcl hoc htr
    rw [if_neg he, if_pos ht, lock_out_set_cases]
    have hst : lock_env_status c c.TUNEFS_ET_PERFORM_ONLINE w1 =
        some TUNEFS_OCFS2_LOCK_ENV_ONLINE := by
      simp [lock_env_status, hpo]
    rw [hst]
    have hrec : (tunefs_set_lock_env c (some TUNEFS_OCFS2_LOCK_ENV_ONLINE) w1).1 = 0 := by
      simp [tunefs_set_lock_env, setenv, hoc, hlen, hset]
    rw [if_neg (not_not.mpr hrec)]
    refine ⟨rfl, ?_, ?_⟩
    · exact (set_lock_env_post c _ w1).2.1.trans hcl
    · simp [tunefs_set_lock_env, setenv, hoc, hlen, hset, World.log]
  · intro ht
    rw [lock_start_acquires c flags w hnc h0 h1]
    unfold lock_acquire
    simp only [hd]
    generalize tunefs_unblock_signals (ocfs2_lock_down_cluster (tunefs_block_signals
      (ocfs2_initialize_dlm (o2cb_init w).2).2)).2 = w1 at hlen hcl hoc htr
    rw [if_neg he, if_neg ht]
    refine ⟨rfl, ?_, ?_⟩
    · simp [ocfs2_shutdown_dlm, World.log, World.update_fs, hcl]
    · apply calls_since_append
      simp [ocfs2_shutdown_dlm, World.log, World.update_fs, htr]

/-- C14, concrete instance: `TUNEFS_FLAG_RW | TUNEFS_FLAG_ONLINE` on a
clustered volume where the lock attempt would block. -/
theorem C14_lock_attempt_fails_witness :
    ∃ r : errcode_t × World,
      tunefs_lock_cluster ocfs2_consts 3 (cluster_world none trylock_fails) = some r ∧
      r.1 = ocfs2_consts.TUNEFS_ET_PERFORM_ONLINE ∧ r.2.cluster_locked = false ∧
      r.2.lockenv = some TUNEFS_OCFS2_LOCK_ENV_ONLINE := by
  obtain ⟨r, hr, ha, _⟩ := C14_lock_attempt_fails ocfs2_consts (by decide) 3
    (cluster_world none trylock_fails) (one_slot_volume 0 false 0) rfl rfl rfl (by decide)
    (by decide) rfl rfl 3001 rfl (by decide)
  exact ⟨r, hr, ha ⟨rfl, by decide⟩ rfl⟩

/-- C14 as stated fails: when the lock attempt would block,
`TUNEFS_FLAG_ONLINE` is set and the `setenv` that records "online" fails,
`tunefs_lock_cluster` returns `TUNEFS_ET_INTERNAL_FAILURE`, not
`TUNEFS_ET_PERFORM_ONLINE`, and the inherited variable is not "online". -/
theorem C14_counterexample :
    (tunefs_lock_cluster ocfs2_consts 3 (cluster_world none trylock_setenv_fails)).map
        Prod.fst = some ocfs2_consts.TUNEFS_ET_INTERNAL_FAILURE ∧
    (tunefs_lock_cluster ocfs2_consts 3 (cluster_world none trylock_setenv_fails)).map
        (fun r => r.2.lockenv) = some none ∧
    ocfs2_consts.TUNEFS_ET_INTERNAL_FAILURE ≠ ocfs2_consts.TUNEFS_ET_PERFORM_ONLINE := by
  decide


/-! ## tunefs_lock_cluster: a failed recording step -/

theorem unlock_cluster_calls (c : Consts) (w : World) (h : ocfs2_filesys)
    (hfs : w.fs = some h) :
    calls_since w (tunefs_unlock_cluster c w).2 =
      (if w.cluster_locked = true ∧ h.fs_dlm_ctxt = true then
        [Event.sigprocmask_block, Event.ocfs2_release_cluster, Event.sigprocmask_unblock]
       else []) ++
      (if h.fs_dlm_ctxt = true then [Event.ocfs2_shutdown_dlm] else []) ++
      [Event.unsetenv] := by
  apply calls_since_append
  cases hl : w.cluster_locked <;> cases hx : h.fs_dlm_ctxt <;>
    simp [tunefs_unlock_cluster, hfs, unlock_release, unlock_shutdown, hl, hx,
      tunefs_set_lock_env, unsetenv, ocfs2_shutdown_dlm, ocfs2_release_cluster,
      tunefs_block_signals, tunefs_unblock_signals, World.log, World.update_fs]

theorem reaches_out_set_post (c : Consts) (flags : Nat) (w : World) (p : errcode_t × World)
    (hinv : lock_inv w) (hr : lock_reaches_out_set c flags w = some p) :
    tunefs_lock_cluster c flags w = some (lock_out_set c p.1 p.2) ∧
    (p.1 = 0 ∨ p.1 = c.TUNEFS_ET_INVALID_STACK_NAME ∨ p.1 = c.TUNEFS_ET_PERFORM_ONLINE) ∧
    lock_inv p.2 ∧ ∃ h, p.2.fs = some h := by
  cases hfs : w.fs with
  | none => simp [lock_reaches_out_set, hfs] at hr
  | some h =>
    unfold lock_reaches_out_set at hr
    unfold tunefs_lock_cluster
    simp only [hfs] at hr ⊢
    by_cases hml : h.mount_local = true
    · simp only [hml, not_true_eq_false, if_false, Option.some.injEq] at hr ⊢
      subst hr
      exact ⟨rfl, Or.inl rfl, hinv, h, hfs⟩
    · simp only [hml, Bool.false_eq_true, not_false_eq_true, if_true] at hr ⊢
      by_cases henv : tunefs_get_lock_env c w = 0 ∨
          (flags &&& c.TUNEFS_FLAG_ONLINE ≠ 0 ∧
            tunefs_get_lock_env c w = c.TUNEFS_ET_PERFORM_ONLINE)
      · rw [if_pos henv] at hr
        exact Option.noConfusion hr
      · rw [if_neg henv] at hr
        rw [if_neg henv]
        unfold lock_start
        by_cases h0 : (o2cb_init w).1 ≠ 0
        · rw [if_pos h0] at hr
          exact Option.noConfusion hr
        · rw [if_neg h0] at hr
          rw [if_neg h0]
          obtain ⟨ifs, il, _, _, _, _, _, i1⟩ := init_dlm_post w h hfs
          have hinv1 : lock_inv (ocfs2_initialize_dlm (o2cb_init w).2).2 := by
            intro hl1
            rw [il] at hl1
            obtain ⟨h1, hfs1, hx1⟩ := hinv hl1
            rw [hfs] at hfs1
            cases hfs1
            exact ⟨_, ifs, by simp [hx1]⟩
          by_cases ha : flags &&& c.TUNEFS_FLAG_NOCLUSTER ≠ 0 ∧
              (ocfs2_initialize_dlm (o2cb_init w).2).1 = 0
          · rw [if_pos ha] at hr
            rw [if_pos ha]
            cases hr
            exact ⟨rfl, Or.inl ha.2, hinv1, _, ifs⟩
          · rw [if_neg ha] at hr
            rw [if_neg ha]
            by_cases hb : flags &&& c.TUNEFS_FLAG_NOCLUSTER ≠ 0 ∧
                (ocfs2_initialize_dlm (o2cb_init w).2).1 = c.O2CB_ET_INVALID_STACK_NAME
            · rw [if_pos hb] at hr
              rw [if_pos hb]
              cases hr
              exact ⟨rfl, Or.inr (Or.inl rfl), hinv1, _, ifs⟩
            · rw [if_neg hb] at hr
              rw [if_neg hb]
              by_cases hi : (ocfs2_initialize_dlm (o2cb_init w).2).1 ≠ 0
              · rw [if_pos hi] at hr
                exact Option.noConfusion hr
              · rw [if_neg hi] at hr
                rw [if_neg hi]
                unfold lock_acquire
                obtain ⟨dfs, _, _, _, _, _, _, _⟩ :=
                  lock_down_post (ocfs2_initialize_dlm (o2cb_init w).2).2
                have hctx : ∃ h1, (tunefs_unblock_signals (ocfs2_lock_down_cluster
                    (tunefs_block_signals (ocfs2_initialize_dlm (o2cb_init w).2).2)).2).fs =
                    some h1 ∧ h1.fs_dlm_ctxt = true := by
                  refine ⟨_, dfs.trans ifs, ?_⟩
                  rw [← i1]
                  simp [not_not.mp hi]
                by_cases hd : (ocfs2_lock_down_cluster (tunefs_block_signals
                    (ocfs2_initialize_dlm (o2cb_init w).2).2)).1 = 0
                · simp only [hd, if_true, Option.some.injEq] at hr ⊢
                  subst hr
                  obtain ⟨h1, hfs1, hx1⟩ := hctx
                  exact ⟨rfl, Or.inl rfl, fun _ => ⟨h1, hfs1, hx1⟩, h1, hfs1⟩
                · simp only [hd, if_false] at hr ⊢
                  by_cases ht : (ocfs2_lock_down_cluster (tunefs_block_signals
                      (ocfs2_initialize_dlm (o2cb_init w).2).2)).1 =
                        c.O2DLM_ET_TRYLOCK_FAILED ∧ flags &&& c.TUNEFS_FLAG_ONLINE ≠ 0
                  · rw [if_pos ht] at hr
                    rw [if_pos ht]
                    cases hr
                    obtain ⟨h1, hfs1, hx1⟩ := hctx
                    exact ⟨rfl, Or.inr (Or.inr rfl), fun _ => ⟨h1, hfs1, hx1⟩, h1, hfs1⟩
                  · rw [if_neg ht] at hr
                    exact Option.noConfusion hr

/-- C18. For every `tunefs_lock_cluster` call, entered in a state where
`cluster_locked` is only set while `fs` has a lock context, that reaches the
label `out_set` with status `p.1` in state `p.2` and whose `setenv`/`unsetenv`
there fails: the call returns `TUNEFS_ET_INTERNAL_FAILURE`, which is neither 0
nor the status `p.1` before recording; on return `cluster_locked` is clear,
`ocfs2_release_cluster` has been called if the lock was held at `out_set`, and
`ocfs2_shutdown_dlm` has been called if the handle had a lock context. -/
theorem C18_recording_failure (c : Consts) (hc : c.wf) (flags : Nat) (w : World)
    (hinv : lock_inv w) (p : errcode_t × World)
    (hr : lock_reaches_out_set c flags w = some p)
    (hf : recording_fails c p.1 p.2) :
    ∃ r : errcode_t × World,
      tunefs_lock_cluster c flags w = some r ∧
      r.1 = c.TUNEFS_ET_INTERNAL_FAILURE ∧ r.1 ≠ 0 ∧ r.1 ≠ p.1 ∧
      r.2.cluster_locked = false ∧
      (p.2.cluster_locked = true → Event.ocfs2_release_cluster ∈ calls_since p.2 r.2) ∧
      ((∃ h, p.2.fs = some h ∧ h.fs_dlm_ctxt = true) →
        Event.ocfs2_shutdown_dlm ∈ calls_since p.2 r.2) := by
  obtain ⟨hlc, hp1, hinvp, hp, hfsp⟩ := reaches_out_set_post c flags w p hinv hr
  obtain ⟨_, _, hi0, ⟨_, hii, hio⟩, _⟩ := codes_of_wf c hc
  obtain ⟨sfs, sl, _, _, _, st⟩ := set_lock_env_post c (lock_env_status c p.1 p.2) p.2
  have hcode : (tunefs_set_lock_env c (lock_env_status c p.1 p.2) p.2).1 =
      c.TUNEFS_ET_INTERNAL_FAILURE := by
    rcases set_lock_env_fst c (lock_env_status c p.1 p.2) p.2 with h0 | ⟨_, h1⟩
    · exact absurd h0 hf
    · exact h1
  have hinv2 : lock_inv (tunefs_set_lock_env c (lock_env_status c p.1 p.2) p.2).2 := by
    intro hl2
    rw [sl] at hl2
    rw [sfs]
    exact hinvp hl2
  have hfs2 : (tunefs_set_lock_env c (lock_env_status c p.1 p.2) p.2).2.fs = some hp :=
    sfs.trans hfsp
  have hcalls := unlock_cluster_calls c
    (tunefs_set_lock_env c (lock_env_status c p.1 p.2) p.2).2 hp hfs2
  have hpre : (tunefs_set_lock_env c (lock_env_status c p.1 p.2) p.2).2.trace <+:
      (tunefs_unlock_cluster c
        (tunefs_set_lock_env c (lock_env_status c p.1 p.2) p.2).2).2.trace :=
    (unlock_cluster_frame c _).2.2.2.2.1
  have hsplit := calls_since_trans p.2
    (tunefs_set_lock_env c (lock_env_status c p.1 p.2) p.2).2
    (tunefs_unlock_cluster c (tunefs_set_lock_env c (lock_env_status c p.1 p.2) p.2).2).2
    ⟨_, st.symm⟩ hpre
  have hf1 : (tunefs_set_lock_env c (lock_env_status c p.1 p.2) p.2).1 ≠ 0 := hf
  refine ⟨lock_out_set c p.1 p.2, hlc, ?_, ?_, ?_, ?_, ?_, ?_⟩
  all_goals rw [lock_out_set_cases, if_pos hf1]
  · exact hcode
  · exact hf
  · show (tunefs_set_lock_env c (lock_env_status c p.1 p.2) p.2).1 ≠ p.1
    rw [hcode]
    rcases hp1 with h | h | h
    · rw [h]
      exact hi0
    · rw [h]
      exact hii
    · rw [h]
      exact hio
  · exact unlock_cluster_clears c _ hinv2
  · intro hl
    obtain ⟨h1, hfs1, hx1⟩ := hinvp hl
    rw [hfsp] at hfs1
    cases hfs1
    show Event.ocfs2_release_cluster ∈ calls_since p.2 (tunefs_unlock_cluster c
      (tunefs_set_lock_env c (lock_env_status c p.1 p.2) p.2).2).2
    rw [hsplit, hcalls, sl, hl, hx1]
    simp
  · rintro ⟨h1, hfs1, hx1⟩
    rw [hfsp] at hfs1
    cases hfs1
    show Event.ocfs2_shutdown_dlm ∈ calls_since p.2 (tunefs_unlock_cluster c
      (tunefs_set_lock_env c (lock_env_status c p.1 p.2) p.2).2).2
    rw [hsplit, hcalls, hx1]
    simp

/-- C18, concrete instance: on a clustered volume the lock is taken and the
`setenv` that records "locked" fails. -/
theorem C18_recording_failure_witness :
    ∃ r : errcode_t × World,
      tunefs_lock_cluster ocfs2_consts 1 (cluster_world none setenv_fails) = some r ∧
      r.1 = ocfs2_consts.TUNEFS_ET_INTERNAL_FAILURE ∧ r.2.cluster_locked = false ∧
      Event.ocfs2_release_cluster ∈ r.2.trace ∧ Event.ocfs2_shutdown_dlm ∈ r.2.trace := by
  obtain ⟨r, hr, h1, _, _, h2, h3, h4⟩ := C18_recording_failure ocfs2_consts (by decide) 1
    (cluster_world none setenv_fails) (lock_inv_of_unlocked _ rfl)
    (0, { tunefs_unblock_signals (ocfs2_lock_down_cluster (tunefs_block_signals
      (ocfs2_initialize_dlm (o2cb_init (cluster_world none setenv_fails)).2).2)).2 with
      cluster_locked := true }) rfl (by decide)
  refine ⟨r, hr, h1, h2, ?_, ?_⟩
  · exact List.mem_of_mem_drop (h3 rfl)
  · exact List.mem_of_mem_drop (h4 ⟨_, rfl, rfl⟩)

/-- C18 as stated fails: on a local volume entered with `cluster_locked` set
although the handle has no lock context, `tunefs_lock_cluster` reaches the
recording step with status 0, the `setenv` of "locked" fails, the call
returns `TUNEFS_ET_INTERNAL_FAILURE`, and `cluster_locked` is still set on
return: `tunefs_unlock_cluster` releases only when `fs_dlm_ctxt` is set, and
calls neither `ocfs2_release_cluster` nor `ocfs2_shutdown_dlm`. -/
theorem C18_counterexample :
    lock_reaches_out_set ocfs2_consts 1 (local_world true setenv_fails) =
      some (0, local_world true setenv_fails) ∧
    recording_fails ocfs2_consts 0 (local_world true setenv_fails) ∧
    (tunefs_lock_cluster ocfs2_consts 1 (local_world true setenv_fails)).map Prod.fst =
      some ocfs2_consts.TUNEFS_ET_INTERNAL_FAILURE ∧
    (tunefs_lock_cluster ocfs2_consts 1 (local_world true setenv_fails)).map
      (fun r => r.2.cluster_locked) = some true ∧
    (tunefs_lock_cluster ocfs2_consts 1 (local_world true setenv_fails)).map
      (fun r => r.2.trace) = some [Event.setenv "locked", Event.unsetenv] := by
  refine ⟨rfl, by decide, by decide, by decide, by decide⟩

/-! ## tunefs_open without a cluster stack -/

theorem make_journal_keeps (slot blkno T : Nat) (h : ocfs2_filesys) (w : World) (j : Nat)
    (hne : T ≠ (h.read_inode blkno).2.i_clusters) (hj : slot_at h T j) :
    slot_at (ocfs2_make_journal slot blkno T h w).2.1 T j := by
  obtain ⟨j1, j2, j3⟩ := hj
  unfold journal_inode at j3
  have hb : (h.lookup_journal j).2 ≠ blkno := by
    intro hb
    rw [hb] at j3
    exact hne j3.symm
  simp [slot_at, journal_inode, ocfs2_make_journal, j1, j2, j3, hb]

theorem make_journal_sets (slot blkno T : Nat) (h : ocfs2_filesys) (w : World) (j : Nat)
    (hok : (ocfs2_make_journal slot blkno T h w).1 = 0) (hlk : (h.lookup_journal j).1 = 0)
    (hrd : (h.read_inode (h.lookup_journal j).2).1 = 0)
    (hj : (h.lookup_journal j).2 = blkno ∨ slot_at h T j) :
    slot_at (ocfs2_make_journal slot blkno T h w).2.1 T j := by
  have hok1 : (w.oc.ocfs2_make_journal w.trace.length).1 = 0 := hok
  by_cases hb : (h.lookup_journal j).2 = blkno
  · rw [hb] at hrd
    simp [slot_at, journal_inode, ocfs2_make_journal, hlk, hrd, hb, hok1]
  · rcases hj with hj | hj
    · exact absurd hj hb
    · obtain ⟨j1, j2, j3⟩ := hj
      unfold journal_inode at j3
      simp [slot_at, journal_inode, ocfs2_make_journal, j1, j2, j3, hb]

/-- What one iteration of the loop of `tunefs_set_journal_size` does. -/
theorem journal_size_body_post (T i : Nat) (h : ocfs2_filesys) (w : World) :
    (journal_size_body T i h w).2.1.lookup_journal = h.lookup_journal ∧
    (journal_size_body T i h w).2.1.fs_super = h.fs_super ∧
    (journal_size_body T i h w).2.2.journal_clusters = w.journal_clusters ∧
    (journal_size_body T i h w).2.2.oc = w.oc ∧
    (∀ j, slot_at h T j → slot_at (journal_size_body T i h w).2.1 T j) ∧
    ((journal_size_body T i h w).1 = 0 → slot_at (journal_size_body T i h w).2.1 T i) ∧
    (∃ t, (journal_size_body T i h w).2.2.trace = w.trace ++ t ∧
      t.filterMap Event.lookup_slot = [i] ∧
      (t.filterMap Event.make_journal_slot).Sublist [i] ∧
      (slot_at h T i → ∀ e ∈ t, e.is_make_journal = false)) ∧
    (slot_at h T i →
      (journal_size_body T i h w).1 = 0 ∧ (journal_size_body T i h w).2.1 = h) ∧
    ((journal_size_body T i h w).1 = (h.lookup_journal i).1 ∨
      (journal_size_body T i h w).1 = (h.read_inode (h.lookup_journal i).2).1 ∨
      (journal_size_body T i h w).1 =
        (w.oc.ocfs2_make_journal (w.trace.length + 2)).1 ∧
        Event.ocfs2_make_journal i (h.lookup_journal i).2 T ∈
          calls_since w (journal_size_body T i h w).2.2) := by
  unfold journal_size_body
  simp only
  by_cases hlk : (h.lookup_journal i).1 ≠ 0
  · rw [if_pos hlk]
    refine ⟨rfl, rfl, rfl, rfl, fun _ hj => hj, fun h0 => absurd h0 hlk,
      ⟨[Event.ocfs2_lookup i], rfl, rfl, by simp [Event.make_journal_slot],
        fun hs => absurd hs.1 hlk⟩,
      fun hs => absurd hs.1 hlk, Or.inl rfl⟩
  · rw [if_neg hlk]
    by_cases hrd : (h.read_inode (h.lookup_journal i).2).1 ≠ 0
    · rw [if_pos hrd]
      refine ⟨rfl, rfl, rfl, rfl, fun _ hj => hj, fun h0 => absurd h0 hrd,
        ⟨[Event.ocfs2_lookup i, Event.ocfs2_read_inode (h.lookup_journal i).2], ?_, rfl,
          by simp [Event.make_journal_slot], fun hs => absurd hs.2.1 hrd⟩,
        fun hs => absurd hs.2.1 hrd, Or.inr (Or.inl rfl)⟩
      simp [World.log]
    · rw [if_neg hrd]
      by_cases ht : T = (h.read_inode (h.lookup_journal i).2).2.i_clusters
      · rw [if_pos ht]
        refine ⟨rfl, rfl, rfl, rfl, fun _ hj => hj,
          fun _ => ⟨not_not.mp hlk, not_not.mp hrd, ht.symm⟩,
          ⟨[Event.ocfs2_lookup i, Event.ocfs2_read_inode (h.lookup_journal i).2], ?_, rfl,
            by simp [Event.make_journal_slot], ?_⟩,
          fun _ => ⟨not_not.mp hrd, rfl⟩, Or.inr (Or.inl rfl)⟩
        · simp [World.log]
        · intro _ e he
          simp at he
          rcases he with he | he <;> subst he <;> rfl
      · rw [if_neg ht]
        refine ⟨rfl, rfl, rfl, rfl,
          fun j hj => make_journal_keeps i _ T h _ j ht hj,
          fun h0 => make_journal_sets i _ T h _ i h0 (not_not.mp hlk) (not_not.mp hrd)
            (Or.inl rfl),
          ⟨[Event.ocfs2_lookup i, Event.ocfs2_read_inode (h.lookup_journal i).2,
            Event.ocfs2_make_journal i (h.lookup_journal i).2 T], ?_, rfl,
            by simp [Event.make_journal_slot], fun hs => absurd hs.2.2.symm ht⟩,
          fun hs => absurd hs.2.2.symm ht, Or.inr (Or.inr ⟨?_, ?_⟩)⟩
        · simp [ocfs2_make_journal, World.log]
        · simp [ocfs2_make_journal, World.log]
        · simp [ocfs2_make_journal, World.log, calls_since]

theorem journal_size_loop_succ (T n i : Nat) (ret : errcode_t) (h : ocfs2_filesys)
    (w : World) :
    journal_size_loop T (n + 1) i ret h w =
      if (journal_size_body T i h w).1 ≠ 0 then journal_size_body T i h w
      else journal_size_loop T n (i + 1) (journal_size_body T i h w).1
        (journal_size_body T i h w).2.1 (journal_size_body T i h w).2.2 := rfl

/-- Running the loop over `a + b` slots is running it over `a` slots and, when
that succeeds, over the next `b`. -/
theorem journal_size_loop_split (T b : Nat) (a : Nat) :
    ∀ (i : Nat) (ret : errcode_t) (h : ocfs2_filesys) (w : World),
      (journal_size_loop T a i ret h w).1 = 0 →
      journal_size_loop T (a + b) i ret h w =
        journal_size_loop T b (i + a) 0 (journal_size_loop T a i ret h w).2.1
          (journal_size_loop T a i ret h w).2.2 := by
  induction a with
  | zero =>
    intro i ret h w h0
    have hr : ret = 0 := h0
    subst hr
    simp [journal_size_loop]
  | succ a ih =>
    intro i ret h w h0
    rw [journal_size_loop_succ] at h0
    have e1 : a + 1 + b = (a + b) + 1 := by omega
    rw [e1, journal_size_loop_succ, journal_size_loop_succ]
    by_cases hb : (journal_size_body T i h w).1 ≠ 0
    · rw [if_pos hb] at h0
      exact absurd h0 hb
    · rw [if_neg hb] at h0
      rw [if_neg hb, if_neg hb, ih _ _ _ _ h0]
      have e2 : i + 1 + a = i + (a + 1) := by omega
      rw [e2]

/-- What the loop of `tunefs_set_journal_size` does. -/
theorem journal_size_loop_post (T : Nat) (n : Nat) :
    ∀ (i : Nat) (ret : errcode_t) (h : ocfs2_filesys) (w : World),
      (journal_size_loop T n i ret h w).2.1.lookup_journal = h.lookup_journal ∧
      (journal_size_loop T n i ret h w).2.1.fs_super = h.fs_super ∧
      (journal_size_loop T n i ret h w).2.2.journal_clusters = w.journal_clusters ∧
      (journal_size_loop T n i ret h w).2.2.oc = w.oc ∧
      (∀ j, slot_at h T j → slot_at (journal_size_loop T n i ret h w).2.1 T j) ∧
      ((journal_size_loop T n i ret h w).1 = 0 →
        ∀ j, i ≤ j → j < i + n → slot_at (journal_size_loop T n i ret h w).2.1 T j) ∧
      ∃ t, (journal_size_loop T n i ret h w).2.2.trace = w.trace ++ t ∧
        ((journal_size_loop T n i ret h w).1 = 0 →
          t.filterMap Event.lookup_slot = List.range' i n ∧
          (t.filterMap Event.make_journal_slot).Sublist (List.range' i n)) := by
  induction n with
  | zero =>
    intro i ret h w
    refine ⟨rfl, rfl, rfl, rfl, fun _ hj => hj, fun _ j h1 h2 => ?_, [], ?_, fun _ => ?_⟩
    · omega
    · simp [journal_size_loop]
    · simp
  | succ n ih =>
    intro i ret h w
    obtain ⟨b1, b2, b3, b4, b5, b6, ⟨tb, b7, b8, b9, _⟩, _, _⟩ := journal_size_body_post T i h w
    rw [journal_size_loop_succ]
    by_cases hb : (journal_size_body T i h w).1 ≠ 0
    · rw [if_pos hb]
      exact ⟨b1, b2, b3, b4, b5, fun h0 => absurd h0 hb, tb, b7, fun h0 => absurd h0 hb⟩
    · rw [if_neg hb]
      obtain ⟨l1, l2, l3, l4, l5, l6, ⟨tl, l7, l8⟩⟩ := ih (i + 1) (journal_size_body T i h w).1
        (journal_size_body T i h w).2.1 (journal_size_body T i h w).2.2
      refine ⟨l1.trans b1, l2.trans b2, l3.trans b3, l4.trans b4, fun j hj => l5 j (b5 j hj),
        fun h0 j h1 h2 => ?_, tb ++ tl, ?_, fun h0 => ?_⟩
      · by_cases hji : j = i
        · subst hji
          exact l5 j (b6 (not_not.mp hb))
        · exact l6 h0 j (by omega) (by omega)
      · rw [l7, b7, List.append_assoc]
      · obtain ⟨l8a, l8b⟩ := l8 h0
        rw [List.filterMap_append, List.filterMap_append, b8, l8a]
        refine ⟨rfl, ?_⟩
        exact List.Sublist.append b9 l8b

/-- On slots that are already at the target the loop calls no
`ocfs2_make_journal` and leaves the handle as it is. -/
theorem journal_size_loop_settled (T : Nat) (n : Nat) :
    ∀ (i : Nat) (ret : errcode_t) (h : ocfs2_filesys) (w : World),
      (∀ j, i ≤ j → j < i + n → slot_at h T j) →
      (journal_size_loop T n i ret h w).1 = (if n = 0 then ret else 0) ∧
      (journal_size_loop T n i ret h w).2.1 = h ∧
      ∃ t, (journal_size_loop T n i ret h w).2.2.trace = w.trace ++ t ∧
        ∀ e ∈ t, e.is_make_journal = false := by
  induction n with
  | zero =>
    intro i ret h w _
    exact ⟨rfl, rfl, [], by simp [journal_size_loop], by simp⟩
  | succ n ih =>
    intro i ret h w hall
    obtain ⟨_, _, _, _, _, _, ⟨tb, b7, _, _, b10⟩, b11, _⟩ := journal_size_body_post T i h w
    obtain ⟨hb0, hbh⟩ := b11 (hall i (le_refl _) (by omega))
    have hmk := b10 (hall i (le_refl _) (by omega))
    rw [journal_size_loop_succ, if_neg (not_not.mpr hb0)]
    obtain ⟨l1, l2, tl, l3, l4⟩ := ih (i + 1) (journal_size_body T i h w).1
      (journal_size_body T i h w).2.1 (journal_size_body T i h w).2.2
      (by rw [hbh]; exact fun j h1 h2 => hall j (by omega) (by omega))
    refine ⟨?_, l2.trans hbh, tb ++ tl, ?_, ?_⟩
    · rw [l1, hb0]
      simp
    · rw [l3, b7, List.append_assoc]
    · intro e he
      rcases List.mem_append.mp he with he | he
      · exact hmk e he
      · exact l4 e he

theorem journal_target_congr (clusters_of : Nat → Nat) (new_size : Nat) (w1 w : World)
    (hj : w1.journal_clusters = w.journal_clusters) :
    journal_target clusters_of new_size w1 = journal_target clusters_of new_size w := by
  unfold journal_target
  rw [hj]

/-- C11 (as amended). If `tunefs_set_journal_size(fs, new_size)` returns 0, an
immediately following call with the same `new_size` (0 included) makes no
call of `ocfs2_make_journal`, leaves the handle as it is, and returns the
result of its own `ocfs2_malloc_block`: 0 when that allocation succeeds. -/
theorem C11_second_call_settled (clusters_of : Nat → Nat) (h : ocfs2_filesys)
    (new_size : Nat) (w : World)
    (h1 : (tunefs_set_journal_size clusters_of h new_size w).1 = 0) :
    (∀ e ∈ calls_since (tunefs_set_journal_size clusters_of h new_size w).2.2
        (tunefs_set_journal_size clusters_of
          (tunefs_set_journal_size clusters_of h new_size w).2.1 new_size
          (tunefs_set_journal_size clusters_of h new_size w).2.2).2.2,
      e.is_make_journal = false) ∧
    (tunefs_set_journal_size clusters_of
      (tunefs_set_journal_size clusters_of h new_size w).2.1 new_size
      (tunefs_set_journal_size clusters_of h new_size w).2.2).2.1 =
      (tunefs_set_journal_size clusters_of h new_size w).2.1 ∧
    (tunefs_set_journal_size clusters_of
      (tunefs_set_journal_size clusters_of h new_size w).2.1 new_size
      (tunefs_set_journal_size clusters_of h new_size w).2.2).1 =
      (tunefs_set_journal_size clusters_of h new_size w).2.2.oc.ocfs2_malloc_block
        (tunefs_set_journal_size clusters_of h new_size w).2.2.trace.length := by
  have hsettled : ∃ h1 w1,
      tunefs_set_journal_size clusters_of h new_size w = (0, h1, w1) ∧
      journal_target clusters_of new_size w1 = journal_target clusters_of new_size w ∧
      ∀ j, j < h1.fs_super.s_max_slots →
        slot_at h1 (journal_target clusters_of new_size w) j := by
    unfold tunefs_set_journal_size at h1 ⊢
    simp only at h1 ⊢
    by_cases hm : w.oc.ocfs2_malloc_block w.trace.length ≠ 0
    · rw [if_pos hm] at h1
      exact absurd h1 hm
    · rw [if_neg hm] at h1 ⊢
      obtain ⟨_, l2, l3, _, _, l6, _⟩ := journal_size_loop_post
        (journal_target clusters_of new_size w) h.fs_super.s_max_slots 0
        (w.oc.ocfs2_malloc_block w.trace.length) h (w.log Event.ocfs2_malloc_block)
      refine ⟨_, _, Prod.ext h1 rfl, ?_, ?_⟩
      · exact journal_target_congr clusters_of new_size _ w l3
      · intro j hj
        rw [l2] at hj
        exact l6 h1 j (Nat.zero_le _) (by omega)
  obtain ⟨h1', w1', heq, htar, hall⟩ := hsettled
  rw [heq]
  show (∀ e ∈ calls_since w1' (tunefs_set_journal_size clusters_of h1' new_size w1').2.2,
      e.is_make_journal = false) ∧
    (tunefs_set_journal_size clusters_of h1' new_size w1').2.1 = h1' ∧
    (tunefs_set_journal_size clusters_of h1' new_size w1').1 =
      w1'.oc.ocfs2_malloc_block w1'.trace.length
  unfold tunefs_set_journal_size
  simp only
  by_cases hm : w1'.oc.ocfs2_malloc_block w1'.trace.length ≠ 0
  · rw [if_pos hm]
    refine ⟨?_, rfl, rfl⟩
    intro e he
    simp [calls_since, World.log] at he
    subst he
    rfl
  · rw [if_neg hm, htar]
    obtain ⟨s1, s2, t, s3, s4⟩ := journal_size_loop_settled
      (journal_target clusters_of new_size w) h1'.fs_super.s_max_slots 0
      (w1'.oc.ocfs2_malloc_block w1'.trace.length) h1' (w1'.log Event.ocfs2_malloc_block)
      (fun j _ hj => hall j (by omega))
    refine ⟨?_, s2, ?_⟩
    · intro e he
      rw [calls_since_append w1' _ ([Event.ocfs2_malloc_block] ++ t ++ [Event.ocfs2_free])
        (by
          show (journal_size_loop _ _ _ _ _ _).2.2.trace ++ [Event.ocfs2_free] = _
          rw [s3]
          simp [World.log])] at he
      simp only [List.mem_append, List.mem_singleton] at he
      rcases he with (he | he) | he
      · subst he
        rfl
      · exact s4 e he
      · subst he
        rfl
    · show (journal_size_loop _ _ _ _ _ _).1 = _
      rw [s1, not_not.mp hm]
      simp

/-- C11, concrete instance: a one-slot volume whose journal of 4 clusters is
resized to 8 by the first call. -/
theorem C11_second_call_settled_witness :
    (tunefs_set_journal_size (fun b => b) (one_slot_volume 0 false 0) 8
      (cluster_world none all_succeed)).1 = 0 ∧
    (tunefs_set_journal_size (fun b => b)
      (tunefs_set_journal_size (fun b => b) (one_slot_volume 0 false 0) 8
        (cluster_world none all_succeed)).2.1 8
      (tunefs_set_journal_size (fun b => b) (one_slot_volume 0 false 0) 8
        (cluster_world none all_succeed)).2.2).1 =
      (tunefs_set_journal_size (fun b => b) (one_slot_volume 0 false 0) 8
        (cluster_world none all_succeed)).2.2.oc.ocfs2_malloc_block
        (tunefs_set_journal_size (fun b => b) (one_slot_volume 0 false 0) 8
          (cluster_world none all_succeed)).2.2.trace.length :=
  ⟨by decide, (C11_second_call_settled (fun b => b) (one_slot_volume 0 false 0) 8
    (cluster_world none all_succeed) (by decide)).2.2⟩

/-- C11 as stated fails: the first call resizes the journal and returns 0, the
second call with the same size returns the error of its failed
`ocfs2_malloc_block`, not 0. -/
theorem C11_counterexample :
    (tunefs_set_journal_size (fun b => b) (one_slot_volume 0 false 0) 8
      (cluster_world none second_malloc_fails)).1 = 0 ∧
    (tunefs_set_journal_size (fun b => b)
      (tunefs_set_journal_size (fun b => b) (one_slot_volume 0 false 0) 8
        (cluster_world none second_malloc_fails)).2.1 8
      (tunefs_set_journal_size (fun b => b) (one_slot_volume 0 false 0) 8
        (cluster_world none second_malloc_fails)).2.2).1 = 12 := by
  decide

/-- C17. If `tunefs_set_journal_size(fs, new_size)` first fails at slot `k`, it
returns the error of the step of slot `k` that failed (the lookup, the read or
the `ocfs2_make_journal`); on return every slot before `k` is found, readable
and has the target `i_clusters`; the slots looked up are 0..k, each once and
in order; and the slots for which `ocfs2_make_journal` was called form a
sublist of 0..k, so none comes after `k` and none is tried twice. The target
is the cluster count of `new_size` as a `uint32_t`, or `journal_clusters`
when that is 0. -/
theorem C17_first_failure (clusters_of : Nat → Nat) (h : ocfs2_filesys) (new_size : Nat)
    (w : World) (k : Nat) (hf : first_fails_at clusters_of h new_size w k) :
    (tunefs_set_journal_size clusters_of h new_size w).1 =
      (journal_size_at clusters_of h new_size w k).1 ∧
    ((journal_size_at clusters_of h new_size w k).1 =
        ((journal_size_before clusters_of h new_size w k).2.1.lookup_journal k).1 ∨
      (journal_size_at clusters_of h new_size w k).1 =
        ((journal_size_before clusters_of h new_size w k).2.1.read_inode
          ((journal_size_before clusters_of h new_size w k).2.1.lookup_journal k).2).1 ∨
      (journal_size_at clusters_of h new_size w k).1 =
        ((journal_size_before clusters_of h new_size w k).2.2.oc.ocfs2_make_journal
          ((journal_size_before clusters_of h new_size w k).2.2.trace.length + 2)).1 ∧
      Event.ocfs2_make_journal k
        ((journal_size_before clusters_of h new_size w k).2.1.lookup_journal k).2
        (journal_target clusters_of new_size w) ∈
          calls_since w (tunefs_set_journal_size clusters_of h new_size w).2.2) ∧
    (∀ i, i < k →
      slot_at (tunefs_set_journal_size clusters_of h new_size w).2.1
        (journal_target clusters_of new_size w) i) ∧
    (calls_since w (tunefs_set_journal_size clusters_of h new_size w).2.2).filterMap
      Event.lookup_slot = List.range (k + 1) ∧
    ((calls_since w (tunefs_set_journal_size clusters_of h new_size w).2.2).filterMap
      Event.make_journal_slot).Sublist (List.range (k + 1)) ∧
    journal_target clusters_of new_size w =
      (if clusters_of new_size % 2 ^ 32 = 0 then w.journal_clusters
       else clusters_of new_size % 2 ^ 32) := by
  obtain ⟨hmalloc, hk, hok, hfail⟩ := hf
  unfold journal_size_at at hfail ⊢
  unfold journal_size_before at hok hfail ⊢
  obtain ⟨_, _, _, _, _, l6, ts, l7, l8⟩ := journal_size_loop_post
    (journal_target clusters_of new_size w) k 0 0 h (w.log Event.ocfs2_malloc_block)
  obtain ⟨l8a, l8b⟩ := l8 hok
  obtain ⟨_, _, _, _, b5, _, ⟨tb, b7, b8, b9, _⟩, _, b12⟩ := journal_size_body_post
    (journal_target clusters_of new_size w) k
    (journal_size_loop (journal_target clusters_of new_size w) k 0 0 h
      (w.log Event.ocfs2_malloc_block)).2.1
    (journal_size_loop (journal_target clusters_of new_size w) k 0 0 h
      (w.log Event.ocfs2_malloc_block)).2.2
  have hmax : h.fs_super.s_max_slots = k + ((h.fs_super.s_max_slots - k - 1) + 1) := by omega
  have hrun : tunefs_set_journal_size clusters_of h new_size w =
      ((journal_size_body (journal_target clusters_of new_size w) k
        (journal_size_loop (journal_target clusters_of new_size w) k 0 0 h
          (w.log Event.ocfs2_malloc_block)).2.1
        (journal_size_loop (journal_target clusters_of new_size w) k 0 0 h
          (w.log Event.ocfs2_malloc_block)).2.2).1,
       (journal_size_body (journal_target clusters_of new_size w) k
        (journal_size_loop (journal_target clusters_of new_size w) k 0 0 h
          (w.log Event.ocfs2_malloc_block)).2.1
        (journal_size_loop (journal_target clusters_of new_size w) k 0 0 h
          (w.log Event.ocfs2_malloc_block)).2.2).2.1,
       (journal_size_body (journal_target clusters_of new_size w) k
        (journal_size_loop (journal_target clusters_of new_size w) k 0 0 h
          (w.log Event.ocfs2_malloc_block)).2.1
        (journal_size_loop (journal_target clusters_of new_size w) k 0 0 h
          (w.log Event.ocfs2_malloc_block)).2.2).2.2.log Event.ocfs2_free) := by
    unfold tunefs_set_journal_size
    simp only [hmalloc, ne_eq, not_true_eq_false, if_false]
    rw [hmax, journal_size_loop_split _ _ _ _ _ _ _ hok, journal_size_loop_succ,
      Nat.zero_add, if_pos hfail]
  have htrace : (tunefs_set_journal_size clusters_of h new_size w).2.2.trace =
      w.trace ++ ([Event.ocfs2_malloc_block] ++ ts ++ tb ++ [Event.ocfs2_free]) := by
    rw [hrun]
    show (journal_size_body _ _ _ _).2.2.trace ++ [Event.ocfs2_free] = _
    rw [b7, l7]
    simp [World.log]
  have hcalls := calls_since_append w _ _ htrace
  refine ⟨?_, ?_, ?_, ?_, ?_, rfl⟩
  · rw [hrun]
  · rcases b12 with e1 | e2 | ⟨e3, hmem⟩
    · exact Or.inl e1
    · exact Or.inr (Or.inl e2)
    · refine Or.inr (Or.inr ⟨e3, ?_⟩)
      rw [hcalls]
      rw [calls_since_append _ _ _ b7] at hmem
      simp only [List.mem_append]
      exact Or.inl (Or.inr hmem)
  · intro i hi
    rw [hrun]
    exact b5 i (l6 hok i (Nat.zero_le _) (by omega))
  · rw [hcalls]
    simp only [List.filterMap_append, l8a, b8]
    simp [Event.lookup_slot, List.range_succ, List.range_eq_range']
  · rw [hcalls]
    simp only [List.filterMap_append]
    have e0 : List.filterMap Event.make_journal_slot [Event.ocfs2_malloc_block] = [] := rfl
    have e1 : List.filterMap Event.make_journal_slot [Event.ocfs2_free] = [] := rfl
    rw [e0, e1, List.nil_append, List.append_nil, List.range_succ, List.range_eq_range']
    exact List.Sublist.append l8b b9

/-- C17, concrete instance: on a three-slot volume resized from 4 to 8
clusters, the `ocfs2_make_journal` of slot 1 fails with 28: the call returns
28, slot 0 has 8 clusters, and the slots looked up are 0 and 1. -/
theorem C17_first_failure_witness :
    first_fails_at (fun b => b) three_slot_volume 8 (three_slot_world second_resize_fails) 1 ∧
    (tunefs_set_journal_size (fun b => b) three_slot_volume 8
      (three_slot_world second_resize_fails)).1 = 28 ∧
    (∀ i, i < 1 →
      slot_at (tunefs_set_journal_size (fun b => b) three_slot_volume 8
        (three_slot_world second_resize_fails)).2.1
        (journal_target (fun b => b) 8 (three_slot_world second_resize_fails)) i) ∧
    (calls_since (three_slot_world second_resize_fails)
      (tunefs_set_journal_size (fun b => b) three_slot_volume 8
        (three_slot_world second_resize_fails)).2.2).filterMap Event.lookup_slot =
      List.range (1 + 1) :=
  ⟨by decide,
   (C17_first_failure (fun b => b) three_slot_volume 8 (three_slot_world second_resize_fails) 1
      (by decide)).1.trans (by decide),
   (C17_first_failure (fun b => b) three_slot_volume 8 (three_slot_world second_resize_fails) 1
      (by decide)).2.2.1,
   (C17_first_failure (fun b => b) three_slot_volume 8 (three_slot_world second_resize_fails) 1
      (by decide)).2.2.2.1⟩


/-! ## What tunefs_open leaves behind -/

theorem calls_since_all_trans (P : Event → Prop) (w a b : World)
    (h1 : w.trace <+: a.trace) (h2 : a.trace <+: b.trace)
    (n1 : ∀ e ∈ calls_since w a, P e) (n2 : ∀ e ∈ calls_since a b, P e) :
    ∀ e ∈ calls_since w b, P e := by
  intro e he
  rw [calls_since_trans w a b h1 h2] at he
  rcases List.mem_append.mp he with he | he
  · exact n1 e he
  · exact n2 e he

theorem mem_calls_since_mid (w a b w1 : World) (e : Event) (h1 : w.trace <+: a.trace)
    (h2 : a.trace <+: b.trace) (h3 : b.trace <+: w1.trace) (he : e ∈ calls_since a b) :
    e ∈ calls_since w w1 := by
  rw [calls_since_trans w b w1 (h1.trans h2) h3, calls_since_trans w a b h1 h2]
  exact List.mem_append_left _ (List.mem_append_right _ he)

theorem unlock_cluster_no_close (c : Consts) (w : World) :
    ∀ e ∈ calls_since w (tunefs_unlock_cluster c w).2, e ≠ Event.ocfs2_close := by
  intro e he hc
  subst hc
  revert he
  cases hfs : w.fs with
  | none => simp [tunefs_unlock_cluster, hfs, calls_since]
  | some h =>
    rw [unlock_cluster_calls c w h hfs]
    cases hl : w.cluster_locked <;> cases hx : h.fs_dlm_ctxt <;> simp

theorem set_lock_env_no_close (c : Consts) (s : Option String) (w : World) :
    ∀ e ∈ calls_since w (tunefs_set_lock_env c s w).2, e ≠ Event.ocfs2_close := by
  intro e he hc
  subst hc
  revert he
  rw [calls_since_append _ _ _ (set_lock_env_post c s w).2.2.2.2.2]
  cases s <;> simp

theorem lock_out_set_no_close (c : Consts) (err : errcode_t) (w : World) :
    ∀ e ∈ calls_since w (lock_out_set c err w).2, e ≠ Event.ocfs2_close := by
  rw [lock_out_set_cases]
  by_cases hf : (tunefs_set_lock_env c (lock_env_status c err w) w).1 ≠ 0
  · rw [if_pos hf]
    exact calls_since_all_trans _ w _ _ (set_lock_env_calls c _ w).1
      (unlock_cluster_frame c _).2.2.2.2.1 (set_lock_env_no_close c _ w)
      (unlock_cluster_no_close c _)
  · rw [if_neg hf]
    exact set_lock_env_no_close c _ w

theorem lock_acquire_no_close (c : Consts) (flags : Nat) (w : World) :
    ∀ e ∈ calls_since w (lock_acquire c flags w).2, e ≠ Event.ocfs2_close := by
  obtain ⟨_, _, _, _, _, _, dt, _⟩ := lock_down_post w
  have hpre : w.trace <+: (tunefs_unblock_signals (ocfs2_lock_down_cluster
      (tunefs_block_signals w)).2).trace := ⟨_, dt.symm⟩
  have hnc : ∀ e ∈ calls_since w (tunefs_unblock_signals (ocfs2_lock_down_cluster
      (tunefs_block_signals w)).2), e ≠ Event.ocfs2_close := by
    intro e he hc
    subst hc
    rw [calls_since_append _ _ _ dt] at he
    simp at he
  unfold lock_acquire
  simp only
  generalize tunefs_unblock_signals (ocfs2_lock_down_cluster (tunefs_block_signals w)).2 = w1
    at hpre hnc
  by_cases hd : (ocfs2_lock_down_cluster (tunefs_block_signals w)).1 = 0
  · rw [if_pos hd]
    exact calls_since_all_trans _ w { w1 with cluster_locked := true } _ hpre
      (lock_out_set_post c _ _).2.2.2.2.2.1 hnc (lock_out_set_no_close c _ _)
  · rw [if_neg hd]
    by_cases ht : (ocfs2_lock_down_cluster (tunefs_block_signals w)).1 =
        c.O2DLM_ET_TRYLOCK_FAILED ∧ flags &&& c.TUNEFS_FLAG_ONLINE ≠ 0
    · rw [if_pos ht]
      exact calls_since_all_trans _ w w1 _ hpre
        (lock_out_set_post c _ _).2.2.2.2.2.1 hnc (lock_out_set_no_close c _ _)
    · rw [if_neg ht]
      have hs : (ocfs2_shutdown_dlm w1).2.trace = w1.trace ++ [Event.ocfs2_shutdown_dlm] := by
        simp [ocfs2_shutdown_dlm, World.log, World.update_fs]
      refine calls_since_all_trans _ w w1 _ hpre ⟨_, hs.symm⟩ hnc ?_
      intro e he hc
      subst hc
      rw [calls_since_append _ _ _ hs] at he
      simp at he

theorem lock_start_no_close (c : Consts) (flags : Nat) (w : World) :
    ∀ e ∈ calls_since w (lock_start c flags w).2, e ≠ Event.ocfs2_close := by
  have it : (ocfs2_initialize_dlm (o2cb_init w).2).2.trace =
      w.trace ++ [Event.o2cb_init, Event.ocfs2_initialize_dlm] := by
    simp [ocfs2_initialize_dlm, o2cb_init, World.log, World.update_fs]
  have hpre : w.trace <+: (ocfs2_initialize_dlm (o2cb_init w).2).2.trace := ⟨_, it.symm⟩
  have hnc : ∀ e ∈ calls_since w (ocfs2_initialize_dlm (o2cb_init w).2).2,
      e ≠ Event.ocfs2_close := by
    intro e he hc
    subst hc
    rw [calls_since_append _ _ _ it] at he
    simp at he
  unfold lock_start
  simp only
  by_cases h0 : (o2cb_init w).1 ≠ 0
  · rw [if_pos h0]
    intro e he hc
    subst hc
    rw [calls_since_append w (o2cb_init w).2 [Event.o2cb_init] rfl] at he
    simp at he
  · rw [if_neg h0]
    by_cases ha : flags &&& c.TUNEFS_FLAG_NOCLUSTER ≠ 0 ∧
        (ocfs2_initialize_dlm (o2cb_init w).2).1 = 0
    · rw [if_pos ha]
      exact calls_since_all_trans _ w _ _ hpre (lock_out_set_post c _ _).2.2.2.2.2.1 hnc
        (lock_out_set_no_close c _ _)
    · rw [if_neg ha]
      by_cases hb : flags &&& c.TUNEFS_FLAG_NOCLUSTER ≠ 0 ∧
          (ocfs2_initialize_dlm (o2cb_init w).2).1 = c.O2CB_ET_INVALID_STACK_NAME
      · rw [if_pos hb]
        exact calls_since_all_trans _ w _ _ hpre (lock_out_set_post c _ _).2.2.2.2.2.1 hnc
          (lock_out_set_no_close c _ _)
      · rw [if_neg hb]
        by_cases hi : (ocfs2_initialize_dlm (o2cb_init w).2).1 ≠ 0
        · rw [if_pos hi]
          exact hnc
        · rw [if_neg hi]
          exact calls_since_all_trans _ w _ _ hpre (lock_acquire_grows c flags _) hnc
            (lock_acquire_no_close c _ _)

theorem lock_cluster_no_close (c : Consts) (flags : Nat) (w : World) (r : errcode_t × World)
    (hr : tunefs_lock_cluster c flags w = some r) :
    ∀ e ∈ calls_since w r.2, e ≠ Event.ocfs2_close := by
  unfold tunefs_lock_cluster at hr
  cases hfs : w.fs with
  | none =>
    rw [hfs] at hr
    exact Option.noConfusion hr
  | some h =>
    rw [hfs] at hr
    simp only at hr
    by_cases hml : ¬ h.mount_local = true
    · rw [if_pos hml] at hr
      by_cases henv : tunefs_get_lock_env c w = 0 ∨
          (flags &&& c.TUNEFS_FLAG_ONLINE ≠ 0 ∧
            tunefs_get_lock_env c w = c.TUNEFS_ET_PERFORM_ONLINE)
      · rw [if_pos henv] at hr
        cases hr
        intro e he
        simp [calls_since] at he
      · rw [if_neg henv] at hr
        cases hr
        exact lock_start_no_close c flags w
    · rw [if_neg hml] at hr
      cases hr
      exact lock_out_set_no_close c 0 w

theorem journal_check_loop_no_close (c : Consts) (h : ocfs2_filesys) (n : Nat) :
    ∀ (i : Nat) (ret : errcode_t) (w : World),
      ∀ e ∈ calls_since w (journal_check_loop c h n i ret w).2, e ≠ Event.ocfs2_close := by
  induction n with
  | zero =>
    intro i ret w e he
    simp [journal_check_loop, calls_since] at he
  | succ n ih =>
    intro i ret w e he
    unfold journal_check_loop at he
    simp only at he
    by_cases hlk : (h.lookup_journal i).1 ≠ 0
    · rw [if_pos hlk] at he
      simp [calls_since, World.log] at he
      subst he
      exact fun hh => Event.noConfusion hh
    · rw [if_neg hlk] at he
      by_cases hrd : (h.read_inode (h.lookup_journal i).2).1 ≠ 0
      · rw [if_pos hrd] at he
        simp [calls_since, World.log] at he
        rcases he with he | he <;> subst he <;> exact fun hh => Event.noConfusion hh
      · rw [if_neg hrd] at he
        have hn : (note_clusters (h.read_inode (h.lookup_journal i).2).2.i_clusters
            ((w.log (Event.ocfs2_lookup_system_inode i)).log
              (Event.ocfs2_read_inode (h.lookup_journal i).2))).trace =
            w.trace ++ [Event.ocfs2_lookup_system_inode i,
              Event.ocfs2_read_inode (h.lookup_journal i).2] := by
          rw [(note_clusters_frame _ _).2.2.2.2.2]
          simp [World.log]
        by_cases hd : (h.read_inode (h.lookup_journal i).2).2.ij_flags &&&
            c.OCFS2_JOURNAL_DIRTY_FL ≠ 0
        · rw [if_pos hd] at he
          rw [calls_since_append _ _ _ hn] at he
          simp at he
          rcases he with he | he <;> subst he <;> exact fun hh => Event.noConfusion hh
        · rw [if_neg hd] at he
          have hpre := (journal_check_loop_frame c h n (i + 1)
            (h.read_inode (h.lookup_journal i).2).1
            (note_clusters (h.read_inode (h.lookup_journal i).2).2.i_clusters
              ((w.log (Event.ocfs2_lookup_system_inode i)).log
                (Event.ocfs2_read_inode (h.lookup_journal i).2)))).2.2.2.2.2
          rw [calls_since_trans w _ _ ⟨_, hn.symm⟩ hpre, calls_since_append _ _ _ hn] at he
          rcases List.mem_append.mp he with he | he
          · simp at he
            rcases he with he | he <;> subst he <;> exact fun hh => Event.noConfusion hh
          · exact ih _ _ _ e he

theorem journal_check_no_close (c : Consts) (h : ocfs2_filesys) (w : World) :
    ∀ e ∈ calls_since w (tunefs_journal_check c h w).2, e ≠ Event.ocfs2_close := by
  intro e he
  unfold tunefs_journal_check at he
  simp only at he
  have hm : (w.log Event.ocfs2_malloc_block).trace = w.trace ++ [Event.ocfs2_malloc_block] :=
    rfl
  by_cases h1 : w.oc.ocfs2_malloc_block w.trace.length ≠ 0
  · rw [if_pos h1, calls_since_append _ _ _ hm] at he
    simp at he
    subst he
    exact fun hh => Event.noConfusion hh
  · rw [if_neg h1] at he
    have hpre := (journal_check_loop_frame c h h.fs_super.s_max_slots 0
      (w.oc.ocfs2_malloc_block w.trace.length) (w.log Event.ocfs2_malloc_block)).2.2.2.2.2
    have hlast : ((journal_check_loop c h h.fs_super.s_max_slots 0
        (w.oc.ocfs2_malloc_block w.trace.length) (w.log Event.ocfs2_malloc_block)).2.log
          Event.ocfs2_free).trace =
        (journal_check_loop c h h.fs_super.s_max_slots 0
          (w.oc.ocfs2_malloc_block w.trace.length) (w.log Event.ocfs2_malloc_block)).2.trace ++
          [Event.ocfs2_free] := rfl
    rw [calls_since_trans w _ _ (List.IsPrefix.trans ⟨_, hm.symm⟩ hpre) ⟨_, hlast.symm⟩,
      calls_since_append _ _ _ hlast,
      calls_since_trans w _ _ ⟨_, hm.symm⟩ hpre, calls_since_append _ _ _ hm] at he
    rcases List.mem_append.mp he with he | he
    · rcases List.mem_append.mp he with he | he
      · simp at he
        subst he
        exact fun hh => Event.noConfusion hh
      · exact journal_check_loop_no_close c h _ _ _ _ e he
    · simp at he
      subst he
      exact fun hh => Event.noConfusion hh

theorem open_out_keeps (c : Consts) (e : errcode_t) (wx : World) (r : errcode_t × World)
    (hr : some (open_out c e wx) = some r) (hnf : ¬ fatal c r.1) : r.2 = wx := by
  cases hr
  rw [(open_out_post c e wx).1] at hnf
  exact (open_out_post c e wx).2.2.2.2.1 hnf

theorem open_out_is_fatal (c : Consts) (e : errcode_t) (wx : World) (r : errcode_t × World)
    (hr : some (open_out c e wx) = some r) (hf : fatal c e) : fatal c r.1 := by
  cases hr
  rw [(open_out_post c e wx).1]
  exact hf

/-- After the feature checks, an open that does not end in a fatal error
leaves `fs` at the handle it had, up to the lock context, and has not called
`ocfs2_close`. -/
theorem open_locked_keeps (c : Consts) (hc : c.wf) (flags : Nat) (w w0 : World)
    (h0 : ocfs2_filesys) (hfs : w0.fs = some h0) (hl : w0.cluster_locked = false)
    (hp : w.trace <+: w0.trace) (hn0 : ∀ e ∈ calls_since w w0, e ≠ Event.ocfs2_close)
    (r : errcode_t × World) (hr : open_locked c flags w0 = some r) (hnf : ¬ fatal c r.1) :
    handle_volume r.2.fs = handle_volume w0.fs ∧
    ∀ e ∈ calls_since w r.2, e ≠ Event.ocfs2_close := by
  obtain ⟨rl, hlk, lvol, _, _, _, _, _, lp⟩ := lock_cluster_post c hc flags w0 h0 hfs hl
  have ln : ∀ e ∈ calls_since w rl.2, e ≠ Event.ocfs2_close :=
    calls_since_all_trans _ w w0 rl.2 hp lp hn0 (lock_cluster_no_close c flags w0 rl hlk)
  unfold open_locked at hr
  simp only [hlk] at hr
  by_cases hf : fatal c rl.1
  · rw [if_pos hf] at hr
    exact absurd (open_out_is_fatal c _ _ r hr hf) hnf
  · rw [if_neg hf] at hr
    cases hfs2 : rl.2.fs with
    | none =>
      rw [hfs2] at hr
      exact Option.noConfusion hr
    | some h2 =>
      rw [hfs2] at hr
      simp only at hr
      have hio : (rl.2.log Event.io_init_cache).trace = rl.2.trace ++ [Event.io_init_cache] :=
        rfl
      have hp1 : w.trace <+: (rl.2.log Event.io_init_cache).trace :=
        (hp.trans lp).trans ⟨_, hio.symm⟩
      have n1 : ∀ e ∈ calls_since w (rl.2.log Event.io_init_cache),
          e ≠ Event.ocfs2_close := by
        refine calls_since_all_trans _ w rl.2 _ (hp.trans lp) ⟨_, hio.symm⟩ ln ?_
        intro e he hcl
        subst hcl
        rw [calls_since_append _ _ _ hio] at he
        simp at he
      by_cases hpo : rl.1 ≠ c.TUNEFS_ET_PERFORM_ONLINE
      · rw [if_pos hpo] at hr
        obtain ⟨jfs, _, _, _, _, jp⟩ :=
          journal_check_frame c h2 (rl.2.log Event.io_init_cache)
        have nj : ∀ e ∈ calls_since w
            (tunefs_journal_check c h2 (rl.2.log Event.io_init_cache)).2,
            e ≠ Event.ocfs2_close :=
          calls_since_all_trans _ w _ _ hp1 jp n1 (journal_check_no_close c h2 _)
        have jvol : handle_volume
            (tunefs_journal_check c h2 (rl.2.log Event.io_init_cache)).2.fs =
            handle_volume w0.fs := by
          rw [jfs]
          exact lvol
        by_cases hj : (tunefs_journal_check c h2 (rl.2.log Event.io_init_cache)).1 ≠ 0
        · rw [if_pos hj] at hr
          obtain ⟨uvol, _, _, _, up, _⟩ := unlock_cluster_frame c
            (tunefs_journal_check c h2 (rl.2.log Event.io_init_cache)).2
          rw [open_out_keeps c _ _ r hr hnf]
          exact ⟨uvol.trans jvol,
            calls_since_all_trans _ w _ _ (hp1.trans jp) up nj (unlock_cluster_no_close c _)⟩
        · rw [if_neg hj] at hr
          rw [open_out_keeps c _ _ r hr hnf]
          exact ⟨jvol, nj⟩
      · rw [if_neg hpo] at hr
        rw [open_out_keeps c _ _ r hr hnf]
        exact ⟨lvol, n1⟩

/-- A `tunefs_open`, entered without the lock held, that does not end in a
fatal error after a successful `ocfs2_open` leaves `fs` at the handle of the
volume on `device` and has not called `ocfs2_close`. -/
theorem open_keeps_handle (c : Consts) (hc : c.wf) (device : String) (flags : Nat)
    (w : World) (hl : w.cluster_locked = false) (r : errcode_t × World)
    (hr : tunefs_open c device flags w = some r) (hnf : ¬ fatal c r.1)
    (hopen : w.oc.ocfs2_open w.trace.length = 0) :
    handle_volume r.2.fs = handle_volume (some (w.volume device)) ∧
    ∀ e ∈ calls_since w r.2, e ≠ Event.ocfs2_close := by
  obtain ⟨_, _, _, _, hfh, hfr, hft, _, _⟩ := codes_of_wf c hc
  unfold tunefs_open at hr
  simp only at hr
  generalize decide (flags &&& c.TUNEFS_FLAG_RW ≠ 0) = b at hr
  obtain ⟨o1, ofs, ol, _, _, _, ot⟩ := open_after_ocfs2_open device b w hopen
  have op : w.trace <+: (ocfs2_open device b w).2.trace := ⟨_, ot.symm⟩
  have onc : ∀ e ∈ calls_since w (ocfs2_open device b w).2, e ≠ Event.ocfs2_close := by
    intro e he hcl
    subst hcl
    rw [calls_since_append _ _ _ ot] at he
    simp at he
  have ovol : handle_volume (ocfs2_open device b w).2.fs =
      handle_volume (some (w.volume device)) := by
    rw [ofs]
    rfl
  rw [if_neg (not_not.mpr o1)] at hr
  by_cases hrw : flags &&& c.TUNEFS_FLAG_RW = 0
  · rw [if_pos hrw] at hr
    rw [open_out_keeps c _ _ r hr hnf]
    exact ⟨ovol, onc⟩
  · rw [if_neg hrw, ofs] at hr
    simp only at hr
    by_cases h1 : (w.volume device).fs_super.s_feature_incompat &&&
        c.OCFS2_FEATURE_INCOMPAT_HEARTBEAT_DEV ≠ 0
    · rw [if_pos h1] at hr
      exact absurd (open_out_is_fatal c _ _ r hr hfh) hnf
    · rw [if_neg h1] at hr
      by_cases h2 : (w.volume device).fs_super.s_feature_incompat &&&
          c.OCFS2_FEATURE_INCOMPAT_RESIZE_INPROG ≠ 0
      · rw [if_pos h2] at hr
        exact absurd (open_out_is_fatal c _ _ r hr hfr) hnf
      · rw [if_neg h2] at hr
        by_cases h3 : (w.volume device).fs_super.s_feature_incompat &&&
            c.OCFS2_FEATURE_INCOMPAT_TUNEFS_INPROG ≠ 0
        · rw [if_pos h3] at hr
          exact absurd (open_out_is_fatal c _ _ r hr hft) hnf
        · rw [if_neg h3] at hr
          obtain ⟨k1, k2⟩ := open_locked_keeps c hc flags w (ocfs2_open device b w).2 _ ofs
            (ol.trans hl) op onc r hr hnf
          exact ⟨k1.trans ovol, k2⟩

/-- C8 (as amended). Entered without the cluster lock held, `tunefs_open`
returns for every device, flags value and outcome of the external calls. When
it returns an error other than `TUNEFS_ET_PERFORM_ONLINE` and
`TUNEFS_ET_INVALID_STACK_NAME`, `fs` is NULL and `cluster_locked` is clear on
return, and `ocfs2_close` was called if `ocfs2_open` had succeeded; when it
returns 0, `TUNEFS_ET_PERFORM_ONLINE` or `TUNEFS_ET_INVALID_STACK_NAME` after
a successful `ocfs2_open`, the handle is left open: `fs` is the handle of the
volume on `device` (with or without a lock context) and `ocfs2_close` has not
been called. -/
theorem C8_fatal_open_holds_nothing (c : Consts) (hc : c.wf) (device : String) (flags : Nat)
    (w : World) (hl : w.cluster_locked = false) :
    ∃ r : errcode_t × World,
      tunefs_open c device flags w = some r ∧
      (fatal c r.1 →
        r.2.fs = none ∧ r.2.cluster_locked = false ∧
        (w.oc.ocfs2_open w.trace.length = 0 → Event.ocfs2_close ∈ calls_since w r.2)) ∧
      (¬ fatal c r.1 → w.oc.ocfs2_open w.trace.length = 0 →
        handle_volume r.2.fs = handle_volume (some (w.volume device)) ∧
        r.2.fs.isSome = true ∧
        ∀ e ∈ calls_since w r.2, e ≠ Event.ocfs2_close) := by
  obtain ⟨r, hr, hfat, hopen⟩ := open_holds_nothing c hc device flags w hl
  refine ⟨r, hr, hfat, fun hnf ho => ?_⟩
  obtain ⟨k1, k2⟩ := open_keeps_handle c hc device flags w hl r hr hnf ho
  exact ⟨k1, hopen hnf ho, k2⟩

/-- C8, concrete instance: a read-write open of a clustered volume on which
`ocfs2_lock_down_cluster` fails ends with `fs` NULL, the lock flag clear and
`ocfs2_close` called. -/
theorem C8_fatal_open_holds_nothing_witness :
    (start_world (one_slot_volume 0 false 0) none lock_down_fails).cluster_locked = false ∧
    ∃ r : errcode_t × World,
      tunefs_open ocfs2_consts "/dev/sdb1" 1
        (start_world (one_slot_volume 0 false 0) none lock_down_fails) = some r ∧
      r.1 = 77 ∧ r.2.fs = none ∧ r.2.cluster_locked = false ∧
      Event.ocfs2_close ∈
        calls_since (start_world (one_slot_volume 0 false 0) none lock_down_fails) r.2 := by
  refine ⟨rfl, ?_⟩
  obtain ⟨r, hr, hfat, _⟩ := C8_fatal_open_holds_nothing ocfs2_consts (by decide) "/dev/sdb1" 1
    (start_world (one_slot_volume 0 false 0) none lock_down_fails) rfl
  have h77 : r.1 = 77 := by
    have h1 : (tunefs_open ocfs2_consts "/dev/sdb1" 1
        (start_world (one_slot_volume 0 false 0) none lock_down_fails)).map Prod.fst =
        some 77 := by decide
    rw [hr] at h1
    exact Option.some.inj h1
  have hf : fatal ocfs2_consts r.1 := by
    rw [h77]
    decide
  exact ⟨r, hr, h77, (hfat hf).1, (hfat hf).2.1, (hfat hf).2.2 rfl⟩

/-- C8 as stated fails: entered with the cluster lock held (here on a session
that already holds it), a `tunefs_open` whose `ocfs2_open` fails returns that
error with `fs` NULL but `cluster_locked` still set. -/
theorem C8_counterexample :
    (tunefs_open ocfs2_consts "/dev/sdb1" 1 (held_world open_fails)).map Prod.fst = some 9 ∧
    fatal ocfs2_consts 9 ∧
    (tunefs_open ocfs2_consts "/dev/sdb1" 1 (held_world open_fails)).map
      (fun r => r.2.fs.isSome) = some false ∧
    (tunefs_open ocfs2_consts "/dev/sdb1" 1 (held_world open_fails)).map
      (fun r => r.2.cluster_locked) = some true := by
  decide


/-! ## tunefs_open on a dirty journal -/

/-- C4 (as amended). A read-write `tunefs_open`, entered without the lock
held, that passes the three feature checks and whose `tunefs_lock_cluster`
yields 0 or `TUNEFS_ET_INVALID_STACK_NAME` (so the open is not in
deferred-online mode), on a volume where the block allocation succeeds and
the first slot `k` with the OCFS2_JOURNAL_DIRTY_FL bit set is reached (the
journals of slots 0..k are found and readable), returns
`TUNEFS_ET_JOURNAL_DIRTY`; on return `cluster_locked` is clear and `fs` is
NULL. If `tunefs_lock_cluster` had taken the lock, `ocfs2_release_cluster` has
been called after it; if it had left a lock context, `ocfs2_shutdown_dlm` has
been called; and the last external call is `ocfs2_close`. -/
theorem C4_dirty_journal (c : Consts) (hc : c.wf) (device : String) (flags : Nat) (w : World)
    (hl : w.cluster_locked = false)
    (hrw : flags &&& c.TUNEFS_FLAG_RW ≠ 0)
    (hopen : w.oc.ocfs2_open w.trace.length = 0)
    (hhb : (w.volume device).fs_super.s_feature_incompat &&&
      c.OCFS2_FEATURE_INCOMPAT_HEARTBEAT_DEV = 0)
    (hres : (w.volume device).fs_super.s_feature_incompat &&&
      c.OCFS2_FEATURE_INCOMPAT_RESIZE_INPROG = 0)
    (htun : (w.volume device).fs_super.s_feature_incompat &&&
      c.OCFS2_FEATURE_INCOMPAT_TUNEFS_INPROG = 0)
    (r : errcode_t × World)
    (hlock : tunefs_lock_cluster c flags (ocfs2_open device true w).2 = some r)
    (hnf : ¬ fatal c r.1) (hno : r.1 ≠ c.TUNEFS_ET_PERFORM_ONLINE)
    (hmalloc : w.oc.ocfs2_malloc_block (r.2.trace.length + 1) = 0)
    (k : Nat) (hk : k < (w.volume device).fs_super.s_max_slots)
    (hread : ∀ i ≤ k, ((w.volume device).lookup_journal i).1 = 0 ∧
      ((w.volume device).read_inode ((w.volume device).lookup_journal i).2).1 = 0)
    (hclean : ∀ i < k,
      ((w.volume device).read_inode ((w.volume device).lookup_journal i).2).2.ij_flags &&&
        c.OCFS2_JOURNAL_DIRTY_FL = 0)
    (hdirty :
      ((w.volume device).read_inode ((w.volume device).lookup_journal k).2).2.ij_flags &&&
        c.OCFS2_JOURNAL_DIRTY_FL ≠ 0) :
    ∃ w1 : World,
      tunefs_open c device flags w = some (c.TUNEFS_ET_JOURNAL_DIRTY, w1) ∧
      w1.cluster_locked = false ∧ w1.fs = none ∧
      (r.2.cluster_locked = true → Event.ocfs2_release_cluster ∈ calls_since r.2 w1) ∧
      ((∃ h, r.2.fs = some h ∧ h.fs_dlm_ctxt = true) →
        Event.ocfs2_shutdown_dlm ∈ calls_since r.2 w1) ∧
      ∃ t, calls_since w w1 = t ++ [Event.ocfs2_close] := by
  obtain ⟨_, _, _, _, _, _, _, hfj, _⟩ := codes_of_wf c hc
  obtain ⟨_, ofs, ol, oo, ov, _, ot⟩ := open_after_ocfs2_open device true w hopen
  obtain ⟨r1, hr1, lvol, linv, _, _, lo, _, lp⟩ :=
    lock_cluster_post c hc flags (ocfs2_open device true w).2 _ ofs (ol.trans hl)
  rw [hlock] at hr1
  cases Option.some.inj hr1
  rw [ofs] at lvol
  obtain ⟨h2, hfs2, hsb, _, hlk, hrd⟩ := handle_volume_some _ _ lvol
  have hj : (tunefs_journal_check c h2 (r.2.log Event.io_init_cache)).1 =
      c.TUNEFS_ET_JOURNAL_DIRTY := by
    apply journal_check_dirty c h2 _ k
    · show r.2.oc.ocfs2_malloc_block (r.2.trace ++ [Event.io_init_cache]).length = 0
      rw [lo, oo]
      simpa using hmalloc
    · rw [hsb]; exact hk
    · rw [hlk, hrd]; exact hread
    · rw [hlk, hrd]; exact hclean
    · rw [hlk, hrd]; exact hdirty
  obtain ⟨jfs, jl, _, _, _, jp⟩ := journal_check_frame c h2 (r.2.log Event.io_init_cache)
  have jfs2 : (tunefs_journal_check c h2 (r.2.log Event.io_init_cache)).2.fs = some h2 :=
    jfs.trans hfs2
  have jl2 : (tunefs_journal_check c h2 (r.2.log Event.io_init_cache)).2.cluster_locked =
      r.2.cluster_locked := jl
  have jinv : lock_inv (tunefs_journal_check c h2 (r.2.log Event.io_init_cache)).2 := by
    intro hl1
    rw [jl] at hl1
    rw [jfs]
    exact linv hl1
  have hcl := unlock_cluster_clears c _ jinv
  obtain ⟨uvol, _, _, _, up, _⟩ := unlock_cluster_frame c
    (tunefs_journal_check c h2 (r.2.log Event.io_init_cache)).2
  have ucalls := unlock_cluster_calls c
    (tunefs_journal_check c h2 (r.2.log Event.io_init_cache)).2 h2 jfs2
  have usome : (tunefs_unlock_cluster c
      (tunefs_journal_check c h2 (r.2.log Event.io_init_cache)).2).2.fs.isSome = true :=
    isSome_of_handle_volume _ _ h2 uvol jfs2
  obtain ⟨_, _, _, q3, _, qp⟩ := open_out_post c c.TUNEFS_ET_JOURNAL_DIRTY
    (tunefs_unlock_cluster c
      (tunefs_journal_check c h2 (r.2.log Event.io_init_cache)).2).2
  have qt := (q3 hfj).2 usome
  have rp : r.2.trace <+: (tunefs_journal_check c h2 (r.2.log Event.io_init_cache)).2.trace :=
    List.IsPrefix.trans ⟨[Event.io_init_cache], rfl⟩ jp
  have wp : w.trace <+: r.2.trace := List.IsPrefix.trans ⟨_, ot.symm⟩ lp
  have heq : tunefs_open c device flags w =
      some (open_out c c.TUNEFS_ET_JOURNAL_DIRTY
        (tunefs_unlock_cluster c
          (tunefs_journal_check c h2 (r.2.log Event.io_init_cache)).2).2) := by
    rw [open_reaches_lock c device flags w hrw hopen hhb hres htun]
    unfold open_locked
    simp only [hlock, hnf, if_false, hfs2, hno, ne_eq, not_false_eq_true, if_true, hj,
      hfj.1]
  refine ⟨(open_out c c.TUNEFS_ET_JOURNAL_DIRTY
    (tunefs_unlock_cluster c
      (tunefs_journal_check c h2 (r.2.log Event.io_init_cache)).2).2).2, ?_, ?_,
    open_out_fatal_fs c _ _ hfj, ?_, ?_, ?_⟩
  · rw [heq]
    congr 1
    exact Prod.ext (open_out_fst c _ _) rfl
  · unfold open_out
    rw [if_pos hfj]
    split
    · exact hcl
    · exact hcl
  · intro hlk1
    obtain ⟨h3, hfs3, hx3⟩ := linv hlk1
    rw [hfs2] at hfs3
    cases hfs3
    apply mem_calls_since_mid r.2 _ _ _ _ rp up qp
    rw [ucalls, jl2, hlk1, hx3]
    simp
  · rintro ⟨h3, hfs3, hx3⟩
    rw [hfs2] at hfs3
    cases hfs3
    apply mem_calls_since_mid r.2 _ _ _ _ rp up qp
    rw [ucalls, hx3]
    simp
  · refine ⟨calls_since w (tunefs_unlock_cluster c
      (tunefs_journal_check c h2 (r.2.log Event.io_init_cache)).2).2, ?_⟩
    rw [calls_since_trans w _ _ ((wp.trans rp).trans up) ⟨_, qt.symm⟩,
      calls_since_append _ _ _ qt]

/-- C4, concrete instance: a read-write open of a clustered volume whose only
journal is dirty; the lock is taken, released again, and the handle is
closed. -/
theorem C4_dirty_journal_witness :
    ∃ w1 : World,
      tunefs_open ocfs2_consts "/dev/sdb1" 1
          (start_world (one_slot_volume 0 false 1) none all_succeed) =
        some (ocfs2_consts.TUNEFS_ET_JOURNAL_DIRTY, w1) ∧
      w1.cluster_locked = false ∧ w1.fs = none ∧
      Event.ocfs2_release_cluster ∈ w1.trace ∧
      ∃ t, calls_since (start_world (one_slot_volume 0 false 1) none all_succeed) w1 =
        t ++ [Event.ocfs2_close] := by
  obtain ⟨w1, h1, h2, h3, h4, _, h6⟩ := C4_dirty_journal ocfs2_consts (by decide) "/dev/sdb1" 1
    (start_world (one_slot_volume 0 false 1) none all_succeed)
    rfl (by decide) rfl (by decide) (by decide) (by decide)
    _ rfl (by decide) (by decide) rfl
    0 (by decide) (fun _ _ => ⟨rfl, rfl⟩) (fun i hi => absurd hi (Nat.not_lt_zero i))
    (by decide)
  exact ⟨w1, h1, h2, h3, List.mem_of_mem_drop (h4 (by decide)), h6⟩


/-! ## tunefs_lock_cluster: an unrecognised value of the lock-state variable -/

theorem env_sim_log (v : String) (a b : World) (e : Event) (h : env_sim v a b) :
    env_sim v (a.log e) (b.log e) := by
  obtain ⟨h1, h2, h3, h4, h5, h6, h7⟩ := h
  exact ⟨h1, h2, h3, h4, h5, by simp [World.log, h6], h7⟩

theorem env_sim_locked (v : String) (a b : World) (x : Bool) (h : env_sim v a b) :
    env_sim v { a with cluster_locked := x } { b with cluster_locked := x } := by
  obtain ⟨h1, _, h3, h4, h5, h6, h7⟩ := h
  exact ⟨h1, rfl, h3, h4, h5, h6, h7⟩

theorem o2cb_init_sim (v : String) (a b : World) (h : env_sim v a b) :
    (o2cb_init a).1 = (o2cb_init b).1 ∧ env_sim v (o2cb_init a).2 (o2cb_init b).2 := by
  refine ⟨?_, env_sim_log v a b _ h⟩
  obtain ⟨_, _, _, _, h5, h6, _⟩ := h
  simp [o2cb_init, h5, h6]

theorem initialize_dlm_sim (v : String) (a b : World) (h : env_sim v a b) :
    (ocfs2_initialize_dlm a).1 = (ocfs2_initialize_dlm b).1 ∧
    env_sim v (ocfs2_initialize_dlm a).2 (ocfs2_initialize_dlm b).2 := by
  obtain ⟨h1, h2, h3, h4, h5, h6, h7⟩ := h
  refine ⟨by simp [ocfs2_initialize_dlm, h5, h6], ?_, h2, h3, h4, h5, ?_, h7⟩
  · simp [ocfs2_initialize_dlm, World.update_fs, World.log, h1, h5, h6]
  · simp [ocfs2_initialize_dlm, World.update_fs, World.log, h6]

theorem lock_down_sim (v : String) (a b : World) (h : env_sim v a b) :
    (ocfs2_lock_down_cluster (tunefs_block_signals a)).1 =
      (ocfs2_lock_down_cluster (tunefs_block_signals b)).1 ∧
    env_sim v (tunefs_unblock_signals (ocfs2_lock_down_cluster (tunefs_block_signals a)).2)
      (tunefs_unblock_signals (ocfs2_lock_down_cluster (tunefs_block_signals b)).2) := by
  refine ⟨?_, env_sim_log v _ _ _ (env_sim_log v _ _ _ (env_sim_log v a b _ h))⟩
  obtain ⟨_, _, _, _, h5, h6, _⟩ := h
  simp [ocfs2_lock_down_cluster, tunefs_block_signals, World.log, h5, h6]

theorem release_sim (v : String) (a b : World) (h : env_sim v a b) :
    (ocfs2_release_cluster (tunefs_block_signals a)).1 =
      (ocfs2_release_cluster (tunefs_block_signals b)).1 ∧
    env_sim v (tunefs_unblock_signals (ocfs2_release_cluster (tunefs_block_signals a)).2)
      (tunefs_unblock_signals (ocfs2_release_cluster (tunefs_block_signals b)).2) := by
  refine ⟨?_, env_sim_log v _ _ _ (env_sim_log v _ _ _ (env_sim_log v a b _ h))⟩
  obtain ⟨_, _, _, _, h5, h6, _⟩ := h
  simp [ocfs2_release_cluster, tunefs_block_signals, World.log, h5, h6]

theorem shutdown_dlm_sim (v : String) (a b : World) (h : env_sim v a b) :
    (ocfs2_shutdown_dlm a).1 = (ocfs2_shutdown_dlm b).1 ∧
    env_sim v (ocfs2_shutdown_dlm a).2 (ocfs2_shutdown_dlm b).2 := by
  obtain ⟨h1, h2, h3, h4, h5, h6, h7⟩ := h
  refine ⟨by simp [ocfs2_shutdown_dlm, h5, h6], ?_, h2, h3, h4, h5, ?_, h7⟩
  · simp [ocfs2_shutdown_dlm, World.update_fs, World.log, h1, h5, h6]
  · simp [ocfs2_shutdown_dlm, World.update_fs, World.log, h6]

theorem set_lock_env_sim (c : Consts) (v : String) (s : Option String) (a b : World)
    (h : env_sim v a b) :
    (tunefs_set_lock_env c s a).1 = (tunefs_set_lock_env c s b).1 ∧
    env_sim v (tunefs_set_lock_env c s a).2 (tunefs_set_lock_env c s b).2 := by
  obtain ⟨h1, h2, h3, h4, h5, h6, h7⟩ := h
  cases s with
  | none =>
    refine ⟨by simp [tunefs_set_lock_env, unsetenv, h5, h6], h1, h2, h3, h4, h5, ?_, ?_⟩
    · simp [tunefs_set_lock_env, unsetenv, World.log, h6]
    · show (if a.oc.unsetenv a.trace.length = 0 then none else a.lockenv) =
          (if b.oc.unsetenv b.trace.length = 0 then none else b.lockenv) ∨
        (if a.oc.unsetenv a.trace.length = 0 then none else a.lockenv) = some v ∧
          (if b.oc.unsetenv b.trace.length = 0 then none else b.lockenv) = none
      rw [h5, h6]
      by_cases hu : b.oc.unsetenv b.trace.length = 0
      · rw [if_pos hu, if_pos hu]
        exact Or.inl rfl
      · rw [if_neg hu, if_neg hu]
        exact h7
  | some x =>
    refine ⟨by simp [tunefs_set_lock_env, setenv, h5, h6], h1, h2, h3, h4, h5, ?_, ?_⟩
    · simp [tunefs_set_lock_env, setenv, World.log, h6]
    · show (if a.oc.setenv a.trace.length = 0 then some x else a.lockenv) =
          (if b.oc.setenv b.trace.length = 0 then some x else b.lockenv) ∨
        (if a.oc.setenv a.trace.length = 0 then some x else a.lockenv) = some v ∧
          (if b.oc.setenv b.trace.length = 0 then some x else b.lockenv) = none
      rw [h5, h6]
      by_cases hu : b.oc.setenv b.trace.length = 0
      · rw [if_pos hu, if_pos hu]
        exact Or.inl rfl
      · rw [if_neg hu, if_neg hu]
        exact h7

theorem unlock_cluster_sim (c : Consts) (v : String) (a b : World) (h : env_sim v a b) :
    (tunefs_unlock_cluster c a).1 = (tunefs_unlock_cluster c b).1 ∧
    env_sim v (tunefs_unlock_cluster c a).2 (tunefs_unlock_cluster c b).2 := by
  have hfs := h.1
  have hcl := h.2.1
  unfold tunefs_unlock_cluster
  rw [hfs]
  cases hb : b.fs with
  | none => exact ⟨rfl, h⟩
  | some hh =>
    simp only
    have hrel : (unlock_release hh a).1 = (unlock_release hh b).1 ∧
        env_sim v (unlock_release hh a).2 (unlock_release hh b).2 := by
      unfold unlock_release
      rw [hcl]
      by_cases hc1 : b.cluster_locked = true ∧ hh.fs_dlm_ctxt = true
      · rw [if_pos hc1, if_pos hc1]
        exact ⟨(release_sim v a b h).1, env_sim_locked v _ _ false (release_sim v a b h).2⟩
      · rw [if_neg hc1, if_neg hc1]
        exact ⟨rfl, h⟩
    have hsh : (unlock_shutdown hh (unlock_release hh a).1 (unlock_release hh a).2).1 =
        (unlock_shutdown hh (unlock_release hh b).1 (unlock_release hh b).2).1 ∧
        env_sim v (unlock_shutdown hh (unlock_release hh a).1 (unlock_release hh a).2).2
          (unlock_shutdown hh (unlock_release hh b).1 (unlock_release hh b).2).2 := by
      unfold unlock_shutdown
      rw [hrel.1]
      by_cases hx : hh.fs_dlm_ctxt = true
      · rw [if_pos hx, if_pos hx]
        exact ⟨by simp only [(shutdown_dlm_sim v _ _ hrel.2).1],
          (shutdown_dlm_sim v _ _ hrel.2).2⟩
      · rw [if_neg hx, if_neg hx]
        exact ⟨rfl, hrel.2⟩
    obtain ⟨s1, s2⟩ := set_lock_env_sim c v none _ _ hsh.2
    exact ⟨by rw [hsh.1, s1], s2⟩

theorem lock_out_set_sim (c : Consts) (v : String) (err : errcode_t) (a b : World)
    (h : env_sim v a b) :
    (lock_out_set c err a).1 = (lock_out_set c err b).1 ∧
    env_sim v (lock_out_set c err a).2 (lock_out_set c err b).2 := by
  rw [lock_out_set_cases, lock_out_set_cases]
  have hst : lock_env_status c err a = lock_env_status c err b := by
    unfold lock_env_status
    rw [h.2.1]
  rw [hst]
  obtain ⟨s1, s2⟩ := set_lock_env_sim c v (lock_env_status c err b) a b h
  rw [s1]
  by_cases hf : (tunefs_set_lock_env c (lock_env_status c err b) b).1 ≠ 0
  · rw [if_pos hf, if_pos hf]
    exact ⟨rfl, (unlock_cluster_sim c v _ _ s2).2⟩
  · rw [if_neg hf, if_neg hf]
    exact ⟨rfl, s2⟩

theorem lock_acquire_sim (c : Consts) (v : String) (flags : Nat) (a b : World)
    (h : env_sim v a b) :
    (lock_acquire c flags a).1 = (lock_acquire c flags b).1 ∧
    env_sim v (lock_acquire c flags a).2 (lock_acquire c flags b).2 := by
  obtain ⟨d1, d2⟩ := lock_down_sim v a b h
  unfold lock_acquire
  simp only
  rw [d1]
  by_cases hd : (ocfs2_lock_down_cluster (tunefs_block_signals b)).1 = 0
  · rw [if_pos hd, if_pos hd]
    exact lock_out_set_sim c v _ _ _ (env_sim_locked v _ _ true d2)
  · rw [if_neg hd, if_neg hd]
    by_cases ht : (ocfs2_lock_down_cluster (tunefs_block_signals b)).1 =
        c.O2DLM_ET_TRYLOCK_FAILED ∧ flags &&& c.TUNEFS_FLAG_ONLINE ≠ 0
    · rw [if_pos ht, if_pos ht]
      exact lock_out_set_sim c v _ _ _ d2
    · rw [if_neg ht, if_neg ht]
      exact ⟨rfl, (shutdown_dlm_sim v _ _ d2).2⟩

theorem lock_start_sim (c : Consts) (v : String) (flags : Nat) (a b : World)
    (h : env_sim v a b) :
    (lock_start c flags a).1 = (lock_start c flags b).1 ∧
    env_sim v (lock_start c flags a).2 (lock_start c flags b).2 := by
  obtain ⟨o1, o2⟩ := o2cb_init_sim v a b h
  obtain ⟨i1, i2⟩ := initialize_dlm_sim v _ _ o2
  unfold lock_start
  simp only
  rw [o1]
  by_cases h0 : (o2cb_init b).1 ≠ 0
  · rw [if_pos h0, if_pos h0]
    exact ⟨o1, o2⟩
  · rw [if_neg h0, if_neg h0, i1]
    by_cases ha : flags &&& c.TUNEFS_FLAG_NOCLUSTER ≠ 0 ∧
        (ocfs2_initialize_dlm (o2cb_init b).2).1 = 0
    · rw [if_pos ha, if_pos ha]
      exact lock_out_set_sim c v _ _ _ i2
    · rw [if_neg ha, if_neg ha]
      by_cases hb : flags &&& c.TUNEFS_FLAG_NOCLUSTER ≠ 0 ∧
          (ocfs2_initialize_dlm (o2cb_init b).2).1 = c.O2CB_ET_INVALID_STACK_NAME
      · rw [if_pos hb, if_pos hb]
        exact lock_out_set_sim c v _ _ _ i2
      · rw [if_neg hb, if_neg hb]
        by_cases hi : (ocfs2_initialize_dlm (o2cb_init b).2).1 ≠ 0
        · rw [if_pos hi, if_pos hi]
          exact ⟨i1, i2⟩
        · rw [if_neg hi, if_neg hi]
          exact lock_acquire_sim c v flags _ _ i2

/-- C6 (as amended). On a volume that is not local, when `_TUNEFS_OCFS2_LOCK`
holds a value `v` other than "locked" and "online", `tunefs_get_lock_env`
answers `TUNEFS_ET_INVALID_STACK_NAME`, the answer it also gives for an unset
variable, and `tunefs_lock_cluster` treats the value exactly as an unset
variable: its first external call is `o2cb_init`, and compared with the same
call made with the variable unset it returns the same value, makes the same
external calls, and leaves the same handle, `cluster_locked` and other state;
the variable itself ends with the same value in both runs, or, where the call
does not rewrite it, still holds `v`. -/
theorem C6_unrecognised_lock_env (c : Consts) (hc : c.wf) (flags : Nat) (w : World)
    (h : ocfs2_filesys) (hfs : w.fs = some h) (hnl : h.mount_local = false)
    (v : String) (henv : w.lockenv = some v)
    (hv1 : v ≠ TUNEFS_OCFS2_LOCK_ENV_LOCKED) (hv2 : v ≠ TUNEFS_OCFS2_LOCK_ENV_ONLINE) :
    tunefs_get_lock_env c w = c.TUNEFS_ET_INVALID_STACK_NAME ∧
    tunefs_get_lock_env c { w with lockenv := none } = c.TUNEFS_ET_INVALID_STACK_NAME ∧
    ∃ r r0 : errcode_t × World,
      tunefs_lock_cluster c flags w = some r ∧
      tunefs_lock_cluster c flags { w with lockenv := none } = some r0 ∧
      r.1 = r0.1 ∧ env_sim v r.2 r0.2 ∧
      (calls_since w r.2).head? = some Event.o2cb_init := by
  obtain ⟨his, _, _, _, _, _, _, _, hne⟩ := codes_of_wf c hc
  have hg : tunefs_get_lock_env c w = c.TUNEFS_ET_INVALID_STACK_NAME := by
    simp [tunefs_get_lock_env, henv, hv1, hv2]
  have hg0 : tunefs_get_lock_env c { w with lockenv := none } =
      c.TUNEFS_ET_INVALID_STACK_NAME := rfl
  have hsim : env_sim v w { w with lockenv := none } :=
    ⟨rfl, rfl, rfl, rfl, rfl, rfl, Or.inr ⟨henv, rfl⟩⟩
  obtain ⟨s1, s2⟩ := lock_start_sim c v flags w { w with lockenv := none } hsim
  refine ⟨hg, hg0, lock_start c flags w, lock_start c flags { w with lockenv := none },
    ?_, ?_, s1, s2, lock_start_first_call c flags w⟩
  · simp [tunefs_lock_cluster, hfs, hnl, hg, his, hne]
  · simp [tunefs_lock_cluster, hfs, hnl, tunefs_get_lock_env, his, hne]

/-- C6, concrete instance: the variable holds "bogus"; the call returns what
it returns with the variable unset, after the same external calls. -/
theorem C6_unrecognised_lock_env_witness :
    ∃ r r0 : errcode_t × World,
      tunefs_lock_cluster ocfs2_consts 1 (cluster_world (some "bogus") all_succeed) = some r ∧
      tunefs_lock_cluster ocfs2_consts 1
        { cluster_world (some "bogus") all_succeed with lockenv := none } = some r0 ∧
      r.1 = r0.1 ∧ r.2.trace = r0.2.trace ∧ r.2.cluster_locked = r0.2.cluster_locked := by
  obtain ⟨_, _, r, r0, h1, h2, h3, h4, _⟩ := C6_unrecognised_lock_env ocfs2_consts (by decide) 1
    (cluster_world (some "bogus") all_succeed) (one_slot_volume 0 false 0) rfl rfl "bogus" rfl
    (by decide) (by decide)
  exact ⟨r, r0, h1, h2, h3, h4.2.2.2.2.2.1, h4.2.1⟩

end Tunefs
